import Mathlib

/-!
# DetectX client: detection event processing and export pipeline

A shallow embedding of the C sources under `src/app` (`Output_helpers.c`,
`Output_crop_cache.c`, `Output.c`, `main.c`, `Model.c`) together with theorems
about the embedded functions.

Conventions of the embedding

* A C string is the list of its `char`s before the terminating NUL
  (`CStr`, one list element per C `char`).  `strcmp(a, b) == 0` is equality of
  the lists and `strncpy(dst, src, 63); dst[63] = 0` is `src.take 63`.
* A byte buffer is a `List Nat`; a byte is read as `b % 256`.
* `int` and `unsigned` values are `Int`/`Nat`; where the C arithmetic is
  unsigned 32 bit the wrap-around is written `% 2 ^ 32`.
* Time stamps (`double`, epoch milliseconds) are `Int`: the values involved are
  integral and far below `2 ^ 53`, where `double` arithmetic is exact.
* The fractional `double` values of a detection (confidence and box) are
  `Fraction`s; their products, quotients and sums are rounded to the nearest
  `double` (53 significant bits, ties to even) before they are used.
* Calls into collaborators that are not part of the sources (the clock, the
  JPEG cropper, the file system, the MQTT and HTTP clients, `malloc`) are
  inputs of the embedded function under the name of the C call; what the code
  sends to them is recorded in a trace of `Action`s.
-/

namespace DetectX

/-- A C string: the `char`s before the terminating NUL. -/
abbrev CStr := List Char

/-! ## `Output_helpers.c`: `base64_encode` -/

/-- The table `base64_table` of `Output_helpers.c`. -/
def base64_table : List Char :=
  "ABCDEFGHIJKLMNOPQRSTUVWXYZabcdefghijklmnopqrstuvwxyz0123456789+/".toList

/-- The inner loop `while (valb >= 0) { *pos++ = base64_table[(val >> valb) & 0x3F]; valb -= 6; }`.
`val` is the bit pattern of the C `int`; only bits 0..11 are ever read.  The
first argument bounds the number of iterations (`valb / 6 + 1` suffice). -/
def base64_emit : Nat → Nat → Int → List Char → Int × List Char
  | 0, _, valb, out => (valb, out)
  | fuel + 1, val, valb, out =>
    if 0 ≤ valb then
      base64_emit fuel val (valb - 6)
        (out ++ [base64_table.getD ((val >>> valb.toNat) &&& 0x3F) 'A'])
    else (valb, out)

/-- The loop `for (i = 0; i < len; ++i)` of `base64_encode`. -/
def base64_loop : List Nat → Nat → Int → List Char → Nat × Int × List Char
  | [], val, valb, out => (val, valb, out)
  | b :: rest, val, valb, out =>
    let val1 := (val * 256 + b % 256) % 2 ^ 32
    let valb1 := valb + 8
    let r := base64_emit (valb1.toNat + 1) val1 valb1 out
    base64_loop rest val1 r.1 r.2

/-- The loop `while ((pos - out) % 4) *pos++ = '='`; at most three iterations. -/
def base64_pad : Nat → List Char → List Char
  | 0, out => out
  | fuel + 1, out => if out.length % 4 ≠ 0 then base64_pad fuel (out ++ ['=']) else out

/-- The function `base64_encode(src, len)`.  `malloc_ok` is the outcome of the
`malloc` of the output buffer; `src = none` is the NULL pointer. -/
def base64_encode (malloc_ok : Bool) (src : Option (List Nat)) (len : Nat) :
    Option (List Char) :=
  match src with
  | none => none
  | some bytes =>
    if len = 0 then none
    else if !malloc_ok then none
    else
      let r := base64_loop (bytes.take len) 0 (-6) []
      let val := r.1
      let valb := r.2.1
      let out := r.2.2
      let out1 :=
        if valb > -6 then
          out ++ [base64_table.getD ((((val * 256) % 2 ^ 32) >>> (valb + 8).toNat) &&& 0x3F) 'A']
        else out
      some (base64_pad 4 out1)

/-! ## `Output_crop_cache.c` -/

/-- The constant `CROP_HISTORY_SIZE`. -/
def CROP_HISTORY_SIZE : Nat := 10

/-- The struct `CropEntry`. -/
structure CropEntry where
  base64_image : Option (List Char)
  label : CStr
  confidence : Int
  x : Int
  y : Int
  w : Int
  h : Int
  deriving DecidableEq, Repr

/-- A slot as left by static initialisation and by `output_crop_cache_reset`. -/
def CropEntry.cleared : CropEntry :=
  { base64_image := none, label := [], confidence := 0, x := 0, y := 0, w := 0, h := 0 }

/-- The ring buffer `crop_history`, `crop_history_head`, `crop_history_count`. -/
structure CropCache where
  crop_history : List CropEntry
  crop_history_head : Nat
  crop_history_count : Nat
  deriving DecidableEq, Repr

/-- The statically initialised cache. -/
def CropCache.init : CropCache :=
  { crop_history := List.replicate CROP_HISTORY_SIZE CropEntry.cleared,
    crop_history_head := 0, crop_history_count := 0 }

/-- The function `output_crop_cache_add`.  Returns the handle (the base64
string, `none` for NULL) and the cache afterwards. -/
def output_crop_cache_add (malloc_ok : Bool) (c : CropCache)
    (jpeg_data : Option (List Nat)) (jpeg_size : Nat) (label : Option CStr)
    (confidence x y w h : Int) : Option (List Char) × CropCache :=
  match jpeg_data, label with
  | none, _ => (none, c)
  | some _, none => (none, c)
  | some bytes, some lbl =>
    if jpeg_size = 0 then (none, c)
    else
      match base64_encode malloc_ok (some bytes) jpeg_size with
      | none => (none, c)
      | some b64img =>
        let entry : CropEntry :=
          { base64_image := some b64img, label := lbl.take 63, confidence := confidence,
            x := x, y := y, w := w, h := h }
        (some b64img,
          { crop_history := c.crop_history.set c.crop_history_head entry,
            crop_history_head := (c.crop_history_head + 1) % CROP_HISTORY_SIZE,
            crop_history_count :=
              if c.crop_history_count < CROP_HISTORY_SIZE then c.crop_history_count + 1
              else c.crop_history_count })

/-- The function `output_crop_cache_reset`. -/
def output_crop_cache_reset (_c : CropCache) : CropCache :=
  { crop_history := List.replicate CROP_HISTORY_SIZE CropEntry.cleared,
    crop_history_head := 0, crop_history_count := 0 }

/-- One element of the JSON array answered by the crops endpoint. -/
structure CropItem where
  image : List Char
  label : CStr
  confidence : Int
  x : Int
  y : Int
  w : Int
  h : Int
  deriving DecidableEq, Repr

/-- The JSON object built from one slot in `output_crop_cache_http_callback`. -/
def CropEntry.toItem (e : CropEntry) : CropItem :=
  { image := e.base64_image.getD [], label := e.label, confidence := e.confidence,
    x := e.x, y := e.y, w := e.w, h := e.h }

/-- The loop `for (i = 0; i < crop_history_count; ++i)` of the callback, started
at slot `idx` with `n` iterations left. -/
def crop_dump_loop (hist : List CropEntry) : Nat → Nat → List CropItem
  | _, 0 => []
  | idx, n + 1 =>
    (hist.getD idx CropEntry.cleared).toItem ::
      crop_dump_loop hist ((idx + CROP_HISTORY_SIZE - 1) % CROP_HISTORY_SIZE) n

/-- What the crops endpoint answers. -/
inductive HttpReply where
  | error (code : Nat) (text : String)
  | json (items : List CropItem)
  deriving DecidableEq, Repr

/-- The function `output_crop_cache_http_callback`, given the request method. -/
def output_crop_cache_http_callback (c : CropCache) (method : CStr) : HttpReply :=
  if method ≠ "GET".toList then HttpReply.error 405 "Method Not Allowed"
  else
    HttpReply.json
      (crop_dump_loop c.crop_history
        ((c.crop_history_head + CROP_HISTORY_SIZE - 1) % CROP_HISTORY_SIZE)
        c.crop_history_count)

/-! ## `Output.c`: the label table -/

/-- The constant `MAX_LABELS`. -/
def MAX_LABELS : Nat := 32

/-- The constant `MAX_ROLLING`. -/
def MAX_ROLLING : Nat := 16

/-- The struct `LabelEventState`.  `state` is 0 (LOW) or 1 (HIGH).  The indices
`rolling_head` and `rolling_count` start at 0 and are only ever assigned
`(head + 1) % window_size` and `count + 1`, so they are kept as naturals. -/
structure LabelEventState where
  name : CStr
  state : Int
  rolling : List Int
  rolling_head : Nat
  rolling_count : Nat
  last_detect_time : Int
  deriving DecidableEq, Repr

/-- The entry written by `find_or_create_label_state` for a new label. -/
def LabelEventState.create (label : CStr) : LabelEventState :=
  { name := label.take 63, state := 0, rolling := List.replicate MAX_ROLLING 0,
    rolling_head := 0, rolling_count := 0, last_detect_time := 0 }

/-- The search loop of `find_or_create_label_state`: the first index `i` below
`eventsCache_len` with `strcmp(eventsCache[i].name, label) == 0`. -/
def find_label_state (label : CStr) : List LabelEventState → Option Nat
  | [] => none
  | e :: rest =>
    if e.name = label then some 0 else (find_label_state label rest).map (fun i => i + 1)

/-- The function `find_or_create_label_state`.  The table is the list of its
first `eventsCache_len` entries; the result is the table afterwards and the
index of the returned entry (`none` for NULL). -/
def find_or_create_label_state (eventsCache : List LabelEventState) (label : CStr) :
    List LabelEventState × Option Nat :=
  match find_label_state label eventsCache with
  | some i => (eventsCache, some i)
  | none =>
    if eventsCache.length < MAX_LABELS then
      (eventsCache ++ [LabelEventState.create label], some eventsCache.length)
    else (eventsCache, none)

/-! ## Settings and collaborators -/

/-- The `cropping` object of the settings.  The four switches are the results
of `cJSON_IsTrue` on the items. -/
structure CroppingSettings where
  active : Bool
  sdcard : Bool
  mqtt : Bool
  http : Bool
  throttle : Option Int
  leftborder : Option Int
  rightborder : Option Int
  topborder : Option Int
  bottomborder : Option Int
  http_url : Option CStr
  http_auth : Option CStr
  http_username : Option CStr
  http_password : Option CStr
  http_token : Option CStr
  deriving DecidableEq, Repr

/-- The `eventLogic` object of the settings. -/
structure EventLogic where
  frames : Option Int
  window : Option Int
  deriving DecidableEq, Repr

/-- The `aoi` object of the settings. -/
structure AoiSettings where
  x1 : Option Int
  y1 : Option Int
  x2 : Option Int
  y2 : Option Int
  deriving DecidableEq, Repr

/-- The `size` object of the settings; `ImageProcess` reads its four items
without a check, so they are taken as present. -/
structure SizeSettings where
  x1 : Int
  y1 : Int
  x2 : Int
  y2 : Int
  deriving DecidableEq, Repr

/-- The items of the `settings` configuration object read by the pipeline.
`ignore` is the ignore list when the item is a JSON array of strings. -/
structure Settings where
  cropping : Option CroppingSettings
  prioritize : Option CStr
  eventLogic : Option EventLogic
  minEventDuration : Option Int
  aoi : Option AoiSettings
  size : Option SizeSettings
  confidence : Option Int
  ignore : Option (List CStr)
  deriving DecidableEq, Repr

/-- A detection as `Output` reads it: the `label` item when it is a string, the
`c` and `timestamp` items when they are numbers, and the box items
(`valuedouble` converted to `int`). -/
structure Detection where
  label : Option CStr
  c : Option Int
  timestamp : Option Int
  x : Option Int
  y : Option Int
  w : Option Int
  h : Option Int
  deriving DecidableEq, Repr

/-- The payload of a crop export (`label`, `timestamp`, `confidence`, box and
base64 image). -/
structure CropPayload where
  label : CStr
  timestamp : Int
  confidence : Int
  x : Int
  y : Int
  w : Int
  h : Int
  image : List Char
  deriving DecidableEq, Repr

/-- What `Output` and `Output_DeactivateExpired` send to their collaborators. -/
inductive Action where
  /-- Call `ACAP_STATUS_SetObject("labels", "detections", ...)`. -/
  | status_detections (dets : List Detection)
  /-- Call `MQTT_Publish_JSON("detection/<serial>", ...)`. -/
  | mqtt_detections (dets : List Detection)
  /-- Call `ACAP_EVENTS_Fire_State(label, state)`. -/
  | fire_state (label : CStr) (state : Int)
  /-- Call `MQTT_Publish_JSON("event/<serial>/<label>/true|false", ...)`. -/
  | mqtt_event (label : CStr) (state : Bool)
  /-- Call `save_jpeg_to_file` on `crop_<label>_<timestamp>_<idx>.jpg`. -/
  | save_jpeg (safe_label : CStr) (timestamp : Int) (idx : Nat) (jpeg : List Nat)
  /-- Call `save_label_to_file` on `crop_<label>_<timestamp>_<idx>.txt`. -/
  | save_label (safe_label : CStr) (timestamp : Int) (idx : Nat) (label : CStr)
      (x y w h : Int)
  /-- Call `MQTT_Publish_JSON("crop/<serial>", payload)`. -/
  | mqtt_crop (payload : CropPayload)
  /-- Call `output_http_post_json(url, payload + serial, ...)`. -/
  | http_post (url : CStr) (payload : CropPayload)
  /-- A `LOG_WARN` line. -/
  | warn (text : String)
  deriving DecidableEq, Repr

/-- The outcomes of the collaborator calls `Output` makes for one detection. -/
structure DetEnv where
  /-- Result of `GetInferenceJPEG`: the copy of the stored JPEG (`none` for NULL). -/
  full_jpeg : Option (List Nat)
  img_w : Int
  img_h : Int
  /-- Result of `crop_jpeg`: the cropped JPEG (`none` for NULL); its size is the length. -/
  crop_jpeg : Option (List Nat)
  /-- Outcome of `malloc` in `base64_encode`. -/
  malloc_ok : Bool
  /-- Clock `ACAP_DEVICE_Timestamp()` read after the cache add. -/
  now_ts : Int
  save_jpeg_ok : Bool
  save_label_ok : Bool
  mqtt_ok : Bool
  http_ok : Bool
  deriving DecidableEq, Repr

/-- The outcomes of the collaborator calls `Output` makes once per cycle.
`averageInferenceTime` is `ACAP_STATUS_Double("mode", "averageTime")`, an
integral number of milliseconds; `inf_to_int` is what the platform yields for
the conversion of an infinite `double` to `int` (taken when the average is 0). -/
structure CycleEnv where
  now : Int
  settings : Option Settings
  averageInferenceTime : Nat
  inf_to_int : Int
  ensure_sd_directory : Bool
  deriving DecidableEq, Repr

/-- The static variables of `Output.c` and of `Output_crop_cache.c`. -/
structure OutputState where
  eventsCache : List LabelEventState
  lastDetectionsWereEmpty : Int
  last_output_time_ms : Int
  crop_cache : CropCache
  deriving DecidableEq, Repr

/-- The state at program start. -/
def OutputState.init : OutputState :=
  { eventsCache := [], lastDetectionsWereEmpty := 0, last_output_time_ms := 0,
    crop_cache := CropCache.init }

/-! ## `Output.c`: `Output` -/

/-- The values `Output` derives from the settings before its detection loop
(lines 116-162). -/
structure CycleConfig where
  cropping_active : Bool
  sdcard_enable : Bool
  mqtt_export : Bool
  http_export : Bool
  throttle : Int
  prioritize : CStr
  window_size : Nat
  min_frames_in_window : Int
  desired_window_ms : Int
  leftborder_offset : Int
  rightborder_offset : Int
  topborder_offset : Int
  bottomborder_offset : Int
  http_url : Option CStr
  deriving DecidableEq, Repr

/-- The window size of lines 141-146:
`(int)((desired_window_ms + averageInferenceTime - 1) / averageInferenceTime)`
with `desired_window_ms = 1000`, clamped to `[2, MAX_ROLLING]`.  For a positive
integral average below `2 ^ 32` the `double` quotient truncates to the integer
quotient; for the average 0 the quotient is infinite and its conversion is
`inf_to_int`. -/
def Output_window_size (averageInferenceTime : Nat) (inf_to_int : Int) : Nat :=
  let desired_window_ms : Nat := 1000
  let raw : Int :=
    if averageInferenceTime = 0 then inf_to_int
    else ((desired_window_ms + averageInferenceTime - 1) / averageInferenceTime : Nat)
  let w1 : Int := if raw < 2 then 2 else raw
  let w2 : Int := if w1 > MAX_ROLLING then MAX_ROLLING else w1
  w2.toNat

/-- Lines 116-162 of `Output`: the configuration of a cycle. -/
def Output_config (settings : Settings) (env : CycleEnv) : CycleConfig :=
  let cropping := settings.cropping
  let sdcard0 := (cropping.map (fun c => c.sdcard)).getD false
  { cropping_active := (cropping.map (fun c => c.active)).getD false,
    sdcard_enable := if sdcard0 && !env.ensure_sd_directory then false else sdcard0,
    mqtt_export := (cropping.map (fun c => c.mqtt)).getD false,
    http_export := (cropping.map (fun c => c.http)).getD false,
    throttle := (cropping.bind (fun c => c.throttle)).getD 500,
    prioritize := settings.prioritize.getD "accuracy".toList,
    window_size := Output_window_size env.averageInferenceTime env.inf_to_int,
    min_frames_in_window := (settings.eventLogic.bind (fun l => l.frames)).getD 3,
    desired_window_ms := (settings.eventLogic.bind (fun l => l.window)).getD 1000,
    leftborder_offset := (cropping.bind (fun c => c.leftborder)).getD 0,
    rightborder_offset := (cropping.bind (fun c => c.rightborder)).getD 0,
    topborder_offset := (cropping.bind (fun c => c.topborder)).getD 0,
    bottomborder_offset := (cropping.bind (fun c => c.bottomborder)).getD 0,
    http_url := cropping.bind (fun c => c.http_url) }

/-- The `speed` branch (lines 192-205) on the entry of the label.  The flag
tells whether the rising event was emitted. -/
def Output_event_speed (evt : LabelEventState) (now : Int) : LabelEventState × Bool :=
  if evt.state = 0 then ({ evt with state := 1, last_detect_time := now }, true)
  else ({ evt with last_detect_time := now }, false)

/-- The other branch (lines 207-227): push a 1, sum the first `rolling_count`
cells, raise when LOW and the sum reaches `min_frames_in_window`. -/
def Output_event_accuracy (evt : LabelEventState) (window_size : Nat)
    (min_frames_in_window : Int) (now : Int) : LabelEventState × Bool :=
  let head := (evt.rolling_head + 1) % window_size
  let rolling := evt.rolling.set head 1
  let count := if evt.rolling_count < window_size then evt.rolling_count + 1
    else evt.rolling_count
  let sum := (rolling.take count).sum
  let pushed : LabelEventState :=
    { evt with rolling_head := head, rolling := rolling, rolling_count := count,
               last_detect_time := now }
  if evt.state = 0 ∧ sum ≥ min_frames_in_window then ({ pushed with state := 1 }, true)
  else (pushed, false)

/-- Lines 191-228: the event logic for one detection on the entry of its label. -/
def Output_event (cfg : CycleConfig) (evt : LabelEventState) (now : Int) :
    LabelEventState × Bool :=
  if cfg.prioritize = "speed".toList then Output_event_speed evt now
  else Output_event_accuracy evt cfg.window_size cfg.min_frames_in_window now

/-- The crop rectangle `(crop_x, crop_y, crop_w, crop_h)` of lines 266-280, from
the box in centre format, the border offsets and the image size. -/
def Output_crop_rect (cfg : CycleConfig) (pixel_center_x pixel_center_y pixel_w pixel_h : Int)
    (img_w img_h : Int) : Int × Int × Int × Int :=
  let bbox_left := pixel_center_x - Int.tdiv pixel_w 2
  let bbox_top := pixel_center_y - Int.tdiv pixel_h 2
  let crop_x := bbox_left - cfg.leftborder_offset
  let crop_y := bbox_top - cfg.topborder_offset
  let crop_w := pixel_w + cfg.leftborder_offset + cfg.rightborder_offset
  let crop_h := pixel_h + cfg.topborder_offset + cfg.bottomborder_offset
  let crop_w1 := if crop_x < 0 then crop_w + crop_x else crop_w
  let crop_x1 := if crop_x < 0 then 0 else crop_x
  let crop_h1 := if crop_y < 0 then crop_h + crop_y else crop_h
  let crop_y1 := if crop_y < 0 then 0 else crop_y
  let crop_w2 := if crop_x1 + crop_w1 > img_w then img_w - crop_x1 else crop_w1
  let crop_h2 := if crop_y1 + crop_h1 > img_h then img_h - crop_y1 else crop_h1
  (crop_x1, crop_y1, crop_w2, crop_h2)

/-- The function `replace_spaces` of `Output_helpers.c`. -/
def replace_spaces (str : CStr) : CStr :=
  str.map (fun ch => if ch = ' ' then '_' else ch)

/-- Lines 322-387: the sink calls of one export. -/
def Output_sinks (cfg : CycleConfig) (e : DetEnv) (label : CStr) (timestamp : Int)
    (idx : Nat) (jpeg : List Nat) (payload : CropPayload) : List Action :=
  let sd : List Action :=
    if cfg.sdcard_enable then
      let safe_label := replace_spaces (label.take 63)
      Action.save_jpeg safe_label timestamp idx jpeg ::
        (if e.save_jpeg_ok then
          Action.save_label safe_label timestamp idx label payload.x payload.y payload.w
              payload.h ::
            (if e.save_label_ok then [] else [Action.warn "Failed to save crop label to SD"])
         else [Action.warn "Failed to save crop to SD"])
    else []
  let mqtt : List Action :=
    if cfg.mqtt_export then
      Action.mqtt_crop payload ::
        (if e.mqtt_ok then [] else [Action.warn "MQTT crop publish failed"])
    else []
  let http : List Action :=
    if cfg.http_export then
      match cfg.http_url with
      | some url =>
        if url ≠ [] then
          Action.http_post url payload ::
            (if e.http_ok then [] else [Action.warn "HTTP POST failed"])
        else [Action.warn "HTTP export enabled, but URL is not set."]
      | none => [Action.warn "HTTP export enabled, but URL is not set."]
    else []
  sd ++ mqtt ++ http

/-- Lines 231-394: the cropping path of one detection, entered when
`cropping_active` holds.  Returns the state afterwards and the actions. -/
def Output_crop (cfg : CycleConfig) (now : Int) (st : OutputState) (idx : Nat)
    (d : Detection) (e : DetEnv) : OutputState × List Action :=
  let label := d.label.getD "Undefined".toList
  let conf := d.c.getD 0
  let timestamp := d.timestamp.getD now
  match e.full_jpeg with
  | none => (st, [Action.warn "No inference JPEG available for cropping"])
  | some full_jpeg =>
    if full_jpeg.length = 0 ∨ e.img_w = 0 ∨ e.img_h = 0 then
      (st, [Action.warn "No inference JPEG available for cropping"])
    else
      match d.x, d.y, d.w, d.h with
      | some pixel_center_x, some pixel_center_y, some pixel_w, some pixel_h =>
        let bbox_left := pixel_center_x - Int.tdiv pixel_w 2
        let bbox_top := pixel_center_y - Int.tdiv pixel_h 2
        let rect := Output_crop_rect cfg pixel_center_x pixel_center_y pixel_w pixel_h
          e.img_w e.img_h
        let crop_x := rect.1
        let crop_y := rect.2.1
        let crop_w := rect.2.2.1
        let crop_h := rect.2.2.2
        if crop_w ≤ 0 ∨ crop_h ≤ 0 then
          (st, [Action.warn "Invalid crop dimensions after clamping"])
        else
          match e.crop_jpeg with
          | none => (st, [Action.warn "Failed to crop JPEG"])
          | some jpeg_data =>
            if jpeg_data.length = 0 then (st, [Action.warn "Failed to crop JPEG"])
            else
              let jpeg_size := jpeg_data.length % 2 ^ 32
              let det_x_in_crop := bbox_left - crop_x
              let det_y_in_crop := bbox_top - crop_y
              let added := output_crop_cache_add e.malloc_ok st.crop_cache (some jpeg_data)
                jpeg_size (some label) conf det_x_in_crop det_y_in_crop pixel_w pixel_h
              let st1 := { st with crop_cache := added.2 }
              match added.1 with
              | none => (st1, [])
              | some imageDataBase64 =>
                if e.now_ts - st.last_output_time_ms > cfg.throttle then
                  ({ st1 with last_output_time_ms := e.now_ts },
                    Output_sinks cfg e label timestamp idx (jpeg_data.take jpeg_size)
                      { label := label, timestamp := timestamp, confidence := conf,
                        x := det_x_in_crop, y := det_y_in_crop, w := pixel_w, h := pixel_h,
                        image := imageDataBase64 })
                else (st1, [])
      | _, _, _, _ => (st, [Action.warn "Detection missing bbox coordinates"])

/-- The body of the detection loop (lines 170-396) after the label has been
noted in `frame_labels`: look the label up, run the event logic, then the
cropping path. -/
def Output_detection (cfg : CycleConfig) (now : Int) (st : OutputState) (idx : Nat)
    (d : Detection) (e : DetEnv) : OutputState × List Action :=
  let label := d.label.getD "Undefined".toList
  let found := find_or_create_label_state st.eventsCache label
  match found.2 with
  | none => ({ st with eventsCache := found.1 }, [])
  | some i =>
    let r := Output_event cfg (found.1.getD i (LabelEventState.create label)) now
    let st1 := { st with eventsCache := found.1.set i r.1 }
    let rising : List Action :=
      if r.2 then [Action.fire_state label 1, Action.mqtt_event label true] else []
    if cfg.cropping_active then
      let c := Output_crop cfg now st1 idx d e
      (c.1, rising ++ c.2)
    else (st1, rising)

/-- The detection loop: state, actions so far, `idx` and `frame_labels`. -/
def Output_loop (cfg : CycleConfig) (now : Int) :
    List (Detection × DetEnv) → OutputState → Nat → List CStr →
      OutputState × List Action × List CStr
  | [], st, _, frame_labels => (st, [], frame_labels)
  | (d, e) :: rest, st, idx, frame_labels =>
    let label := d.label.getD "Undefined".toList
    let frame_labels1 :=
      if frame_labels.length < MAX_LABELS then frame_labels ++ [label.take 63]
      else frame_labels
    let r := Output_detection cfg now st idx d e
    let t := Output_loop cfg now rest r.1 (idx + 1) frame_labels1
    (t.1, r.2 ++ t.2.1, t.2.2)

/-- The push of a 0 sample of lines 406-408. -/
def Output_push_zero (window_size : Nat) (evt : LabelEventState) : LabelEventState :=
  let head := (evt.rolling_head + 1) % window_size
  { evt with
    rolling_head := head,
    rolling := evt.rolling.set head 0,
    rolling_count := if evt.rolling_count < window_size then evt.rolling_count + 1
      else evt.rolling_count }

/-- Lines 399-411: the 0 samples for the labels not seen in the batch. -/
def Output_mark_absent (cfg : CycleConfig) (frame_labels : List CStr)
    (eventsCache : List LabelEventState) : List LabelEventState :=
  if cfg.prioritize = "accuracy".toList then
    eventsCache.map (fun evt =>
      if frame_labels.any (fun l => decide (evt.name = l)) then evt
      else Output_push_zero cfg.window_size evt)
  else eventsCache

/-- The function `Output`.  `detections = none` is the NULL pointer; every
detection comes with the outcomes of the collaborator calls made for it. -/
def Output (st : OutputState) (env : CycleEnv)
    (detections : Option (List (Detection × DetEnv))) : OutputState × List Action :=
  match detections with
  | none => (st, [Action.status_detections []])
  | some dets =>
    if dets.length = 0 then (st, [Action.status_detections []])
    else
      let batch := dets.map Prod.fst
      match env.settings with
      | none => (st, [Action.status_detections batch])
      | some settings =>
        let cfg := Output_config settings env
        let st0 := { st with lastDetectionsWereEmpty := 0 }
        let r := Output_loop cfg env.now dets st0 0 []
        ({ r.1 with eventsCache := Output_mark_absent cfg r.2.2 r.1.eventsCache },
          Action.status_detections batch :: Action.mqtt_detections batch :: r.2.1)

/-- The function `Output_DeactivateExpired` on one entry (lines 73-87). -/
def Output_deactivate_entry (now minEventDuration : Int) (evt : LabelEventState) :
    LabelEventState × List Action :=
  if evt.state = 1 ∧ now - evt.last_detect_time > minEventDuration then
    ({ evt with state := 0 }, [Action.fire_state evt.name 0, Action.mqtt_event evt.name false])
  else (evt, [])

/-- The function `Output_DeactivateExpired`: `now` is `ACAP_DEVICE_Timestamp()`,
`settings` is `ACAP_Get_Config("settings")`. -/
def Output_DeactivateExpired (st : OutputState) (now : Int) (settings : Option Settings) :
    OutputState × List Action :=
  match settings with
  | none => (st, [])
  | some s =>
    let minEventDuration := s.minEventDuration.getD 3000
    let r := st.eventsCache.map (Output_deactivate_entry now minEventDuration)
    ({ st with eventsCache := r.map Prod.fst }, (r.map Prod.snd).flatten)

/-- The function `Output_reset`. -/
def Output_reset (st : OutputState) : OutputState :=
  { eventsCache := [], lastDetectionsWereEmpty := 0, last_output_time_ms := 0,
    crop_cache := output_crop_cache_reset st.crop_cache }

/-! ## `main.c`: the adaptive capture rate -/

/-- The statics `capture_rate_ms`, `min_capture_rate_ms`, `adaptive_rate_enabled`
and the globals `inferenceCounter`, `inferenceAverage` of `main.c`. -/
structure RateState where
  capture_rate_ms : Nat
  min_capture_rate_ms : Nat
  adaptive_rate_enabled : Bool
  inferenceCounter : Int
  inferenceAverage : Nat
  deriving DecidableEq, Repr

/-- Lines 311-332 of `ImageProcess`: account one measured latency
(`inferenceTime`, an `unsigned int`).  All arithmetic is unsigned 32 bit. -/
def ImageProcess_rate (s : RateState) (inferenceTime : Nat) : RateState :=
  let inferenceCounter := s.inferenceCounter + 1
  let inferenceAverage := (s.inferenceAverage + inferenceTime % 2 ^ 32) % 2 ^ 32
  if inferenceCounter ≥ 10 then
    let avg := inferenceAverage / 10
    let capture_rate_ms :=
      if s.adaptive_rate_enabled ∧ avg > 0 then
        let new_rate := (avg * 4) % 2 ^ 32
        let new_rate1 := if new_rate < s.min_capture_rate_ms then s.min_capture_rate_ms
          else new_rate
        if new_rate1 ≠ s.capture_rate_ms then new_rate1 else s.capture_rate_ms
      else s.capture_rate_ms
    { s with capture_rate_ms := capture_rate_ms, inferenceCounter := 0, inferenceAverage := 0 }
  else
    { s with inferenceCounter := inferenceCounter, inferenceAverage := inferenceAverage }

/-- The rate state after a sequence of cycles with the given latencies. -/
def ImageProcess_rate_run (s : RateState) (latencies : List Nat) : RateState :=
  latencies.foldl ImageProcess_rate s

/-! ## `main.c`: the filter stage of `ImageProcess` -/

/-- The value of a JSON number, a fraction `num / den`, as it is written.  The member
`valuedouble` of the item is the nearest `double`, `Fraction.to_double`.  A denominator
0 stands for a value that is not finite. -/
structure Fraction where
  num : Int
  den : Nat
  deriving DecidableEq, Repr

/-- The number of binary digits of `n`, counted by halving at most `fuel` times. -/
def bit_length_loop : Nat → Nat → Nat
  | 0, _ => 0
  | fuel + 1, n => if n = 0 then 0 else bit_length_loop fuel (n / 2) + 1

/-- The number of binary digits of `n` (0 for 0). -/
def bit_length (n : Nat) : Nat := bit_length_loop n n

/-- IEEE 754 rounding (to nearest, ties to even) of the positive quotient `a / b` to the
53 significant bits of a `double`: the significand `q` and the exponent `e` of the
result `q * 2 ^ e`.  The exponent range of the format is not limited. -/
def round_to_53_bits (a b : Nat) : Nat × Int :=
  let e0 : Int := (bit_length a : Int) - (bit_length b : Int) - 53
  let q0 : Nat := if e0 ≥ 0 then a / (b * 2 ^ e0.toNat) else (a * 2 ^ (-e0).toNat) / b
  let e : Int := if q0 ≥ 2 ^ 53 then e0 + 1 else e0
  let n : Nat := if e ≥ 0 then a else a * 2 ^ (-e).toNat
  let d : Nat := if e ≥ 0 then b * 2 ^ e.toNat else b
  let q := n / d
  let r := n % d
  (if 2 * r > d ∨ (2 * r = d ∧ q % 2 = 1) then q + 1 else q, e)

/-- The `double` nearest to a value (ties to even); a `double` is its own nearest. -/
def Fraction.to_double (v : Fraction) : Fraction :=
  if v.num = 0 ∨ v.den = 0 then { num := 0, den := v.den }
  else
    let r := round_to_53_bits v.num.natAbs v.den
    let q : Int := if v.num < 0 then -(r.1 : Int) else r.1
    if r.2 ≥ 0 then { num := q * 2 ^ r.2.toNat, den := 1 }
    else { num := q, den := 2 ^ (-r.2).toNat }

/-- The conversion `(int)(valuedouble * k)` for an integer `k` below `2 ^ 53`: the
product of the two doubles is rounded to a `double` and then truncated toward zero. -/
def Fraction.scale (v : Fraction) (k : Int) : Int :=
  let p := Fraction.to_double { num := v.to_double.num * k, den := v.to_double.den }
  Int.tdiv p.num p.den

/-- A detection as built by `Model_Inference` (lines 350-371): `label` and `c`
when the hub sent them, and the box in normalised centre format. -/
structure RawDetection where
  label : Option CStr
  c : Option Fraction
  x : Fraction
  y : Fraction
  w : Fraction
  h : Fraction
  deriving DecidableEq, Repr

/-- Conversion of an `int` to `unsigned int`. -/
def toU32 (i : Int) : Nat := (i % 2 ^ 32).toNat

/-- The locals of one turn of the detection loop of `ImageProcess` after the
property loop (lines 372-411), with the detection as it has been rewritten. -/
structure ScaledDetection where
  c : Nat
  cx : Nat
  cy : Nat
  width : Nat
  height : Nat
  label : CStr
  detection : Detection
  deriving DecidableEq, Repr

/-- The property loop (lines 378-411) on a detection of `Model_Inference`, whose
members come in the order `label`, `c`, `x`, `y`, `w`, `h`. -/
def ImageProcess_scale (videoWidth videoHeight : Nat) (d : RawDetection) : ScaledDetection :=
  let c_int := d.c.map (fun v => v.scale 100)
  let x_int := d.x.scale videoWidth
  let y_int := d.y.scale videoHeight
  let w_int := d.w.scale videoWidth
  let h_int := d.h.scale videoHeight
  { c := (c_int.map toU32).getD 0,
    cx := (toU32 x_int + toU32 (Int.tdiv w_int 2)) % 2 ^ 32,
    cy := (toU32 y_int + toU32 (Int.tdiv h_int 2)) % 2 ^ 32,
    width := toU32 w_int,
    height := toU32 h_int,
    label := d.label.getD "Undefined".toList,
    detection :=
      { label := d.label, c := c_int, timestamp := none,
        x := some x_int, y := some y_int, w := some w_int, h := some h_int } }

/-- The values read from the settings at lines 353-368. -/
structure FilterConfig where
  x1 : Nat
  y1 : Nat
  x2 : Nat
  y2 : Nat
  minWidth : Nat
  minHeight : Nat
  confidenceThreshold : Int
  ignore : Option (List CStr)
  deriving DecidableEq, Repr

/-- Lines 353-368 and 426: the filter configuration. -/
def ImageProcess_filter_config (settings : Settings) (aoi : AoiSettings) (size : SizeSettings) :
    FilterConfig :=
  { x1 := toU32 (aoi.x1.getD 100), y1 := toU32 (aoi.y1.getD 100),
    x2 := toU32 (aoi.x2.getD 900), y2 := toU32 (aoi.y2.getD 900),
    minWidth := toU32 (size.x2 - size.x1), minHeight := toU32 (size.y2 - size.y1),
    confidenceThreshold := settings.confidence.getD 0,
    ignore := settings.ignore }

/-- The loop over the ignore list (lines 428-433). -/
def ImageProcess_ignore_loop (label : CStr) : List CStr → Bool → Bool
  | [], insert => insert
  | ignoreLabel :: rest, insert =>
    if insert then ImageProcess_ignore_loop label rest (if label = ignoreLabel then false else insert)
    else insert

/-- Lines 421-434: the value of `insert` for a scaled detection. -/
def ImageProcess_insert (f : FilterConfig) (s : ScaledDetection) : Bool :=
  let insert0 : Bool :=
    decide (s.c ≥ toU32 f.confidenceThreshold ∧ s.cx ≥ f.x1 ∧ s.cx ≤ f.x2 ∧
      s.cy ≥ f.y1 ∧ s.cy ≤ f.y2)
  let insert1 : Bool := if s.width < f.minWidth ∨ s.height < f.minHeight then false else insert0
  match f.ignore with
  | some ignore =>
    if insert1 ∧ ignore.length > 0 then ImageProcess_ignore_loop s.label ignore insert1
    else insert1
  | none => insert1

/-- The detection loop of `ImageProcess` (lines 370-442): the list
`processedDetections` handed to `Output`. -/
def ImageProcess_filter (f : FilterConfig) (videoWidth videoHeight : Nat) (timestamp : Int)
    (detections : List RawDetection) : List Detection :=
  detections.filterMap (fun d =>
    let s := ImageProcess_scale videoWidth videoHeight d
    if ImageProcess_insert f s then some { s.detection with timestamp := some timestamp }
    else none)

/-! ## `Model.c`: `Model_Setup`, and `Output.c`: `Output_init` -/

/-- A cJSON value, as far as the model object needs it. -/
inductive Json where
  | number (value : Int)
  | string (value : CStr)
  | array (items : List Json)
  | object (members : List (CStr × Json))

/-- Letter case folding of `cJSON_GetObjectItem`, which compares keys without
regard to case. -/
def key_lower (key : CStr) : CStr := key.map Char.toLower

/-- The lookup `cJSON_GetObjectItem(object, key)`: the first member whose
name equals the key up to letter case; NULL (`none`) when there is none or
the value is no object. -/
def cJSON_GetObjectItem (object : Option Json) (key : String) : Option Json :=
  match object with
  | some (Json.object members) =>
    (members.find? (fun m => decide (key_lower m.1 = key_lower key.toList))).map Prod.snd
  | _ => none

/-- The struct `HubCapabilities` of `Hub.h`, as far as `Model_Setup` reads it. -/
structure HubCapabilities where
  model_width : Int
  model_height : Int
  model_channels : Int
  class_labels : List CStr
  deriving DecidableEq, Repr

/-- The items of the settings read by `Model_Setup`. -/
structure HubSettings where
  hub_present : Bool
  hub_url : Option CStr
  scaleMode : Option CStr
  videoWidth : Option Int
  videoHeight : Option Int
  deriving DecidableEq, Repr

/-- The capture resolution of lines 93-122 of `Model_Setup` (unsigned 32 bit). -/
def Model_video_size (s : HubSettings) (caps : HubCapabilities) : Nat × Nat :=
  let scale_mode := s.scaleMode.getD "balanced".toList
  let height0 := toU32 caps.model_height
  let width0 :=
    if scale_mode = "crop".toList then toU32 caps.model_width
    else if scale_mode = "balanced".toList then ((height0 * 4) % 2 ^ 32) / 3
    else ((height0 * 16) % 2 ^ 32) / 9
  let width1 := (width0 / 8) * 8
  let height1 := (height0 / 8) * 8
  let width2 := match s.videoWidth with
    | some v => if v > 0 then toU32 v else width1
    | none => width1
  let height2 := match s.videoHeight with
    | some v => if v > 0 then toU32 v else height1
    | none => height1
  (width2, height2)

/-- The aspect label of lines 127-135; the comparisons of `width / height` with
1.7, 1.2, 1.5, 0.9 and 1.1 are written without division. -/
def Model_video_aspect (width height : Nat) : CStr :=
  if 10 * width ≥ 17 * height then "16:9".toList
  else if 10 * width ≥ 12 * height ∧ 10 * width < 15 * height then "4:3".toList
  else if 10 * width ≥ 9 * height ∧ 10 * width ≤ 11 * height then "1:1".toList
  else "16:9".toList

/-- The function `Model_Setup`.  `settings` is `none` when the configuration has
no settings; `hub_init_ok` and `caps` are the outcomes of `Hub_Init` and of
`Hub_GetCapabilities` (`none` when the query fails).  The result is the
model object, `none` for NULL. -/
def Model_Setup (settings : Option HubSettings) (hub_init_ok : Bool)
    (caps : Option HubCapabilities) : Option Json :=
  match settings with
  | none => none
  | some s =>
    if !s.hub_present then none
    else
      match s.hub_url with
      | none => none
      | some hub_url =>
        if !hub_init_ok then none
        else
          match caps with
          | none => none
          | some caps =>
            let size := Model_video_size s caps
            some (Json.object
              [("videoWidth".toList, Json.number size.1),
               ("videoHeight".toList, Json.number size.2),
               ("videoAspect".toList, Json.string (Model_video_aspect size.1 size.2)),
               ("hub".toList, Json.object
                 [("url".toList, Json.string hub_url),
                  ("model_width".toList, Json.number caps.model_width),
                  ("model_height".toList, Json.number caps.model_height),
                  ("classes".toList, Json.number caps.class_labels.length)]),
               ("classes".toList, Json.array (caps.class_labels.map Json.string))])

/-- What `Output_init` registers with its collaborators. -/
inductive InitAction where
  /-- Call `ACAP_HTTP_Node("crops", output_crop_cache_http_callback)`. -/
  | http_node (path : String)
  /-- Call `ACAP_EVENTS_Add_Event(label, niceName, 1)`. -/
  | add_event (label : CStr)
  /-- Call `g_timeout_add(interval, Output_DeactivateExpired, NULL)`. -/
  | timeout_add_DeactivateExpired (interval : Nat)
  /-- A `LOG_WARN` line. -/
  | warn (text : String)
  deriving DecidableEq, Repr

/-- The loop over the `labels` array of `Output_init` (lines 441-454). -/
def Output_init_events : List Json → List InitAction
  | [] => []
  | Json.string label :: rest => InitAction.add_event (replace_spaces label) :: Output_init_events rest
  | _ :: rest => Output_init_events rest

/-- The function `Output_init`, given the `model` configuration object
(`ACAP_Get_Config("model")`): the crop cache afterwards and the registrations
made. -/
def Output_init (model : Option Json) (cache : CropCache) : CropCache × List InitAction :=
  let node := InitAction.http_node "crops"
  match model with
  | none => (cache, [node, InitAction.warn "No Model Config found"])
  | some m =>
    match cJSON_GetObjectItem (some m) "labels" with
    | none => (cache, [node, InitAction.warn "Model has no labels"])
    | some labels =>
      let children := match labels with
        | Json.array items => items
        | Json.object members => members.map Prod.snd
        | _ => []
      (output_crop_cache_reset cache,
        node :: Output_init_events children ++ [InitAction.timeout_add_DeactivateExpired 200])

/-! ## Crop cache runs -/

/-- The arguments of one call of `output_crop_cache_add`. -/
structure CropAdd where
  jpeg : List Nat
  label : CStr
  confidence : Int
  x : Int
  y : Int
  w : Int
  h : Int
  deriving DecidableEq, Repr

/-- One call `output_crop_cache_add(jpeg, size, label, confidence, x, y, w, h)` with a
successful `malloc`; the cache afterwards. -/
def CropAdd.apply (c : CropCache) (a : CropAdd) : CropCache :=
  (output_crop_cache_add true c (some a.jpeg) a.jpeg.length (some a.label)
    a.confidence a.x a.y a.w a.h).2

/-- The slot written by a successful add. -/
def CropAdd.entry (a : CropAdd) : CropEntry :=
  { base64_image := base64_encode true (some a.jpeg) a.jpeg.length, label := a.label.take 63,
    confidence := a.confidence, x := a.x, y := a.y, w := a.w, h := a.h }

/-- The dump element expected for an add: the base64 text of the image and the
metadata as given. -/
def CropAdd.item (a : CropAdd) : CropItem :=
  { image := (base64_encode true (some a.jpeg) a.jpeg.length).getD [], label := a.label,
    confidence := a.confidence, x := a.x, y := a.y, w := a.w, h := a.h }

/-- A sequence of adds, oldest first. -/
def crop_cache_run (c : CropCache) (adds : List CropAdd) : CropCache :=
  adds.foldl CropAdd.apply c

/-- The ring-buffer invariant after `adds`, started from a reset cache. -/
structure CropInv (c : CropCache) (adds : List CropAdd) : Prop where
  len : c.crop_history.length = 10
  head : c.crop_history_head = adds.length % 10
  count : c.crop_history_count = min adds.length 10
  slot : ∀ n a, adds[n]? = some a → adds.length ≤ n + 10 →
    c.crop_history.getD (n % 10) CropEntry.cleared = a.entry

/-- The labels of a dump, in the order of the reply. -/
def HttpReply.labels : HttpReply → List CStr
  | HttpReply.error _ _ => []
  | HttpReply.json items => items.map CropItem.label

/-- An add with a one-byte image and the given label. -/
def CropAdd.sample (label : String) (n : Nat) : CropAdd :=
  { jpeg := [n], label := label.toList, confidence := 50, x := 1, y := 2, w := 3, h := 4 }

/-- Twelve adds labelled L0 .. L11. -/
def crop_adds_L : List CropAdd :=
  [CropAdd.sample "L0" 0, CropAdd.sample "L1" 1, CropAdd.sample "L2" 2, CropAdd.sample "L3" 3,
   CropAdd.sample "L4" 4, CropAdd.sample "L5" 5, CropAdd.sample "L6" 6, CropAdd.sample "L7" 7,
   CropAdd.sample "L8" 8, CropAdd.sample "L9" 9, CropAdd.sample "L10" 10,
   CropAdd.sample "L11" 11]

/-! ## Scenarios -/

/-- The state of the first table entry with the given name. -/
def OutputState.label_state (st : OutputState) (name : String) : Option Int :=
  (st.eventsCache.find? (fun evt => decide (evt.name = name.toList))).map (fun evt => evt.state)

/-- Collaborator outcomes for a detection when no inference JPEG is stored. -/
def Scenario.no_jpeg : DetEnv :=
  { full_jpeg := none, img_w := 0, img_h := 0, crop_jpeg := none, malloc_ok := true,
    now_ts := 0, save_jpeg_ok := true, save_label_ok := true, mqtt_ok := true,
    http_ok := true }

/-- Settings without cropping, with the default strategy (`accuracy`) and the
given `eventLogic.frames`. -/
def Scenario.settings (frames : Option Int) : Settings :=
  { cropping := none, prioritize := none,
    eventLogic := some { frames := frames, window := none },
    minEventDuration := none, aoi := none, size := none, confidence := none, ignore := none }

/-- A cycle at time `now` with an average inference time of 250 ms, which makes
the window size 4. -/
def Scenario.cycle (now : Int) (frames : Option Int) : CycleEnv :=
  { now := now, settings := some (Scenario.settings frames), averageInferenceTime := 250,
    inf_to_int := 0, ensure_sd_directory := true }

/-- One detection with the given label. -/
def Scenario.detection (label : String) : Detection × DetEnv :=
  ({ label := some label.toList, c := some 80, timestamp := none,
     x := some 500, y := some 500, w := some 100, h := some 100 }, Scenario.no_jpeg)

/-- Consecutive `Output` cycles on the given batches, cycle `n` at time
`1000 * (n + 1)`: the state after the last cycle and the actions of every cycle. -/
def Scenario.run (frames : Option Int) :
    List (List (Detection × DetEnv)) → Int → OutputState → OutputState × List (List Action)
  | [], _, st => (st, [])
  | batch :: rest, now, st =>
    let r := Output st (Scenario.cycle now frames) (some batch)
    let t := Scenario.run frames rest (now + 1000) r.1
    (t.1, r.2 :: t.2)

/-- The labels for which a rising event (`ACAP_EVENTS_Fire_State(label, 1)`) is in
the trace. -/
def rising_labels (trace : List Action) : List CStr :=
  trace.filterMap (fun a =>
    match a with
    | Action.fire_state label state => if state = 1 then some label else none
    | _ => none)

/-- The labels for which a falling event (`ACAP_EVENTS_Fire_State(label, 0)`) is in
the trace. -/
def falling_labels (trace : List Action) : List CStr :=
  trace.filterMap (fun a =>
    match a with
    | Action.fire_state label state => if state = 0 then some label else none
    | _ => none)

/-- The first table entry with the given name. -/
def OutputState.label_entry (st : OutputState) (name : String) : Option LabelEventState :=
  st.eventsCache.find? (fun evt => decide (evt.name = name.toList))

/-- The actions of cycle `n` (from 0) of a run. -/
def Scenario.actions (r : OutputState × List (List Action)) (n : Nat) : List Action :=
  r.2.getD n []

/-- The acceptance condition of the filter stage in the words of the
specification: confidence at least the threshold, the pixel centre
`(x * videoWidth, y * videoHeight)` inside the area of interest, pixel width
and height at least the minimum, label not in the ignore list. -/
def FilterSpec.accept (f : FilterConfig) (videoWidth videoHeight : Nat) (d : RawDetection) :
    Prop :=
  (d.c.map (fun v => v.scale 100)).getD 0 ≥ f.confidenceThreshold ∧
  (f.x1 : Int) ≤ d.x.scale videoWidth ∧ d.x.scale videoWidth ≤ f.x2 ∧
  (f.y1 : Int) ≤ d.y.scale videoHeight ∧ d.y.scale videoHeight ≤ f.y2 ∧
  d.w.scale videoWidth ≥ f.minWidth ∧ d.h.scale videoHeight ≥ f.minHeight ∧
  d.label.getD "Undefined".toList ∉ f.ignore.getD []

instance (f : FilterConfig) (videoWidth videoHeight : Nat) (d : RawDetection) :
    Decidable (FilterSpec.accept f videoWidth videoHeight d) := by
  unfold FilterSpec.accept; infer_instance

/-- Filter settings: the default area of interest (100..900), a minimum size of
10 x 10 and a confidence threshold of 50. -/
def Scenario.filter_config : FilterConfig :=
  ImageProcess_filter_config
    { cropping := none, prioritize := none, eventLogic := none, minEventDuration := none,
      aoi := some { x1 := none, y1 := none, x2 := none, y2 := none },
      size := some { x1 := 0, y1 := 0, x2 := 10, y2 := 10 },
      confidence := some 50, ignore := none }
    { x1 := none, y1 := none, x2 := none, y2 := none }
    { x1 := 0, y1 := 0, x2 := 10, y2 := 10 }

/-- A detection of `Model_Inference` with centre (0.75, 0.5), width 0.5 and
height 0.25, confidence 0.75. -/
def Scenario.raw_detection : RawDetection :=
  { label := some "person".toList, c := some { num := 3, den := 4 },
    x := { num := 3, den := 4 }, y := { num := 1, den := 2 },
    w := { num := 1, den := 2 }, h := { num := 1, den := 4 } }

/-- The rate state at program start (`capture_rate_ms = 1000`,
`min_capture_rate_ms = 100`, adaptive mode on, empty accumulator). -/
def RateState.init : RateState :=
  { capture_rate_ms := 1000, min_capture_rate_ms := 100, adaptive_rate_enabled := true,
    inferenceCounter := 0, inferenceAverage := 0 }

/-- Ten latencies: one of `2 ^ 32 - 5` ms followed by nine of 100 ms. -/
def Scenario.latencies : List Nat :=
  [4294967291, 100, 100, 100, 100, 100, 100, 100, 100, 100]

/-- Ten latencies between 100 and 190 ms. -/
def Scenario.latencies_small : List Nat :=
  [100, 110, 120, 130, 140, 150, 160, 170, 180, 190]

/-- A label entry with the given name, state and time of the last detection. -/
def Scenario.entry (name : String) (state : Int) (last_detect_time : Int) : LabelEventState :=
  { LabelEventState.create name.toList with state := state, last_detect_time := last_detect_time }

/-- A table with an expired HIGH label, a fresh HIGH label and a LOW label, seen
from time 10000 with the default `minEventDuration` of 3000. -/
def Scenario.table : OutputState :=
  { OutputState.init with
    eventsCache := [Scenario.entry "person" 1 6000, Scenario.entry "car" 1 9000,
                    Scenario.entry "dog" 0 1000] }

/-- A trace without calls of `ACAP_EVENTS_Fire_State`. -/
def no_fire_state (trace : List Action) : Prop :=
  ∀ a ∈ trace, ∀ label state, a ≠ Action.fire_state label state

/-- The actions that reach a crop sink: the storage writes, the crop publish and the
HTTP POST. -/
def Action.is_sink : Action → Bool
  | Action.save_jpeg _ _ _ _ => true
  | Action.save_label _ _ _ _ _ _ _ _ => true
  | Action.mqtt_crop _ => true
  | Action.http_post _ _ => true
  | _ => false

/-- Every entry that is HIGH in the first table is, at the same index, HIGH and of the
same name in the second. -/
def HighKept (before after : List LabelEventState) : Prop :=
  ∀ (i : Nat) (evt : LabelEventState), before[i]? = some evt → evt.state = 1 →
    ∃ evt' : LabelEventState, after[i]? = some evt' ∧ evt'.state = 1 ∧ evt'.name = evt.name

/-- The names of the entries that are HIGH in the first table and LOW, at the same
index, in the second. -/
def lowered_names (before after : List LabelEventState) : List CStr :=
  ((before.zip after).filter (fun p => decide (p.1.state = 1 ∧ p.2.state = 0))).map
    (fun p => p.1.name)

/-- The configuration of a cycle in the `speed` strategy without cropping. -/
def Scenario.speed_config : CycleConfig :=
  Output_config { Scenario.settings none with prioritize := some "speed".toList }
    (Scenario.cycle 1000 none)

/-- The configuration of a cycle with cropping active, all three sinks switched on and
a throttle of 500 ms. -/
def Scenario.crop_config : CycleConfig :=
  Output_config
    { Scenario.settings none with
      cropping := some
        { active := true, sdcard := true, mqtt := true, http := true, throttle := some 500,
          leftborder := none, rightborder := none, topborder := none, bottomborder := none,
          http_url := some "http://sink/crops".toList, http_auth := none,
          http_username := none, http_password := none, http_token := none } }
    (Scenario.cycle 1000 none)

/-- Collaborator outcomes for a detection whose crop succeeds, with the clock at
`now_ts` after the cache add. -/
def Scenario.crop_env (now_ts : Int) : DetEnv :=
  { full_jpeg := some [255, 216, 255, 224], img_w := 1000, img_h := 1000,
    crop_jpeg := some [255, 216, 255], malloc_ok := true, now_ts := now_ts,
    save_jpeg_ok := true, save_label_ok := true, mqtt_ok := true, http_ok := true }

/-- A state whose last export was at time 1000. -/
def Scenario.exported : OutputState :=
  { OutputState.init with last_output_time_ms := 1000 }

/-! ## `main.c`: `ImageProcess` and the producer timer -/

/-- The return value of a GLib source callback. -/
inductive GSource where
  | G_SOURCE_REMOVE
  | G_SOURCE_CONTINUE
  deriving DecidableEq, Repr

/-- The items of the global `model` object read by `ImageProcess`. -/
structure ModelInfo where
  videoWidth : Option Int
  videoHeight : Option Int
  deriving DecidableEq, Repr

/-- The globals and the collaborator outcomes of one call of `ImageProcess`:
the globals `settings` and `model` (`none` for NULL), whether
`Video_Capture_RGB` returned a buffer, the array returned by
`Model_Inference`, the measured `inferenceTime` and the value of
`ACAP_DEVICE_Timestamp()`. -/
structure ProcessEnv where
  settings : Option Settings
  model : Option ModelInfo
  capture_ok : Bool
  detections : List RawDetection
  inferenceTime : Nat
  timestamp : Int
  deriving DecidableEq, Repr

/-- What one call of `ImageProcess` leaves behind: the value returned to GLib,
the rate state, the argument of the call `Output(processedDetections)` (`none`
when `Output` is not called) and whether the model status was set to
"Error. Check log". -/
structure ProcessResult where
  source : GSource
  rate : RateState
  processedDetections : Option (List Detection)
  status_error : Bool
  deriving DecidableEq, Repr

/-- The function `ImageProcess` of `main.c` (lines 282-452).  The array returned by
`Model_Inference` belongs to the call: the loop rewrites its numbers in place, copies
the accepted detections into `processedDetections` and the array is deleted at line
444, so the rewritten array is no output of the function. -/
def ImageProcess (s : RateState) (env : ProcessEnv) : ProcessResult :=
  match env.settings, env.model with
  | some settings, some model =>
    if !env.capture_ok then
      { source := GSource.G_SOURCE_REMOVE, rate := s, processedDetections := none,
        status_error := true }
    else
      let rate := ImageProcess_rate s env.inferenceTime
      let videoWidth := toU32 (model.videoWidth.getD 1000)
      let videoHeight := toU32 (model.videoHeight.getD 1000)
      match settings.aoi with
      | none =>
        { source := GSource.G_SOURCE_REMOVE, rate := rate, processedDetections := none,
          status_error := true }
      | some aoi =>
        match settings.size with
        | none =>
          { source := GSource.G_SOURCE_REMOVE, rate := rate, processedDetections := none,
            status_error := true }
        | some size =>
          { source := GSource.G_SOURCE_CONTINUE, rate := rate,
            processedDetections := some (ImageProcess_filter
              (ImageProcess_filter_config settings aoi size) videoWidth videoHeight
              env.timestamp env.detections),
            status_error := false }
  | _, _ =>
    { source := GSource.G_SOURCE_REMOVE, rate := s, processedDetections := none,
      status_error := false }

/-- The GLib timeout source created by `g_timeout_add(interval, ImageProcess, NULL)`
in `main` (line 631): GLib calls the callback every `interval` milliseconds and
destroys the source when the callback returns `G_SOURCE_REMOVE`. -/
structure ProducerTimer where
  interval : Nat
  active : Bool
  deriving DecidableEq, Repr

/-- Lines 623-634 of `main`: the timer is created with the value `capture_rate_ms`
has at start-up, when the model set-up succeeded. -/
def main_start_timer (s : RateState) (model_ok : Bool) : ProducerTimer :=
  if model_ok then { interval := s.capture_rate_ms, active := true }
  else { interval := s.capture_rate_ms, active := false }

/-- One firing of the producer timer.  `ImageProcess` calls neither `g_timeout_add`
nor `g_source_remove`, so the source keeps the interval it was created with and
only the returned value decides whether it stays. -/
def producer_fire (timer : ProducerTimer) (s : RateState) (env : ProcessEnv) :
    ProducerTimer × ProcessResult :=
  let r := ImageProcess s env
  ({ timer with active := decide (r.source = GSource.G_SOURCE_CONTINUE) }, r)

/-- Consecutive firings of the producer timer while it is active: the timer and the
rate state after the last one, and the delay GLib waits before each call. -/
def producer_run : List ProcessEnv → ProducerTimer → RateState →
    ProducerTimer × RateState × List Nat
  | [], timer, s => (timer, s, [])
  | env :: rest, timer, s =>
    if timer.active then
      let r := producer_fire timer s env
      let t := producer_run rest r.1 r.2.rate
      (t.1, t.2.1, timer.interval :: t.2.2)
    else (timer, s, [])

/-! ## The label table as an array -/

/-- The array `eventsCache[MAX_LABELS]` with `eventsCache_len`: every slot of the
array, also those at and above `len`, which keep what was last written to them. -/
structure LabelTable where
  slots : List LabelEventState
  len : Nat
  deriving DecidableEq, Repr

/-- The entries `find_or_create_label_state` and the loops of `Output` can see: the
first `len` slots. -/
def LabelTable.live (t : LabelTable) : List LabelEventState := t.slots.take t.len

/-- The function `find_or_create_label_state` on the array: the search runs over the
slots below `len`; a new label overwrites every field of slot `len`. -/
def LabelTable.find_or_create (t : LabelTable) (label : CStr) : LabelTable × Option Nat :=
  match find_label_state label (t.slots.take t.len) with
  | some i => (t, some i)
  | none =>
    if t.len < MAX_LABELS then
      ({ slots := t.slots.set t.len (LabelEventState.create label), len := t.len + 1 },
        some t.len)
    else (t, none)

/-- The assignment `eventsCache_len = 0` of `Output_reset`: the slots keep their
contents. -/
def LabelTable.reset (t : LabelTable) : LabelTable := { t with len := 0 }

/-! ## Scenarios of the producer loop -/

/-- A detection without its `timestamp` item. -/
def Detection.without_timestamp (d : Detection) : Detection := { d with timestamp := none }

/-- The accepted detection built from a detection of `Model_Inference`: the box and
the confidence in pixel and percent units, with the cycle time stamp attached. -/
def RawDetection.processed (videoWidth videoHeight : Nat) (timestamp : Int)
    (d : RawDetection) : Detection :=
  { (ImageProcess_scale videoWidth videoHeight d).detection with timestamp := some timestamp }

/-- Settings with the default area of interest, a minimum size of 10 x 10 and a
confidence threshold of 50. -/
def Scenario.process_settings : Settings :=
  { cropping := none, prioritize := none, eventLogic := none, minEventDuration := none,
    aoi := some { x1 := none, y1 := none, x2 := none, y2 := none },
    size := some { x1 := 0, y1 := 0, x2 := 10, y2 := 10 },
    confidence := some 50, ignore := none }

/-- A detection of `Model_Inference` with centre (0.25, 0.5), width 0.5, height 0.25
and confidence 0.75, which the filter accepts. -/
def Scenario.raw_accepted : RawDetection :=
  { label := some "car".toList, c := some { num := 3, den := 4 },
    x := { num := 1, den := 4 }, y := { num := 1, den := 2 },
    w := { num := 1, den := 2 }, h := { num := 1, den := 4 } }

/-- A call of `ImageProcess` with settings and model present, a captured frame, two
detections and the given latency. -/
def Scenario.process_env (inferenceTime : Nat) : ProcessEnv :=
  { settings := some Scenario.process_settings,
    model := some { videoWidth := some 1000, videoHeight := some 1000 },
    capture_ok := true, detections := [Scenario.raw_detection, Scenario.raw_accepted],
    inferenceTime := inferenceTime, timestamp := 5000 }

/-- A call of `ImageProcess` whose settings lack the `aoi` object. -/
def Scenario.no_aoi_env : ProcessEnv :=
  { Scenario.process_env 100 with
    settings := some { Scenario.process_settings with aoi := none } }

/-- A call of `ImageProcess` whose frame capture fails. -/
def Scenario.no_frame_env : ProcessEnv :=
  { Scenario.process_env 100 with capture_ok := false }

/-- Ten calls of `ImageProcess` with latencies between 100 and 190 ms, followed by
two more calls. -/
def Scenario.process_envs : List ProcessEnv :=
  (Scenario.latencies_small ++ [100, 100]).map Scenario.process_env

/-! ## Sink attempts -/

/-- The calls that start a sink: the JPEG write of the storage sink, the crop publish
and the HTTP POST. -/
def Action.is_attempt : Action → Bool
  | Action.save_jpeg _ _ _ _ => true
  | Action.mqtt_crop _ => true
  | Action.http_post _ _ => true
  | _ => false

/-- The sink attempts of a trace, in order. -/
def sink_attempts (trace : List Action) : List Action := trace.filter Action.is_attempt

/-- Two sets of collaborator outcomes that agree on everything but the results of the
sink calls (`save_jpeg_to_file`, `save_label_to_file`, `MQTT_Publish_JSON`,
`output_http_post_json`). -/
def DetEnv.same_inputs (e1 e2 : DetEnv) : Prop :=
  e1.full_jpeg = e2.full_jpeg ∧ e1.img_w = e2.img_w ∧ e1.img_h = e2.img_h ∧
  e1.crop_jpeg = e2.crop_jpeg ∧ e1.malloc_ok = e2.malloc_ok ∧ e1.now_ts = e2.now_ts

/-- Two batches with the same detections whose collaborator outcomes agree on
everything but the results of the sink calls. -/
def same_batch (dets1 dets2 : List (Detection × DetEnv)) : Prop :=
  List.Forall₂ (fun p q => p.1 = q.1 ∧ DetEnv.same_inputs p.2 q.2) dets1 dets2

/-- Collaborator outcomes for a detection whose crop succeeds while the storage write
and the crop publish fail. -/
def Scenario.failing_sinks (now_ts : Int) : DetEnv :=
  { Scenario.crop_env now_ts with save_jpeg_ok := false, mqtt_ok := false }

/-- The `cropping` object of `Scenario.crop_config`: active, all three sinks on, a
throttle of 500 ms and a URL. -/
def Scenario.crop_cropping : CroppingSettings :=
  { active := true, sdcard := true, mqtt := true, http := true, throttle := some 500,
    leftborder := none, rightborder := none, topborder := none, bottomborder := none,
    http_url := some "http://sink/crops".toList, http_auth := none,
    http_username := none, http_password := none, http_token := none }

/-- Settings with the cropping object `Scenario.crop_cropping`. -/
def Scenario.crop_settings : Settings :=
  { Scenario.settings none with cropping := some Scenario.crop_cropping }

/-- A cycle at time 1000 with the settings `Scenario.crop_settings`. -/
def Scenario.crop_cycle : CycleEnv :=
  { Scenario.cycle 1000 none with settings := some Scenario.crop_settings }

/-! ## RFC 4648 base64, for comparison with `base64_encode` -/

/-- The base64 alphabet of RFC 4648 (table 1): the character of a 6-bit value. -/
def rfc4648_char (v : Nat) : Char :=
  if v < 26 then Char.ofNat (65 + v)
  else if v < 52 then Char.ofNat (97 + (v - 26))
  else if v < 62 then Char.ofNat (48 + (v - 52))
  else if v = 62 then '+'
  else '/'

/-- The 6-bit value of a character of the alphabet; `none` for any other character,
the pad character `=` included. -/
def rfc4648_value (c : Char) : Option Nat :=
  if 65 ≤ c.toNat ∧ c.toNat ≤ 90 then some (c.toNat - 65)
  else if 97 ≤ c.toNat ∧ c.toNat ≤ 122 then some (c.toNat - 97 + 26)
  else if 48 ≤ c.toNat ∧ c.toNat ≤ 57 then some (c.toNat - 48 + 52)
  else if c = '+' then some 62
  else if c = '/' then some 63
  else none

/-- The encoding of RFC 4648, section 4: every 24-bit group gives four characters; a
final group of 8 bits gives two characters and `==`, one of 16 bits three characters
and `=`. -/
def rfc4648_encode : List Nat → List Char
  | [] => []
  | [a] => [rfc4648_char (a / 4), rfc4648_char (a % 4 * 16), '=', '=']
  | [a, b] =>
    [rfc4648_char (a / 4), rfc4648_char (a % 4 * 16 + b / 16), rfc4648_char (b % 16 * 4), '=']
  | a :: b :: c :: rest =>
    rfc4648_char (a / 4) :: rfc4648_char (a % 4 * 16 + b / 16) ::
      rfc4648_char (b % 16 * 4 + c / 64) :: rfc4648_char (c % 64) :: rfc4648_encode rest

/-- The standard decoder: the inverse of the encoding on groups of four characters,
with padding accepted in the last group only and unused bits required to be 0. -/
def rfc4648_decode : List Char → Option (List Nat)
  | [] => some []
  | c0 :: c1 :: c2 :: c3 :: rest =>
    match rfc4648_value c0, rfc4648_value c1 with
    | some v0, some v1 =>
      if c2 = '=' ∧ c3 = '=' ∧ rest = [] then
        if v1 % 16 = 0 then some [v0 * 4 + v1 / 16] else none
      else
        match rfc4648_value c2 with
        | some v2 =>
          if c3 = '=' ∧ rest = [] then
            if v2 % 4 = 0 then some [v0 * 4 + v1 / 16, v1 % 16 * 16 + v2 / 4] else none
          else
            match rfc4648_value c3 with
            | some v3 =>
              (rfc4648_decode rest).map (fun tail =>
                (v0 * 4 + v1 / 16) :: (v1 % 16 * 16 + v2 / 4) :: (v2 % 4 * 64 + v3) :: tail)
            | none => none
        | none => none
    | _, _ => none
  | _ => none

/-- Lines 39-41 of `base64_encode`: the last, partial sextet and the padding, from
the state the loop ends in. -/
def base64_finish (val : Nat) (valb : Int) (out : List Char) : List Char :=
  base64_pad 4
    (if valb > -6 then
      out ++ [base64_table.getD ((((val * 256) % 2 ^ 32) >>> (valb + 8).toNat) &&& 0x3F) 'A']
    else out)

/-! ## `Model.c`: `Model_Inference` -/

/-- The quotient `a / b` of two doubles, rounded to a `double`. -/
def Fraction.div (a b : Fraction) : Fraction :=
  let x := a.to_double
  let y := b.to_double
  Fraction.to_double
    (if y.num < 0 then { num := -(x.num * y.den), den := x.den * (-y.num).toNat }
      else { num := x.num * y.den, den := x.den * y.num.toNat })

/-- The sum `a + b` of two doubles, rounded to a `double`. -/
def Fraction.add (a b : Fraction) : Fraction :=
  let x := a.to_double
  let y := b.to_double
  Fraction.to_double { num := x.num * y.den + y.num * x.den, den := x.den * y.den }

/-- The quotient `a / 2.0` of a double, which is exact. -/
def Fraction.half (a : Fraction) : Fraction :=
  { num := a.to_double.num, den := a.to_double.den * 2 }

/-- The `bbox_pixels` object of a detection of the hub. -/
structure HubBox where
  x : Option Fraction
  y : Option Fraction
  w : Option Fraction
  h : Option Fraction
  deriving DecidableEq, Repr

/-- The `image` object of a detection of the hub. -/
structure HubImage where
  width : Option Fraction
  height : Option Fraction
  deriving DecidableEq, Repr

/-- A detection in the reply of `Hub_InferenceJPEG`, as far as `Model_Inference`
reads it. -/
structure HubDetection where
  label : Option CStr
  confidence : Option Fraction
  bbox_pixels : Option HubBox
  image : Option HubImage
  deriving DecidableEq, Repr

/-- The static `hub`, the argument and the collaborator outcomes of one call of
`Model_Inference`: whether the hub context exists, whether the buffer is non-NULL,
whether `vdo_buffer_get_data`, `nv12_to_rgb` and `rgb_to_jpeg` deliver, and the reply
of `Hub_InferenceJPEG` (`none` for NULL). -/
structure InferenceEnv where
  hub_ready : Bool
  buffer_present : Bool
  nv12_present : Bool
  rgb_ok : Bool
  jpeg_ok : Bool
  hub_reply : Option (List HubDetection)
  deriving DecidableEq, Repr

/-- The body of the loop over the reply (lines 317-372): the normalised detection in
centre format, or nothing when a box or image item is missing. -/
def Model_Inference_normalize (d : HubDetection) : Option RawDetection :=
  match d.bbox_pixels, d.image with
  | some bbox_pixels, some image_info =>
    match image_info.width, image_info.height with
    | some orig_w, some orig_h =>
      match bbox_pixels.x, bbox_pixels.y, bbox_pixels.w, bbox_pixels.h with
      | some x_pix, some y_pix, some w_pix, some h_pix =>
        let x_norm := x_pix.div orig_w
        let y_norm := y_pix.div orig_h
        let w_norm := w_pix.div orig_w
        let h_norm := h_pix.div orig_h
        some { label := d.label, c := d.confidence,
               x := x_norm.add w_norm.half, y := y_norm.add h_norm.half,
               w := w_norm, h := h_norm }
      | _, _, _, _ => none
    | _, _ => none
  | _, _ => none

/-- The function `Model_Inference` (lines 240-381): the returned pointer, `none` for
NULL; `some []` is the empty array of `cJSON_CreateArray()`. -/
def Model_Inference (env : InferenceEnv) : Option (List RawDetection) :=
  if !env.hub_ready || !env.buffer_present then some []
  else if !env.nv12_present then some []
  else if !env.rgb_ok then some []
  else if !env.jpeg_ok then some []
  else
    match env.hub_reply with
    | none => some []
    | some detections => some (detections.filterMap Model_Inference_normalize)

/-! ## Well-formed label tables and reachable states -/

/-- The bounds of one label entry: state 0 or 1, sixteen rolling cells holding 0 or 1,
head below 16 and count at most 16. -/
def LabelEventState.wf (evt : LabelEventState) : Prop :=
  (evt.state = 0 ∨ evt.state = 1) ∧ evt.rolling.length = MAX_ROLLING ∧
  evt.rolling_head < MAX_ROLLING ∧ evt.rolling_count ≤ MAX_ROLLING ∧
  ∀ v ∈ evt.rolling, v = 0 ∨ v = 1

/-- The bounds of the label table: at most 32 entries, each within its bounds. -/
def TableWf (eventsCache : List LabelEventState) : Prop :=
  eventsCache.length ≤ MAX_LABELS ∧ ∀ evt ∈ eventsCache, evt.wf

/-- The states reachable from the initial state by calls of `Output`,
`Output_DeactivateExpired` and `Output_reset`, with any arguments and collaborator
outcomes. -/
inductive Reachable : OutputState → Prop where
  | init : Reachable OutputState.init
  | output (st : OutputState) (env : CycleEnv)
      (detections : Option (List (Detection × DetEnv))) :
      Reachable st → Reachable (Output st env detections).1
  | deactivate (st : OutputState) (now : Int) (settings : Option Settings) :
      Reachable st → Reachable (Output_DeactivateExpired st now settings).1
  | reset (st : OutputState) : Reachable st → Reachable (Output_reset st)

/-- A cycle at time `now` with the given average inference time and the settings
`Scenario.settings frames`. -/
def Scenario.cycle_at (now : Int) (averageInferenceTime : Nat) (frames : Option Int) :
    CycleEnv :=
  { Scenario.cycle now frames with averageInferenceTime := averageInferenceTime }

/-- A cycle with an average inference time of 250 ms whose settings carry
`eventLogic.window`. -/
def Scenario.cycle_window (window : Option Int) : CycleEnv :=
  { Scenario.cycle 1000 none with
    settings := some { Scenario.settings none with
      eventLogic := some { frames := none, window := window } } }

/-- A label of 64 bytes. -/
def Scenario.long_label : CStr := List.replicate 64 'a'

/-- A call of `Model_Inference` before the hub context exists. -/
def Scenario.no_hub : InferenceEnv :=
  { hub_ready := false, buffer_present := true, nv12_present := true, rgb_ok := true,
    jpeg_ok := true, hub_reply := none }

/-- A state whose label table is full: 32 entries named "a", "aa", "aaa", ... -/
def Scenario.full_state : OutputState :=
  { OutputState.init with
    eventsCache := (List.range 32).map
      (fun n => LabelEventState.create (List.replicate (n + 1) 'a')) }

/-! ## `main.c`: a run of `ImageProcess` on the program state -/

/-- A detection object of the array `detections` in memory: the members `label`, `c`,
`x`, `y`, `w`, `h` and the member `timestamp` that line 438 adds to it. -/
structure ArrayDetection where
  raw : RawDetection
  timestamp : Option Int
  deriving DecidableEq, Repr

/-- The assignments of the property loop (lines 378-411) to the detection object
itself: `valueint` and `valuedouble` of `c`, `x`, `y`, `w` and `h` become the scaled
integer. -/
def ImageProcess_rewrite (videoWidth videoHeight : Nat) (d : RawDetection) : RawDetection :=
  { label := d.label,
    c := d.c.map (fun v => { num := v.scale 100, den := 1 }),
    x := { num := d.x.scale videoWidth, den := 1 },
    y := { num := d.y.scale videoHeight, den := 1 },
    w := { num := d.w.scale videoWidth, den := 1 },
    h := { num := d.h.scale videoHeight, den := 1 } }

/-- The effect of the detection loop (lines 370-442) on the array in memory: the array
as the loop leaves it, every object rewritten in place and the accepted ones with the
`timestamp` member of line 438.  The duplicates that the same loop appends to
`processedDetections` are `ImageProcess_filter`. -/
def ImageProcess_array (f : FilterConfig) (videoWidth videoHeight : Nat) (timestamp : Int)
    (detections : List RawDetection) : List ArrayDetection :=
  detections.map (fun d =>
    { raw := ImageProcess_rewrite videoWidth videoHeight d,
      timestamp :=
        if ImageProcess_insert f (ImageProcess_scale videoWidth videoHeight d)
        then some timestamp else none })

/-- The globals and statics that outlive a call of `ImageProcess`: the globals
`settings` (the object `ACAP_Get_Config("settings")`, line 577) and `model`, the rate
statics and latency accumulator of `main.c`, and the statics of `Output.c` and
`Output_crop_cache.c` (label table, throttle time stamp, crop cache). -/
structure ProgramState where
  settings : Option Settings
  model : Option ModelInfo
  rate : RateState
  output : OutputState
  deriving DecidableEq, Repr

/-- The collaborator outcomes of one run of `ImageProcess`: whether
`Video_Capture_RGB` returned a buffer, the outcomes of the steps of `Model_Inference`,
the measured latency, the clock of `ImageProcess`, and for the call of `Output` its
clock, the status value `averageTime` it reads, the conversion of an infinite quotient,
the outcome of `ensure_sd_directory` and the outcomes for the detection at each
index. -/
structure RunEnv where
  capture_ok : Bool
  inference : InferenceEnv
  inferenceTime : Nat
  timestamp : Int
  now : Int
  averageInferenceTime : Nat
  inf_to_int : Int
  ensure_sd_directory : Bool
  det_env : Nat → DetEnv

/-- The accepted detections with the collaborator outcomes of their index. -/
def RunEnv.attach (det_env : Nat → DetEnv) : List Detection → Nat → List (Detection × DetEnv)
  | [], _ => []
  | d :: rest, idx => (d, det_env idx) :: RunEnv.attach det_env rest (idx + 1)

/-- What a run of `ImageProcess` did: the value returned to GLib, the array returned by
`Model_Inference` (`none` when it was not called), the array passed to
`cJSON_Delete(detections)` at line 444 (`none` when that line was not reached), the
argument of `Output` (`none` when it was not called) and the trace of `Output`. -/
structure RunRecord where
  source : GSource
  detections : Option (List RawDetection)
  deleted : Option (List ArrayDetection)
  processedDetections : Option (List Detection)
  actions : List Action
  deriving DecidableEq, Repr

/-- The function `ImageProcess` of `main.c` (lines 282-452) on the program state.  The
array of the run is the one its own call of `Model_Inference` creates (line 307;
`Model_Inference` never returns NULL); the loop rewrites it in place and line 444
deletes it, so no state keeps a reference to it. -/
def ImageProcess_run (ps : ProgramState) (env : RunEnv) : ProgramState × RunRecord :=
  match ps.settings, ps.model with
  | some settings, some model =>
    if !env.capture_ok then
      (ps, { source := GSource.G_SOURCE_REMOVE, detections := none, deleted := none,
             processedDetections := none, actions := [] })
    else
      let detections := (Model_Inference env.inference).getD []
      let rate := ImageProcess_rate ps.rate env.inferenceTime
      let videoWidth := toU32 (model.videoWidth.getD 1000)
      let videoHeight := toU32 (model.videoHeight.getD 1000)
      match settings.aoi with
      | none =>
        ({ ps with rate := rate },
          { source := GSource.G_SOURCE_REMOVE, detections := some detections,
            deleted := none, processedDetections := none, actions := [] })
      | some aoi =>
        match settings.size with
        | none =>
          ({ ps with rate := rate },
            { source := GSource.G_SOURCE_REMOVE, detections := some detections,
              deleted := none, processedDetections := none, actions := [] })
        | some size =>
          let f := ImageProcess_filter_config settings aoi size
          let array := ImageProcess_array f videoWidth videoHeight env.timestamp detections
          let processedDetections :=
            ImageProcess_filter f videoWidth videoHeight env.timestamp detections
          let o := Output ps.output
            { now := env.now, settings := ps.settings,
              averageInferenceTime := env.averageInferenceTime,
              inf_to_int := env.inf_to_int,
              ensure_sd_directory := env.ensure_sd_directory }
            (some (RunEnv.attach env.det_env processedDetections 0))
          ({ ps with rate := rate, output := o.1 },
            { source := GSource.G_SOURCE_CONTINUE, detections := some detections,
              deleted := some array, processedDetections := some processedDetections,
              actions := o.2 })
  | _, _ =>
    (ps, { source := GSource.G_SOURCE_REMOVE, detections := none, deleted := none,
           processedDetections := none, actions := [] })

/-- The program state after start-up with the settings `Scenario.process_settings` and
a model of 1000 x 1000. -/
def Scenario.program_state : ProgramState :=
  { settings := some Scenario.process_settings,
    model := some { videoWidth := some 1000, videoHeight := some 1000 },
    rate := RateState.init, output := OutputState.init }

/-- A reply of the hub with two detections in an image of 1000 x 1000: a "car" with box
(0, 250, 500, 250) and confidence 0.75, and a "dog" with box (900, 900, 100, 100) and
confidence 0.9, whose centre the filter places outside the area of interest. -/
def Scenario.hub_reply : List HubDetection :=
  [{ label := some "car".toList, confidence := some { num := 3, den := 4 },
     bbox_pixels := some { x := some { num := 0, den := 1 }, y := some { num := 250, den := 1 },
                           w := some { num := 500, den := 1 },
                           h := some { num := 250, den := 1 } },
     image := some { width := some { num := 1000, den := 1 },
                     height := some { num := 1000, den := 1 } } },
   { label := some "dog".toList, confidence := some { num := 9, den := 10 },
     bbox_pixels := some { x := some { num := 900, den := 1 }, y := some { num := 900, den := 1 },
                           w := some { num := 100, den := 1 },
                           h := some { num := 100, den := 1 } },
     image := some { width := some { num := 1000, den := 1 },
                     height := some { num := 1000, den := 1 } } }]

/-- A run with a captured frame, the hub reply `Scenario.hub_reply`, the given latency
and the given clock. -/
def Scenario.run_env (inferenceTime : Nat) (timestamp : Int) : RunEnv :=
  { capture_ok := true,
    inference := { hub_ready := true, buffer_present := true, nv12_present := true,
                   rgb_ok := true, jpeg_ok := true, hub_reply := some Scenario.hub_reply },
    inferenceTime := inferenceTime, timestamp := timestamp, now := timestamp,
    averageInferenceTime := 250, inf_to_int := 0, ensure_sd_directory := true,
    det_env := fun _ => Scenario.no_jpeg }

/-! # Theorems -/

/-! ## Crop cache -/

theorem base64_encode_isSome (bytes : List Nat) (n : Nat) (hn : n ≠ 0) :
    ∃ s, base64_encode true (some bytes) n = some s := by
  simp [base64_encode, hn]

theorem CropAdd.apply_eq (c : CropCache) (a : CropAdd) (ha : a.jpeg ≠ []) :
    CropAdd.apply c a =
      { crop_history := c.crop_history.set c.crop_history_head a.entry,
        crop_history_head := (c.crop_history_head + 1) % CROP_HISTORY_SIZE,
        crop_history_count :=
          if c.crop_history_count < CROP_HISTORY_SIZE then c.crop_history_count + 1
          else c.crop_history_count } := by
  have hlen : a.jpeg.length ≠ 0 := by
    intro h; exact ha (List.length_eq_zero.mp h)
  obtain ⟨s, hs⟩ := base64_encode_isSome a.jpeg a.jpeg.length hlen
  simp [CropAdd.apply, output_crop_cache_add, hlen, hs, CropAdd.entry]

theorem cropInv_reset (c0 : CropCache) : CropInv (output_crop_cache_reset c0) [] := by
  refine ⟨?_, ?_, ?_, ?_⟩
  · simp [output_crop_cache_reset, CROP_HISTORY_SIZE]
  · simp [output_crop_cache_reset]
  · simp [output_crop_cache_reset]
  · intro n a h; simp at h

theorem cropInv_step (c : CropCache) (adds : List CropAdd) (a : CropAdd)
    (ha : a.jpeg ≠ []) (inv : CropInv c adds) :
    CropInv (CropAdd.apply c a) (adds ++ [a]) := by
  rw [CropAdd.apply_eq c a ha]
  have hl := inv.len
  have hh := inv.head
  have hc := inv.count
  refine ⟨?_, ?_, ?_, ?_⟩
  · simp [hl]
  · simp only [CROP_HISTORY_SIZE, hh, List.length_append, List.length_singleton]; omega
  · simp only [CROP_HISTORY_SIZE, hc, List.length_append, List.length_singleton]
    split <;> omega
  · intro n b hb hn
    simp only [List.length_append, List.length_singleton] at hn
    simp only [hh]
    by_cases hk : n = adds.length
    · subst hk
      rw [List.getElem?_append_right (le_refl _)] at hb
      simp at hb
      subst hb
      have hlt : adds.length % 10 < c.crop_history.length := by rw [hl]; omega
      rw [List.getD_eq_getElem?_getD, List.getElem?_set_self hlt]
      rfl
    · have hlt : n < adds.length := by
        rcases Nat.lt_or_ge n adds.length with h | h
        · exact h
        · exfalso
          have : n < (adds ++ [a]).length := by
            rcases Nat.lt_or_ge n (adds ++ [a]).length with h2 | h2
            · exact h2
            · rw [List.getElem?_eq_none h2] at hb; cases hb
          simp at this; omega
      rw [List.getElem?_append_left hlt] at hb
      have hne : adds.length % 10 ≠ n % 10 := by omega
      rw [List.getD_eq_getElem?_getD, List.getElem?_set_ne hne, ← List.getD_eq_getElem?_getD]
      exact inv.slot n b hb (by omega)

theorem cropInv_run (c0 : CropCache) (adds : List CropAdd)
    (h : ∀ a ∈ adds, a.jpeg ≠ []) :
    CropInv (crop_cache_run (output_crop_cache_reset c0) adds) adds := by
  induction adds using List.reverseRecOn with
  | nil => exact cropInv_reset c0
  | append_singleton l a ih =>
    have hl : ∀ b ∈ l, b.jpeg ≠ [] := fun b hb => h b (by simp [hb])
    have := cropInv_step _ l a (h a (by simp)) (ih hl)
    simpa [crop_cache_run, List.foldl_append] using this

theorem crop_dump_loop_getElem? (hist : List CropEntry) (cnt : Nat) :
    ∀ (j i : Nat), cnt ≤ j → i < cnt →
      (crop_dump_loop hist ((j + 9) % 10) cnt)[i]? =
        some (hist.getD ((j - 1 - i) % 10) CropEntry.cleared).toItem := by
  induction cnt with
  | zero => intro j i _ hi; omega
  | succ n ih =>
    intro j i hj hi
    cases i with
    | zero =>
      simp only [crop_dump_loop, List.getElem?_cons_zero]
      have : (j + 9) % 10 = (j - 1 - 0) % 10 := by omega
      rw [this]
    | succ i =>
      simp only [crop_dump_loop, List.getElem?_cons_succ, CROP_HISTORY_SIZE]
      have e : ((j + 9) % 10 + 10 - 1) % 10 = ((j - 1) + 9) % 10 := by omega
      rw [e, ih (j - 1) i (by omega) (by omega)]
      have : (j - 1 - 1 - i) = (j - 1 - (i + 1)) := by omega
      rw [this]

theorem crop_dump_loop_length (hist : List CropEntry) (cnt : Nat) :
    ∀ idx, (crop_dump_loop hist idx cnt).length = cnt := by
  induction cnt with
  | zero => intro idx; rfl
  | succ n ih => intro idx; simp [crop_dump_loop, ih]

theorem CropAdd.entry_toItem (a : CropAdd) (h : a.label.length < 64) :
    a.entry.toItem = a.item := by
  have : a.label.take 63 = a.label := List.take_of_length_le (by omega)
  simp [CropAdd.entry, CropEntry.toItem, CropAdd.item, this]

/-- C1: from a reset crop cache, after any sequence of successful adds (non-empty image,
label shorter than 64 bytes) the GET dump has exactly `min k 10` entries and its `i`-th
entry is the item (base64 image, label, confidence, x, y, w, h) of the `(k-i)`-th add. -/
theorem crop_cache_dump_newest_first (c0 : CropCache) (adds : List CropAdd)
    (h : ∀ a ∈ adds, a.jpeg ≠ [] ∧ a.label.length < 64) :
    ∃ items,
      output_crop_cache_http_callback (crop_cache_run (output_crop_cache_reset c0) adds)
          "GET".toList = HttpReply.json items ∧
      items.length = min adds.length 10 ∧
      ∀ i, i < min adds.length 10 →
        items[i]? = (adds[adds.length - 1 - i]?).map CropAdd.item := by
  have inv := cropInv_run c0 adds (fun a ha => (h a ha).1)
  refine ⟨_, by simp [output_crop_cache_http_callback]; rfl, ?_, ?_⟩
  · rw [crop_dump_loop_length, inv.count]
  · intro i hi
    have hk : i < adds.length := lt_of_lt_of_le hi (min_le_left _ _)
    have h10 : i < 10 := lt_of_lt_of_le hi (min_le_right _ _)
    have hidx : adds.length - 1 - i < adds.length := by omega
    have hget : adds[adds.length - 1 - i]? = some (adds[adds.length - 1 - i]) :=
      List.getElem?_eq_getElem hidx
    have hstart : (crop_cache_run (output_crop_cache_reset c0) adds).crop_history_head
        + CROP_HISTORY_SIZE - 1 = adds.length % 10 + 9 := by
      rw [inv.head]; simp [CROP_HISTORY_SIZE]
    have hmod : (adds.length % 10 + 9) % CROP_HISTORY_SIZE = (adds.length + 9) % 10 := by
      simp only [CROP_HISTORY_SIZE]; omega
    rw [hstart, hmod, inv.count,
      crop_dump_loop_getElem? _ _ adds.length i (min_le_left _ _) hi, hget,
      inv.slot _ _ hget (by omega)]
    simp only [Option.map_some']
    rw [CropAdd.entry_toItem _ (h _ (List.getElem_mem hidx)).2]

theorem crop_cache_dump_newest_first_witness :
    (∀ a ∈ crop_adds_L, a.jpeg ≠ [] ∧ a.label.length < 64) ∧
    (∃ items,
      output_crop_cache_http_callback
          (crop_cache_run (output_crop_cache_reset CropCache.init) crop_adds_L)
          "GET".toList = HttpReply.json items ∧
      items.length = min crop_adds_L.length 10 ∧
      ∀ i, i < min crop_adds_L.length 10 →
        items[i]? = (crop_adds_L[crop_adds_L.length - 1 - i]?).map CropAdd.item) ∧
    (output_crop_cache_http_callback
        (crop_cache_run (output_crop_cache_reset CropCache.init) crop_adds_L)
        "GET".toList).labels =
      ["L11".toList, "L10".toList, "L9".toList, "L8".toList, "L7".toList, "L6".toList,
       "L5".toList, "L4".toList, "L3".toList, "L2".toList] :=
  ⟨by decide, crop_cache_dump_newest_first CropCache.init crop_adds_L (by decide), by decide⟩

/-! ## Hysteresis during warm-up -/

/-- C2: with window size 4 and threshold 3 (the defaults at an average inference time
of 250 ms), after three consecutive sightings of a new label the three pushed samples
are all 1 (cells 1, 2, 3) and `rolling_count` is 3, yet the label is still LOW; it
becomes HIGH only at the fourth sighting. -/
theorem hysteresis_warmup_lags_one_sample :
    Output_window_size 250 0 = 4 ∧
    (Scenario.run none (List.replicate 3 [Scenario.detection "person"]) 1000
        OutputState.init).1.label_entry "person" =
      some { name := "person".toList, state := 0,
             rolling := [0, 1, 1, 1, 0, 0, 0, 0, 0, 0, 0, 0, 0, 0, 0, 0],
             rolling_head := 3, rolling_count := 3, last_detect_time := 3000 } ∧
    (Scenario.run none (List.replicate 4 [Scenario.detection "person"]) 1000
        OutputState.init).1.label_state "person" = some 1 := by
  refine ⟨by decide, by decide, by decide⟩

/-- C7: window size 4, `min_frames_in_window` 2, five cycles without "person" (empty
batches, or batches with another label) and then cycles with one "person" detection:
"person" is LOW after the first and after the second present cycle, no rising event
is emitted in the second, and it becomes HIGH with a rising event in the third. -/
theorem person_high_in_third_present_cycle :
    Output_window_size 250 0 = 4 ∧
    ∀ absent ∈ [[], [Scenario.detection "car"]],
      (Scenario.run (some 2) (List.replicate 5 absent ++
          List.replicate 1 [Scenario.detection "person"]) 1000
          OutputState.init).1.label_state "person" = some 0 ∧
      (Scenario.run (some 2) (List.replicate 5 absent ++
          List.replicate 2 [Scenario.detection "person"]) 1000
          OutputState.init).1.label_state "person" = some 0 ∧
      rising_labels (Scenario.actions (Scenario.run (some 2) (List.replicate 5 absent ++
          List.replicate 3 [Scenario.detection "person"]) 1000 OutputState.init) 6) = [] ∧
      (Scenario.run (some 2) (List.replicate 5 absent ++
          List.replicate 3 [Scenario.detection "person"]) 1000
          OutputState.init).1.label_state "person" = some 1 ∧
      rising_labels (Scenario.actions (Scenario.run (some 2) (List.replicate 5 absent ++
          List.replicate 3 [Scenario.detection "person"]) 1000 OutputState.init) 7) =
        ["person".toList] := by
  refine ⟨by decide, ?_⟩
  decide

/-! ## The filter stage -/

/-- C4: a detection that meets every condition of the specification (confidence 75
against 50, centre (750, 500) inside the area 100..900, size 500 x 250 against
10 x 10, label not ignored) is rejected: the test point of the code is
`(x + w / 2, y + h / 2) = (1000, 625)`. -/
theorem filter_rejects_centre_inside_aoi :
    FilterSpec.accept Scenario.filter_config 1000 1000 Scenario.raw_detection ∧
    (ImageProcess_scale 1000 1000 Scenario.raw_detection).cx = 1000 ∧
    (ImageProcess_scale 1000 1000 Scenario.raw_detection).cy = 625 ∧
    ImageProcess_filter Scenario.filter_config 1000 1000 0 [Scenario.raw_detection] = [] := by
  refine ⟨by decide, by decide, by decide, by decide⟩

/-! ## Registration of the deactivation timer -/

theorem Model_Setup_no_labels (s : Option HubSettings) (hub_init_ok : Bool)
    (caps : Option HubCapabilities) (m : Json) (h : Model_Setup s hub_init_ok caps = some m) :
    cJSON_GetObjectItem (some m) "labels" = none := by
  unfold Model_Setup at h
  split at h
  · cases h
  · split at h
    · cases h
    · split at h
      · cases h
      · split at h
        · cases h
        · split at h
          · cases h
          · injection h with h
            subst h
            rfl

/-- C8: whatever `Model_Setup` returns (a model object or NULL), `Output_init` on it
does not register the deactivation timer: the model object has no `labels` member. -/
theorem output_init_never_registers_timer (s : Option HubSettings) (hub_init_ok : Bool)
    (caps : Option HubCapabilities) (cache : CropCache) (interval : Nat) :
    InitAction.timeout_add_DeactivateExpired interval ∉
      (Output_init (Model_Setup s hub_init_ok caps) cache).2 := by
  cases h : Model_Setup s hub_init_ok caps with
  | none => simp [Output_init]
  | some m => simp [Output_init, Model_Setup_no_labels s hub_init_ok caps m h]

/-! ## The adaptive capture rate -/

/-- C5 as stated fails when the 32-bit accumulator wraps: from the empty accumulator with
adaptive mode on, ten latencies that each fit in 32 bits (one of `2 ^ 32 - 5` ms, nine of
100 ms) sum to 4294968191 with the positive mean 429496819, but the rate becomes 356 and
not `max (4 * 429496819) 100`. -/
theorem rate_after_ten_cycles_wraps :
    RateState.init.inferenceCounter = 0 ∧ RateState.init.inferenceAverage = 0 ∧
    RateState.init.adaptive_rate_enabled = true ∧
    Scenario.latencies.length = 10 ∧ (∀ t ∈ Scenario.latencies, t < 2 ^ 32) ∧
    0 < Scenario.latencies.sum / 10 ∧
    (ImageProcess_rate_run RateState.init Scenario.latencies).capture_rate_ms = 356 ∧
    (ImageProcess_rate_run RateState.init Scenario.latencies).capture_rate_ms ≠
      max (4 * (Scenario.latencies.sum / 10)) RateState.init.min_capture_rate_ms := by
  refine ⟨rfl, rfl, rfl, by decide, by decide, by decide, by decide, by decide⟩

/-- C5 (amended): from an empty accumulator, after ten cycles whose latencies sum to
`S < 2 ^ 32`, with adaptive mode on and a positive mean `S / 10`, `capture_rate_ms` is
`max (4 * (S / 10)) min_capture_rate_ms`. -/
theorem rate_after_ten_cycles (s : RateState) (latencies : List Nat)
    (hc : s.inferenceCounter = 0) (ha : s.inferenceAverage = 0)
    (hlen : latencies.length = 10) (hsum : latencies.sum < 2 ^ 32)
    (hadapt : s.adaptive_rate_enabled = true) (hmean : 0 < latencies.sum / 10) :
    (ImageProcess_rate_run s latencies).capture_rate_ms =
      max (4 * (latencies.sum / 10)) s.min_capture_rate_ms := by
  match latencies, hlen with
  | [a0, a1, a2, a3, a4, a5, a6, a7, a8, a9], _ =>
    simp only [List.sum_cons, List.sum_nil] at hsum hmean ⊢
    simp only [ImageProcess_rate_run, List.foldl_cons, List.foldl_nil, ImageProcess_rate, hc, ha,
      hadapt]
    norm_num
    norm_num at hsum hmean
    rw [max_def]
    split_ifs <;> omega

theorem rate_after_ten_cycles_witness :
    (Scenario.latencies_small.sum < 2 ^ 32 ∧ 0 < Scenario.latencies_small.sum / 10) ∧
    (ImageProcess_rate_run RateState.init Scenario.latencies_small).capture_rate_ms =
      max (4 * (Scenario.latencies_small.sum / 10)) RateState.init.min_capture_rate_ms :=
  ⟨⟨by decide, by decide⟩,
    rate_after_ten_cycles RateState.init Scenario.latencies_small rfl rfl rfl (by decide) rfl
      (by decide)⟩

/-! ## Deactivation -/

theorem Output_deactivate_entry_fields (now dur : Int) (evt : LabelEventState) :
    ((Output_deactivate_entry now dur evt).1.state = 0 ↔
      (evt.state = 0 ∨ (evt.state = 1 ∧ now - evt.last_detect_time > dur))) ∧
    (Output_deactivate_entry now dur evt).1.name = evt.name ∧
    (Output_deactivate_entry now dur evt).1.rolling = evt.rolling ∧
    (Output_deactivate_entry now dur evt).1.rolling_head = evt.rolling_head ∧
    (Output_deactivate_entry now dur evt).1.rolling_count = evt.rolling_count ∧
    (Output_deactivate_entry now dur evt).1.last_detect_time = evt.last_detect_time := by
  unfold Output_deactivate_entry
  split
  · rename_i h
    simp [h]
  · rename_i h
    refine ⟨?_, rfl, rfl, rfl, rfl, rfl⟩
    constructor
    · intro h0; exact Or.inl h0
    · rintro (h0 | h1)
      · exact h0
      · exact absurd h1 h

theorem falling_labels_append (a b : List Action) :
    falling_labels (a ++ b) = falling_labels a ++ falling_labels b := by
  simp [falling_labels, List.filterMap_append]

theorem rising_labels_append (a b : List Action) :
    rising_labels (a ++ b) = rising_labels a ++ rising_labels b := by
  simp [rising_labels, List.filterMap_append]

theorem Output_deactivate_entry_falling (now dur : Int) (evt : LabelEventState) :
    falling_labels (Output_deactivate_entry now dur evt).2 =
      (if evt.state = 1 ∧ now - evt.last_detect_time > dur then [evt.name] else []) ∧
    rising_labels (Output_deactivate_entry now dur evt).2 = [] := by
  unfold Output_deactivate_entry
  split <;> simp [falling_labels, rising_labels]

theorem Output_deactivate_falling_list (now dur : Int) (cache : List LabelEventState) :
    falling_labels ((cache.map (Output_deactivate_entry now dur)).map Prod.snd).flatten =
      (cache.filter (fun evt =>
        decide (evt.state = 1 ∧ now - evt.last_detect_time > dur))).map (fun evt => evt.name) ∧
    rising_labels ((cache.map (Output_deactivate_entry now dur)).map Prod.snd).flatten = [] := by
  induction cache with
  | nil => simp [falling_labels, rising_labels]
  | cons evt rest ih =>
    simp only [List.map_cons, List.flatten_cons, falling_labels_append, rising_labels_append,
      (Output_deactivate_entry_falling now dur evt).1, (Output_deactivate_entry_falling now dur evt).2,
      ih.1, ih.2, List.filter_cons]
    by_cases h : evt.state = 1 ∧ now - evt.last_detect_time > dur
    · simp [h]
    · simp [h]

/-- C3: with settings present, `Output_DeactivateExpired` leaves a label LOW exactly when
it was LOW or was HIGH with `now - last_detect_time > minEventDuration` (3000 when the
setting is absent); the labels of the falling events it emits are exactly, in table
order, the names of the entries it lowers; and every entry keeps its name, rolling
buffer, `rolling_head`, `rolling_count` and `last_detect_time`. -/
theorem deactivate_expired_exact (st : OutputState) (now : Int) (s : Settings) :
    (Output_DeactivateExpired st now (some s)).1.eventsCache.length = st.eventsCache.length ∧
    (∀ (i : Nat) (evt : LabelEventState), st.eventsCache[i]? = some evt →
      ∃ evt' : LabelEventState, (Output_DeactivateExpired st now (some s)).1.eventsCache[i]? = some evt' ∧
        (evt'.state = 0 ↔ (evt.state = 0 ∨
          (evt.state = 1 ∧ now - evt.last_detect_time > s.minEventDuration.getD 3000))) ∧
        evt'.name = evt.name ∧ evt'.rolling = evt.rolling ∧
        evt'.rolling_head = evt.rolling_head ∧ evt'.rolling_count = evt.rolling_count ∧
        evt'.last_detect_time = evt.last_detect_time) ∧
    falling_labels (Output_DeactivateExpired st now (some s)).2 =
      (st.eventsCache.filter (fun evt => decide (evt.state = 1 ∧
        now - evt.last_detect_time > s.minEventDuration.getD 3000))).map (fun evt => evt.name) ∧
    rising_labels (Output_DeactivateExpired st now (some s)).2 = [] := by
  refine ⟨by simp [Output_DeactivateExpired], ?_, ?_, ?_⟩
  · intro i evt hi
    refine ⟨(Output_deactivate_entry now (s.minEventDuration.getD 3000) evt).1, ?_,
      Output_deactivate_entry_fields now _ evt⟩
    simp [Output_DeactivateExpired, List.getElem?_map, hi]
  · exact (Output_deactivate_falling_list now _ st.eventsCache).1
  · exact (Output_deactivate_falling_list now _ st.eventsCache).2

theorem deactivate_expired_exact_witness :
    (Output_DeactivateExpired Scenario.table 10000 (some (Scenario.settings none))).1.eventsCache =
      [Scenario.entry "person" 0 6000, Scenario.entry "car" 1 9000,
       Scenario.entry "dog" 0 1000] ∧
    falling_labels
        (Output_DeactivateExpired Scenario.table 10000 (some (Scenario.settings none))).2 =
      ["person".toList] ∧
    ((Output_DeactivateExpired Scenario.table 10000
        (some (Scenario.settings none))).1.eventsCache.length = Scenario.table.eventsCache.length ∧
    (∀ (i : Nat) (evt : LabelEventState), Scenario.table.eventsCache[i]? = some evt →
      ∃ evt' : LabelEventState, (Output_DeactivateExpired Scenario.table 10000
          (some (Scenario.settings none))).1.eventsCache[i]? = some evt' ∧
        (evt'.state = 0 ↔ (evt.state = 0 ∨
          (evt.state = 1 ∧
            10000 - evt.last_detect_time > (Scenario.settings none).minEventDuration.getD 3000))) ∧
        evt'.name = evt.name ∧ evt'.rolling = evt.rolling ∧
        evt'.rolling_head = evt.rolling_head ∧ evt'.rolling_count = evt.rolling_count ∧
        evt'.last_detect_time = evt.last_detect_time) ∧
    falling_labels
        (Output_DeactivateExpired Scenario.table 10000 (some (Scenario.settings none))).2 =
      (Scenario.table.eventsCache.filter (fun evt => decide (evt.state = 1 ∧
        10000 - evt.last_detect_time >
          (Scenario.settings none).minEventDuration.getD 3000))).map (fun evt => evt.name) ∧
    rising_labels
        (Output_DeactivateExpired Scenario.table 10000 (some (Scenario.settings none))).2 = []) :=
  ⟨by decide, by decide,
    deactivate_expired_exact Scenario.table 10000 (Scenario.settings none)⟩

/-! ## The label table -/

theorem find_label_state_lt (label : CStr) (cache : List LabelEventState) (i : Nat)
    (h : find_label_state label cache = some i) : i < cache.length := by
  induction cache generalizing i with
  | nil => simp [find_label_state] at h
  | cons evt rest ih =>
    unfold find_label_state at h
    split at h
    · cases h; simp
    · cases hr : find_label_state label rest with
      | none => simp [hr] at h
      | some j =>
        simp [hr] at h
        subst h
        simpa using ih j hr

/-- The entry returned by `find_or_create_label_state` lies in the table; the
table is the old one or the old one with the new entry appended. -/
theorem find_or_create_cases (cache : List LabelEventState) (label : CStr) :
    (∃ i, find_label_state label cache = some i ∧ i < cache.length ∧
      find_or_create_label_state cache label = (cache, some i)) ∨
    (find_label_state label cache = none ∧ cache.length < MAX_LABELS ∧
      find_or_create_label_state cache label =
        (cache ++ [LabelEventState.create label], some cache.length)) ∨
    (find_label_state label cache = none ∧ ¬ cache.length < MAX_LABELS ∧
      find_or_create_label_state cache label = (cache, none)) := by
  unfold find_or_create_label_state
  cases h : find_label_state label cache with
  | some i => exact Or.inl ⟨i, rfl, find_label_state_lt label cache i h, rfl⟩
  | none =>
    by_cases hl : cache.length < MAX_LABELS
    · exact Or.inr (Or.inl ⟨rfl, hl, by simp [hl]⟩)
    · exact Or.inr (Or.inr ⟨rfl, hl, by simp [hl]⟩)

theorem no_fire_state_labels (trace : List Action) (h : no_fire_state trace) :
    rising_labels trace = [] ∧ falling_labels trace = [] := by
  induction trace with
  | nil => simp [rising_labels, falling_labels]
  | cons a rest ih =>
    have hrest : no_fire_state rest := fun b hb => h b (List.mem_cons_of_mem a hb)
    have ha := h a (List.mem_cons_self a rest)
    have ih' := ih hrest
    simp only [rising_labels, falling_labels] at ih' ⊢
    cases a with
    | fire_state label state => exact absurd rfl (ha label state)
    | _ => simp [List.filterMap_cons, ih'.1, ih'.2]

theorem Output_sinks_no_fire_state (cfg : CycleConfig) (e : DetEnv) (label : CStr)
    (timestamp : Int) (idx : Nat) (jpeg : List Nat) (payload : CropPayload) :
    no_fire_state (Output_sinks cfg e label timestamp idx jpeg payload) := by
  intro a ha label' state' heq
  subst heq
  simp only [Output_sinks, List.mem_append] at ha
  rcases ha with (ha | ha) | ha
  · split at ha
    · split at ha
      · split at ha <;> simp at ha
      · simp at ha
    · simp at ha
  · split at ha
    · split at ha <;> simp at ha
    · simp at ha
  · split at ha
    · split at ha
      · split at ha
        · split at ha <;> simp at ha
        · simp at ha
      · simp at ha
    · simp at ha

theorem Output_crop_eventsCache (cfg : CycleConfig) (now : Int) (st : OutputState) (idx : Nat)
    (d : Detection) (e : DetEnv) :
    (Output_crop cfg now st idx d e).1.eventsCache = st.eventsCache := by
  unfold Output_crop
  repeat' (first | split | (dsimp only))

theorem Output_crop_no_fire_state (cfg : CycleConfig) (now : Int) (st : OutputState) (idx : Nat)
    (d : Detection) (e : DetEnv) :
    no_fire_state (Output_crop cfg now st idx d e).2 := by
  unfold Output_crop
  repeat' (first | split | (dsimp only))
  all_goals first
    | exact Output_sinks_no_fire_state _ _ _ _ _ _ _
    | (intro a ha label state heq; subst heq; simp at ha)

/-! ## The event logic of one detection -/

theorem Output_event_name (cfg : CycleConfig) (evt : LabelEventState) (now : Int) :
    (Output_event cfg evt now).1.name = evt.name := by
  unfold Output_event Output_event_speed Output_event_accuracy
  repeat' (first | split | (dsimp only))

/-- The rising flag is set exactly when the entry goes from LOW to HIGH, and a HIGH
entry stays HIGH. -/
theorem Output_event_flag (cfg : CycleConfig) (evt : LabelEventState) (now : Int) :
    ((Output_event cfg evt now).2 = true ↔
      (evt.state = 0 ∧ (Output_event cfg evt now).1.state = 1)) ∧
    (evt.state = 1 → (Output_event cfg evt now).1.state = 1) := by
  unfold Output_event Output_event_speed Output_event_accuracy
  by_cases hs : cfg.prioritize = "speed".toList
  · by_cases h0 : evt.state = 0
    · simp [hs, h0]
    · simp [hs, h0]
  · by_cases hc : evt.state = 0 ∧
        ((evt.rolling.set ((evt.rolling_head + 1) % cfg.window_size) 1).take
          (if evt.rolling_count < cfg.window_size then evt.rolling_count + 1
            else evt.rolling_count)).sum ≥ cfg.min_frames_in_window
    · simp only [hs, if_false, hc, and_self, if_true]
      simp [hc.1]
    · simp only [hs, if_false, hc, if_false]
      constructor
      · constructor
        · intro h; cases h
        · rintro ⟨h0, h1⟩
          simp [h0] at h1
      · intro h1; exact h1

theorem Output_event_speed_fields (cfg : CycleConfig) (evt : LabelEventState) (now : Int)
    (hs : cfg.prioritize = "speed".toList) :
    (Output_event cfg evt now).1.last_detect_time = now ∧
    (Output_event cfg evt now).1.rolling = evt.rolling ∧
    (Output_event cfg evt now).1.rolling_head = evt.rolling_head ∧
    (Output_event cfg evt now).1.rolling_count = evt.rolling_count ∧
    (evt.state = 0 →
      (Output_event cfg evt now).1.state = 1 ∧ (Output_event cfg evt now).2 = true) ∧
    (evt.state = 1 →
      (Output_event cfg evt now).1.state = 1 ∧ (Output_event cfg evt now).2 = false) := by
  unfold Output_event Output_event_speed
  by_cases h0 : evt.state = 0
  · simp [hs, h0]
  · simp [hs, h0]

/-- The table and the trace of `Output_detection` in terms of the lookup and of the
event logic. -/
theorem Output_detection_found (cfg : CycleConfig) (now : Int) (st : OutputState) (idx : Nat)
    (d : Detection) (e : DetEnv) (i : Nat)
    (h : (find_or_create_label_state st.eventsCache (d.label.getD "Undefined".toList)).2 = some i) :
    (Output_detection cfg now st idx d e).1.eventsCache =
      (find_or_create_label_state st.eventsCache (d.label.getD "Undefined".toList)).1.set i
        (Output_event cfg
          ((find_or_create_label_state st.eventsCache (d.label.getD "Undefined".toList)).1.getD i
            (LabelEventState.create (d.label.getD "Undefined".toList))) now).1 ∧
    rising_labels (Output_detection cfg now st idx d e).2 =
      (if (Output_event cfg
          ((find_or_create_label_state st.eventsCache (d.label.getD "Undefined".toList)).1.getD i
            (LabelEventState.create (d.label.getD "Undefined".toList))) now).2
        then [d.label.getD "Undefined".toList] else []) ∧
    falling_labels (Output_detection cfg now st idx d e).2 = [] := by
  unfold Output_detection
  simp only [h]
  have hcrop := fun st1 =>
    no_fire_state_labels _ (Output_crop_no_fire_state cfg now st1 idx d e)
  cases hc : cfg.cropping_active with
  | true =>
    simp only [if_true]
    refine ⟨by rw [Output_crop_eventsCache], ?_, ?_⟩
    · rw [rising_labels_append, (hcrop _).1, List.append_nil]
      split <;> simp [rising_labels]
    · rw [falling_labels_append, (hcrop _).2, List.append_nil]
      split <;> simp [falling_labels]
  | false =>
    simp only [Bool.false_eq_true, if_false]
    refine ⟨trivial, ?_, ?_⟩
    · split <;> simp [rising_labels]
    · split <;> simp [falling_labels]

theorem Output_detection_not_found (cfg : CycleConfig) (now : Int) (st : OutputState) (idx : Nat)
    (d : Detection) (e : DetEnv)
    (h : (find_or_create_label_state st.eventsCache (d.label.getD "Undefined".toList)).2 = none) :
    Output_detection cfg now st idx d e =
      ({ st with eventsCache :=
          (find_or_create_label_state st.eventsCache (d.label.getD "Undefined".toList)).1 }, []) := by
  unfold Output_detection
  simp only [h]

theorem find_or_create_some_lt (cache : List LabelEventState) (label : CStr) (i : Nat)
    (h : (find_or_create_label_state cache label).2 = some i) :
    i < (find_or_create_label_state cache label).1.length := by
  rcases find_or_create_cases cache label with ⟨j, _, hj, heq⟩ | ⟨_, _, heq⟩ | ⟨_, _, heq⟩
  · rw [heq] at h ⊢
    simp at h
    subst h
    exact hj
  · rw [heq] at h ⊢
    simp at h
    subst h
    simp
  · rw [heq] at h
    simp at h

theorem find_or_create_room (cache : List LabelEventState) (label : CStr)
    (hroom : (find_label_state label cache).isSome ∨ cache.length < MAX_LABELS) :
    ∃ i, (find_or_create_label_state cache label).2 = some i := by
  rcases find_or_create_cases cache label with ⟨j, _, _, heq⟩ | ⟨_, _, heq⟩ | ⟨hn, hl, _⟩
  · exact ⟨j, by rw [heq]⟩
  · exact ⟨cache.length, by rw [heq]⟩
  · rcases hroom with hs | hl'
    · rw [hn] at hs; simp at hs
    · exact absurd hl' hl

/-- The entry of the label before and after `Output_detection`, when the lookup
returns an entry. -/
theorem Output_detection_entry (cfg : CycleConfig) (now : Int) (st : OutputState) (idx : Nat)
    (d : Detection) (e : DetEnv) (i : Nat)
    (h : (find_or_create_label_state st.eventsCache (d.label.getD "Undefined".toList)).2 = some i) :
    ∃ evt : LabelEventState,
      (find_or_create_label_state st.eventsCache (d.label.getD "Undefined".toList)).1[i]? =
        some evt ∧
      (Output_detection cfg now st idx d e).1.eventsCache[i]? =
        some (Output_event cfg evt now).1 ∧
      rising_labels (Output_detection cfg now st idx d e).2 =
        (if (Output_event cfg evt now).2 then [d.label.getD "Undefined".toList] else []) := by
  have hlt := find_or_create_some_lt _ _ i h
  have hf := Output_detection_found cfg now st idx d e i h
  refine ⟨(find_or_create_label_state st.eventsCache (d.label.getD "Undefined".toList)).1[i],
    List.getElem?_eq_getElem hlt, ?_, ?_⟩
  · rw [hf.1, List.getElem?_set_self hlt, List.getD_eq_getElem?_getD,
      List.getElem?_eq_getElem hlt]
    rfl
  · rw [hf.2.1, List.getD_eq_getElem?_getD, List.getElem?_eq_getElem hlt]
    rfl

/-! ## The immediate strategy -/

/-- C9: in the `speed` strategy, for a detection whose label is known or for which the
table has room, the entry of the label goes from LOW to HIGH with exactly one rising
event for the label, or stays HIGH with no event; in both cases `last_detect_time`
becomes the cycle time and the rolling buffer, `rolling_head`, `rolling_count` and the
name are unchanged. -/
theorem speed_strategy_detection (cfg : CycleConfig) (now : Int) (st : OutputState)
    (idx : Nat) (d : Detection) (e : DetEnv)
    (hspeed : cfg.prioritize = "speed".toList)
    (hroom : (find_label_state (d.label.getD "Undefined".toList) st.eventsCache).isSome ∨
      st.eventsCache.length < MAX_LABELS) :
    ∃ (i : Nat) (evt evt' : LabelEventState),
      (find_or_create_label_state st.eventsCache (d.label.getD "Undefined".toList)).2 = some i ∧
      (find_or_create_label_state st.eventsCache (d.label.getD "Undefined".toList)).1[i]? =
        some evt ∧
      (Output_detection cfg now st idx d e).1.eventsCache[i]? = some evt' ∧
      (evt.state = 0 → evt'.state = 1 ∧
        rising_labels (Output_detection cfg now st idx d e).2 =
          [d.label.getD "Undefined".toList]) ∧
      (evt.state = 1 → evt'.state = 1 ∧
        rising_labels (Output_detection cfg now st idx d e).2 = []) ∧
      evt'.last_detect_time = now ∧ evt'.rolling = evt.rolling ∧
      evt'.rolling_head = evt.rolling_head ∧ evt'.rolling_count = evt.rolling_count ∧
      evt'.name = evt.name := by
  obtain ⟨i, hi⟩ := find_or_create_room st.eventsCache _ hroom
  obtain ⟨evt, hevt, hafter, hrise⟩ := Output_detection_entry cfg now st idx d e i hi
  have hf := Output_event_speed_fields cfg evt now hspeed
  refine ⟨i, evt, (Output_event cfg evt now).1, hi, hevt, hafter, ?_, ?_, hf.1, hf.2.1,
    hf.2.2.1, hf.2.2.2.1, Output_event_name cfg evt now⟩
  · intro h0
    have := hf.2.2.2.2.1 h0
    exact ⟨this.1, by rw [hrise, this.2]; rfl⟩
  · intro h1
    have := hf.2.2.2.2.2 h1
    exact ⟨this.1, by rw [hrise, this.2]; rfl⟩

/-! ## The export throttle -/

/-- C6: with cropping active, when a detection reaches the cache add (label entry
available, inference JPEG present, box present, non-empty crop rectangle, cropper and
encoder successful) at a time `now_ts` with `now_ts - last_output_time_ms < throttle`,
the add succeeds and its cache is the cache afterwards, the last-export time is
unchanged and the trace of the detection contains no storage write, crop publish or
HTTP POST. -/
theorem throttle_suppresses_export (cfg : CycleConfig) (now : Int) (st : OutputState)
    (idx : Nat) (d : Detection) (e : DetEnv) (i : Nat) (full_jpeg jpeg : List Nat)
    (x y w h : Int)
    (hactive : cfg.cropping_active = true)
    (hfound : (find_or_create_label_state st.eventsCache
      (d.label.getD "Undefined".toList)).2 = some i)
    (hfull : e.full_jpeg = some full_jpeg) (hfull0 : full_jpeg.length ≠ 0)
    (himgw : e.img_w ≠ 0) (himgh : e.img_h ≠ 0)
    (hx : d.x = some x) (hy : d.y = some y) (hw : d.w = some w) (hh : d.h = some h)
    (hcw : 0 < (Output_crop_rect cfg x y w h e.img_w e.img_h).2.2.1)
    (hch : 0 < (Output_crop_rect cfg x y w h e.img_w e.img_h).2.2.2)
    (hjpeg : e.crop_jpeg = some jpeg) (hsize : jpeg.length % 2 ^ 32 ≠ 0)
    (hmalloc : e.malloc_ok = true)
    (hthr : e.now_ts - st.last_output_time_ms < cfg.throttle) :
    (output_crop_cache_add true st.crop_cache (some jpeg) (jpeg.length % 2 ^ 32)
      (some (d.label.getD "Undefined".toList)) (d.c.getD 0)
      (x - Int.tdiv w 2 - (Output_crop_rect cfg x y w h e.img_w e.img_h).1)
      (y - Int.tdiv h 2 - (Output_crop_rect cfg x y w h e.img_w e.img_h).2.1) w h).1 ≠ none ∧
    (Output_detection cfg now st idx d e).1.crop_cache =
      (output_crop_cache_add true st.crop_cache (some jpeg) (jpeg.length % 2 ^ 32)
        (some (d.label.getD "Undefined".toList)) (d.c.getD 0)
        (x - Int.tdiv w 2 - (Output_crop_rect cfg x y w h e.img_w e.img_h).1)
        (y - Int.tdiv h 2 - (Output_crop_rect cfg x y w h e.img_w e.img_h).2.1) w h).2 ∧
    (Output_detection cfg now st idx d e).1.last_output_time_ms = st.last_output_time_ms ∧
    ∀ a ∈ (Output_detection cfg now st idx d e).2, a.is_sink = false := by
  have hlen : jpeg.length ≠ 0 := by
    intro h0; rw [h0] at hsize; exact hsize rfl
  obtain ⟨b64, hb64⟩ := base64_encode_isSome jpeg (jpeg.length % 2 ^ 32) hsize
  have hnot : ¬ (e.now_ts - st.last_output_time_ms > cfg.throttle) := by omega
  have hdims : ¬ ((Output_crop_rect cfg x y w h e.img_w e.img_h).2.2.1 ≤ 0 ∨
      (Output_crop_rect cfg x y w h e.img_w e.img_h).2.2.2 ≤ 0) := by omega
  have hadd : output_crop_cache_add true st.crop_cache (some jpeg) (jpeg.length % 2 ^ 32)
      (some (d.label.getD "Undefined".toList)) (d.c.getD 0)
      (x - Int.tdiv w 2 - (Output_crop_rect cfg x y w h e.img_w e.img_h).1)
      (y - Int.tdiv h 2 - (Output_crop_rect cfg x y w h e.img_w e.img_h).2.1) w h =
      (some b64,
        { crop_history := st.crop_cache.crop_history.set st.crop_cache.crop_history_head
            { base64_image := some b64, label := (d.label.getD "Undefined".toList).take 63,
              confidence := d.c.getD 0,
              x := x - Int.tdiv w 2 - (Output_crop_rect cfg x y w h e.img_w e.img_h).1,
              y := y - Int.tdiv h 2 - (Output_crop_rect cfg x y w h e.img_w e.img_h).2.1,
              w := w, h := h },
          crop_history_head := (st.crop_cache.crop_history_head + 1) % CROP_HISTORY_SIZE,
          crop_history_count :=
            if st.crop_cache.crop_history_count < CROP_HISTORY_SIZE then
              st.crop_cache.crop_history_count + 1
            else st.crop_cache.crop_history_count }) := by
    simp only [output_crop_cache_add, hsize, if_false, hb64]
  have hcrop : ∀ ec : List LabelEventState,
      Output_crop cfg now { st with eventsCache := ec } idx d e =
        ({ st with eventsCache := ec, crop_cache := (output_crop_cache_add true st.crop_cache
            (some jpeg) (jpeg.length % 2 ^ 32) (some (d.label.getD "Undefined".toList))
            (d.c.getD 0)
            (x - Int.tdiv w 2 - (Output_crop_rect cfg x y w h e.img_w e.img_h).1)
            (y - Int.tdiv h 2 - (Output_crop_rect cfg x y w h e.img_w e.img_h).2.1) w h).2 },
          []) := by
    intro ec
    unfold Output_crop
    simp only [hfull, hfull0, himgw, himgh, or_self, if_false, hx, hy, hw, hh, hdims, hjpeg,
      hlen, hmalloc, hadd, hnot]
  refine ⟨by rw [hadd]; simp, ?_, ?_, ?_⟩
  · unfold Output_detection
    simp only [hfound, hactive, if_true]
    rw [hcrop]
  · unfold Output_detection
    simp only [hfound, hactive, if_true]
    rw [hcrop]
  · unfold Output_detection
    simp only [hfound, hactive, if_true]
    rw [hcrop]
    intro a ha
    simp only [List.append_nil] at ha
    split at ha
    · simp at ha
      rcases ha with rfl | rfl <;> rfl
    · simp at ha

/-! ## Events and state changes -/

theorem HighKept.refl (cache : List LabelEventState) : HighKept cache cache :=
  fun _ evt h hs => ⟨evt, h, hs, rfl⟩

theorem HighKept.trans {a b c : List LabelEventState} (hab : HighKept a b)
    (hbc : HighKept b c) : HighKept a c := by
  intro i evt h hs
  obtain ⟨evt1, h1, hs1, hn1⟩ := hab i evt h hs
  obtain ⟨evt2, h2, hs2, hn2⟩ := hbc i evt1 h1 hs1
  exact ⟨evt2, h2, hs2, hn2.trans hn1⟩

theorem find_or_create_prefix (cache : List LabelEventState) (label : CStr) (j : Nat)
    (evt : LabelEventState) (h : cache[j]? = some evt) :
    (find_or_create_label_state cache label).1[j]? = some evt := by
  rcases find_or_create_cases cache label with ⟨_, _, _, heq⟩ | ⟨_, _, heq⟩ | ⟨_, _, heq⟩
  · rw [heq]; exact h
  · rw [heq]
    have hj : j < cache.length := by
      rcases Nat.lt_or_ge j cache.length with hlt | hge
      · exact hlt
      · rw [List.getElem?_eq_none hge] at h; cases h
    simp only []
    rw [List.getElem?_append_left hj]
    exact h
  · rw [heq]; exact h

theorem Output_detection_highKept (cfg : CycleConfig) (now : Int) (st : OutputState)
    (idx : Nat) (d : Detection) (e : DetEnv) :
    HighKept st.eventsCache (Output_detection cfg now st idx d e).1.eventsCache := by
  intro j evt hj hs
  have hpre := find_or_create_prefix st.eventsCache (d.label.getD "Undefined".toList) j evt hj
  cases hfound : (find_or_create_label_state st.eventsCache
      (d.label.getD "Undefined".toList)).2 with
  | none =>
    rw [Output_detection_not_found cfg now st idx d e hfound]
    exact ⟨evt, hpre, hs, rfl⟩
  | some i =>
    have hlt := find_or_create_some_lt _ _ i hfound
    rw [(Output_detection_found cfg now st idx d e i hfound).1]
    by_cases hij : i = j
    · subst hij
      rw [List.getElem?_set_self hlt, List.getD_eq_getElem?_getD, hpre]
      exact ⟨_, rfl, (Output_event_flag cfg evt now).2 hs, Output_event_name cfg evt now⟩
    · rw [List.getElem?_set_ne hij]
      exact ⟨evt, hpre, hs, rfl⟩

theorem Output_loop_highKept (cfg : CycleConfig) (now : Int)
    (dets : List (Detection × DetEnv)) :
    ∀ (st : OutputState) (idx : Nat) (frame_labels : List CStr),
      HighKept st.eventsCache (Output_loop cfg now dets st idx frame_labels).1.eventsCache ∧
      falling_labels (Output_loop cfg now dets st idx frame_labels).2.1 = [] := by
  induction dets with
  | nil => intro st idx fl; exact ⟨HighKept.refl _, rfl⟩
  | cons p rest ih =>
    intro st idx fl
    obtain ⟨d, e⟩ := p
    simp only [Output_loop]
    refine ⟨HighKept.trans (Output_detection_highKept cfg now st idx d e) (ih _ _ _).1, ?_⟩
    rw [falling_labels_append, (ih _ _ _).2, List.append_nil]
    cases hfound : (find_or_create_label_state st.eventsCache
        (d.label.getD "Undefined".toList)).2 with
    | none => rw [Output_detection_not_found cfg now st idx d e hfound]; rfl
    | some i => exact (Output_detection_found cfg now st idx d e i hfound).2.2

theorem Output_mark_absent_highKept (cfg : CycleConfig) (frame_labels : List CStr)
    (cache : List LabelEventState) :
    HighKept cache (Output_mark_absent cfg frame_labels cache) := by
  intro i evt hi hs
  unfold Output_mark_absent
  split
  · rw [List.getElem?_map, hi]
    simp only [Option.map_some']
    split
    · exact ⟨evt, rfl, hs, rfl⟩
    · exact ⟨_, rfl, hs, rfl⟩
  · exact ⟨evt, hi, hs, rfl⟩

/-- The function `Output` never lowers a label and emits no falling event. -/
theorem Output_highKept (st : OutputState) (env : CycleEnv)
    (detections : Option (List (Detection × DetEnv))) :
    HighKept st.eventsCache (Output st env detections).1.eventsCache ∧
    falling_labels (Output st env detections).2 = [] := by
  unfold Output
  split
  · exact ⟨HighKept.refl _, rfl⟩
  · split
    · exact ⟨HighKept.refl _, rfl⟩
    · split
      · exact ⟨HighKept.refl _, rfl⟩
      · rename_i dets _ _ settings _
        have hl := Output_loop_highKept (Output_config settings env) env.now dets
          { st with lastDetectionsWereEmpty := 0 } 0 []
        refine ⟨HighKept.trans hl.1 (Output_mark_absent_highKept _ _ _), ?_⟩
        simpa [falling_labels] using hl.2

theorem lowered_names_self (cache : List LabelEventState) : lowered_names cache cache = [] := by
  induction cache with
  | nil => rfl
  | cons evt rest ih =>
    unfold lowered_names at ih ⊢
    simp only [List.zip_cons_cons, List.filter_cons]
    have : ¬ (evt.state = 1 ∧ evt.state = 0) := by
      rintro ⟨h1, h0⟩; rw [h1] at h0; cases h0
    simp only [this, decide_False, Bool.false_eq_true, if_false]
    exact ih

theorem lowered_names_deactivate (now dur : Int) (cache : List LabelEventState) :
    lowered_names cache ((cache.map (Output_deactivate_entry now dur)).map Prod.fst) =
      (cache.filter (fun evt =>
        decide (evt.state = 1 ∧ now - evt.last_detect_time > dur))).map (fun evt => evt.name) := by
  induction cache with
  | nil => rfl
  | cons evt rest ih =>
    unfold lowered_names at ih ⊢
    simp only [List.map_cons, List.zip_cons_cons, List.filter_cons]
    have hiff : (evt.state = 1 ∧ (Output_deactivate_entry now dur evt).1.state = 0) ↔
        (evt.state = 1 ∧ now - evt.last_detect_time > dur) := by
      have hf := (Output_deactivate_entry_fields now dur evt).1
      constructor
      · rintro ⟨h1, h0⟩
        rcases hf.mp h0 with h | h
        · rw [h1] at h; cases h
        · exact h
      · intro h
        exact ⟨h.1, hf.mpr (Or.inr h)⟩
    by_cases hc : evt.state = 1 ∧ now - evt.last_detect_time > dur
    · have hc' := hiff.mpr hc
      simp only [hc, hc', and_self, decide_True, if_true, List.map_cons]
      rw [ih]
    · have hc' : ¬ (evt.state = 1 ∧ (Output_deactivate_entry now dur evt).1.state = 0) :=
        fun h => hc (hiff.mp h)
      simp only [hc, hc', decide_False, Bool.false_eq_true, if_false]
      exact ih

/-- C10: while `Output` processes one detection, a rising event for the label is
emitted exactly when the state of the label's entry goes from LOW to HIGH there, and no
other entry changes; a whole `Output` call keeps every HIGH entry HIGH and emits no
falling event; `Output_DeactivateExpired` leaves every LOW entry as it is, emits no
rising event, and the labels of its falling events are exactly the names of the entries
it takes from HIGH to LOW. -/
theorem events_match_transitions :
    (∀ (cfg : CycleConfig) (now : Int) (st : OutputState) (idx : Nat) (d : Detection)
        (e : DetEnv),
      (rising_labels (Output_detection cfg now st idx d e).2 =
          [d.label.getD "Undefined".toList] ∨
        rising_labels (Output_detection cfg now st idx d e).2 = []) ∧
      (rising_labels (Output_detection cfg now st idx d e).2 =
          [d.label.getD "Undefined".toList] ↔
        ∃ (i : Nat) (evt evt' : LabelEventState),
          (find_or_create_label_state st.eventsCache
            (d.label.getD "Undefined".toList)).2 = some i ∧
          (find_or_create_label_state st.eventsCache
            (d.label.getD "Undefined".toList)).1[i]? = some evt ∧
          (Output_detection cfg now st idx d e).1.eventsCache[i]? = some evt' ∧
          evt.state = 0 ∧ evt'.state = 1) ∧
      (∀ (j : Nat) (evt : LabelEventState),
        (find_or_create_label_state st.eventsCache
          (d.label.getD "Undefined".toList)).1[j]? = some evt →
        (find_or_create_label_state st.eventsCache
          (d.label.getD "Undefined".toList)).2 ≠ some j →
        (Output_detection cfg now st idx d e).1.eventsCache[j]? = some evt)) ∧
    (∀ (st : OutputState) (env : CycleEnv) (detections : Option (List (Detection × DetEnv))),
      HighKept st.eventsCache (Output st env detections).1.eventsCache ∧
      falling_labels (Output st env detections).2 = []) ∧
    (∀ (st : OutputState) (now : Int) (settings : Option Settings),
      (∀ (i : Nat) (evt : LabelEventState), st.eventsCache[i]? = some evt → evt.state = 0 →
        (Output_DeactivateExpired st now settings).1.eventsCache[i]? = some evt) ∧
      rising_labels (Output_DeactivateExpired st now settings).2 = [] ∧
      falling_labels (Output_DeactivateExpired st now settings).2 =
        lowered_names st.eventsCache (Output_DeactivateExpired st now settings).1.eventsCache) := by
  refine ⟨?_, Output_highKept, ?_⟩
  · intro cfg now st idx d e
    cases hfound : (find_or_create_label_state st.eventsCache
        (d.label.getD "Undefined".toList)).2 with
    | none =>
      rw [Output_detection_not_found cfg now st idx d e hfound]
      refine ⟨Or.inr rfl, ?_, fun j evt hj _ => hj⟩
      constructor
      · intro h; cases h
      · rintro ⟨i, _, _, hi, _⟩; cases hi
    | some i =>
      obtain ⟨evt, hevt, hafter, hrise⟩ := Output_detection_entry cfg now st idx d e i hfound
      have hflag := (Output_event_flag cfg evt now).1
      refine ⟨?_, ?_, ?_⟩
      · rw [hrise]
        cases (Output_event cfg evt now).2
        · exact Or.inr rfl
        · exact Or.inl rfl
      · rw [hrise]
        constructor
        · intro h
          have hf : (Output_event cfg evt now).2 = true := by
            cases hb : (Output_event cfg evt now).2
            · rw [hb] at h; cases h
            · rfl
          exact ⟨i, evt, _, rfl, hevt, hafter, hflag.mp hf⟩
        · rintro ⟨i', evt1, evt2, hi', h1, h2, hs0, hs1⟩
          have hii : i' = i := by injection hi' with h; exact h.symm
          subst hii
          rw [hevt] at h1
          rw [hafter] at h2
          injection h1 with h1
          injection h2 with h2
          subst h1
          have hf : (Output_event cfg evt now).2 = true := hflag.mpr ⟨hs0, by rw [h2]; exact hs1⟩
          rw [hf]
          rfl
      · intro j evt1 hj hne
        rw [(Output_detection_found cfg now st idx d e i hfound).1]
        have hij : i ≠ j := fun h => hne (by rw [h])
        rw [List.getElem?_set_ne hij]
        exact hj
  · intro st now settings
    cases settings with
    | none =>
      refine ⟨fun i evt hi _ => hi, rfl, ?_⟩
      simp only [Output_DeactivateExpired]
      rw [lowered_names_self]
      rfl
    | some s =>
      have hl := Output_deactivate_falling_list now (s.minEventDuration.getD 3000) st.eventsCache
      refine ⟨?_, hl.2, ?_⟩
      · intro i evt hi h0
        simp only [Output_DeactivateExpired, List.getElem?_map, hi, Option.map_some']
        have : Output_deactivate_entry now (s.minEventDuration.getD 3000) evt = (evt, []) := by
          unfold Output_deactivate_entry
          have : ¬ (evt.state = 1 ∧
              now - evt.last_detect_time > s.minEventDuration.getD 3000) := by
            rintro ⟨h1, _⟩; rw [h0] at h1; cases h1
          simp only [this, if_false]
        rw [this]
      · simp only [Output_DeactivateExpired]
        rw [lowered_names_deactivate]
        exact hl.1

/-! ## Instances -/

theorem speed_strategy_detection_witness :
    (Scenario.speed_config.prioritize = "speed".toList ∧
      ((find_label_state ((Scenario.detection "person").1.label.getD "Undefined".toList)
          OutputState.init.eventsCache).isSome ∨
        OutputState.init.eventsCache.length < MAX_LABELS)) ∧
    ∃ (i : Nat) (evt evt' : LabelEventState),
      (find_or_create_label_state OutputState.init.eventsCache
        ((Scenario.detection "person").1.label.getD "Undefined".toList)).2 = some i ∧
      (find_or_create_label_state OutputState.init.eventsCache
        ((Scenario.detection "person").1.label.getD "Undefined".toList)).1[i]? = some evt ∧
      (Output_detection Scenario.speed_config 1000 OutputState.init 0
        (Scenario.detection "person").1 Scenario.no_jpeg).1.eventsCache[i]? = some evt' ∧
      (evt.state = 0 → evt'.state = 1 ∧
        rising_labels (Output_detection Scenario.speed_config 1000 OutputState.init 0
          (Scenario.detection "person").1 Scenario.no_jpeg).2 =
          [(Scenario.detection "person").1.label.getD "Undefined".toList]) ∧
      (evt.state = 1 → evt'.state = 1 ∧
        rising_labels (Output_detection Scenario.speed_config 1000 OutputState.init 0
          (Scenario.detection "person").1 Scenario.no_jpeg).2 = []) ∧
      evt'.last_detect_time = 1000 ∧ evt'.rolling = evt.rolling ∧
      evt'.rolling_head = evt.rolling_head ∧ evt'.rolling_count = evt.rolling_count ∧
      evt'.name = evt.name :=
  ⟨⟨by decide, by decide⟩,
    speed_strategy_detection Scenario.speed_config 1000 OutputState.init 0
      (Scenario.detection "person").1 Scenario.no_jpeg (by decide) (by decide)⟩

theorem throttle_suppresses_export_witness :
    ((Scenario.crop_env 1200).now_ts - Scenario.exported.last_output_time_ms <
      Scenario.crop_config.throttle) ∧
    ((output_crop_cache_add true Scenario.exported.crop_cache (some [255, 216, 255])
      ([255, 216, 255].length % 2 ^ 32)
      (some ((Scenario.detection "person").1.label.getD "Undefined".toList))
      ((Scenario.detection "person").1.c.getD 0)
      (500 - Int.tdiv 100 2 - (Output_crop_rect Scenario.crop_config 500 500 100 100
        (Scenario.crop_env 1200).img_w (Scenario.crop_env 1200).img_h).1)
      (500 - Int.tdiv 100 2 - (Output_crop_rect Scenario.crop_config 500 500 100 100
        (Scenario.crop_env 1200).img_w (Scenario.crop_env 1200).img_h).2.1) 100 100).1 ≠ none ∧
    (Output_detection Scenario.crop_config 1200 Scenario.exported 0
        (Scenario.detection "person").1 (Scenario.crop_env 1200)).1.crop_cache =
      (output_crop_cache_add true Scenario.exported.crop_cache (some [255, 216, 255])
        ([255, 216, 255].length % 2 ^ 32)
        (some ((Scenario.detection "person").1.label.getD "Undefined".toList))
        ((Scenario.detection "person").1.c.getD 0)
        (500 - Int.tdiv 100 2 - (Output_crop_rect Scenario.crop_config 500 500 100 100
          (Scenario.crop_env 1200).img_w (Scenario.crop_env 1200).img_h).1)
        (500 - Int.tdiv 100 2 - (Output_crop_rect Scenario.crop_config 500 500 100 100
          (Scenario.crop_env 1200).img_w (Scenario.crop_env 1200).img_h).2.1) 100 100).2 ∧
    (Output_detection Scenario.crop_config 1200 Scenario.exported 0
        (Scenario.detection "person").1 (Scenario.crop_env 1200)).1.last_output_time_ms =
      Scenario.exported.last_output_time_ms ∧
    ∀ a ∈ (Output_detection Scenario.crop_config 1200 Scenario.exported 0
        (Scenario.detection "person").1 (Scenario.crop_env 1200)).2, a.is_sink = false) ∧
    ((Output_detection Scenario.crop_config 1200 Scenario.exported 0
        (Scenario.detection "person").1 (Scenario.crop_env 1200)).1.crop_cache.crop_history_count
      = 1) ∧
    (((Output_detection Scenario.crop_config 1600 Scenario.exported 0
        (Scenario.detection "person").1 (Scenario.crop_env 1600)).2.filter
          Action.is_sink).length = 4) :=
  ⟨by decide,
    throttle_suppresses_export Scenario.crop_config 1200 Scenario.exported 0
      (Scenario.detection "person").1 (Scenario.crop_env 1200) 0 [255, 216, 255, 224]
      [255, 216, 255] 500 500 100 100 (by decide) (by decide) rfl (by decide) (by decide)
      (by decide) rfl rfl rfl rfl (by decide) (by decide) rfl (by decide) rfl (by decide),
    by decide, by decide⟩

theorem events_match_transitions_witness :
    (HighKept Scenario.table.eventsCache
        (Output Scenario.table (Scenario.cycle 10000 none)
          (some [Scenario.detection "dog"])).1.eventsCache ∧
      falling_labels (Output Scenario.table (Scenario.cycle 10000 none)
          (some [Scenario.detection "dog"])).2 = []) ∧
    (Output Scenario.table (Scenario.cycle 10000 none)
      (some [Scenario.detection "dog"])).1.label_state "person" = some 1 ∧
    lowered_names Scenario.table.eventsCache
      (Output_DeactivateExpired Scenario.table 10000
        (some (Scenario.settings none))).1.eventsCache = ["person".toList] :=
  ⟨events_match_transitions.2.1 Scenario.table (Scenario.cycle 10000 none)
      (some [Scenario.detection "dog"]),
    by decide, by decide⟩

/-! ## Failed adds -/

/-- C11: when `output_crop_cache_add` gets a missing image, a size of 0 or a missing
label, or when `base64_encode` fails, it returns the null handle and the cache (every
slot, head and count) is the one before the call, so the dump is the same for every
request method. -/
theorem crop_cache_add_failure (malloc_ok : Bool) (c : CropCache)
    (jpeg_data : Option (List Nat)) (jpeg_size : Nat) (label : Option CStr)
    (confidence x y w h : Int)
    (hfail : jpeg_data = none ∨ jpeg_size = 0 ∨ label = none ∨
      base64_encode malloc_ok jpeg_data jpeg_size = none) :
    output_crop_cache_add malloc_ok c jpeg_data jpeg_size label confidence x y w h = (none, c) ∧
    ∀ method : CStr,
      output_crop_cache_http_callback
        (output_crop_cache_add malloc_ok c jpeg_data jpeg_size label confidence x y w h).2
        method = output_crop_cache_http_callback c method := by
  have hadd : output_crop_cache_add malloc_ok c jpeg_data jpeg_size label confidence x y w h =
      (none, c) := by
    unfold output_crop_cache_add
    cases jpeg_data with
    | none => rfl
    | some bytes =>
      cases label with
      | none => rfl
      | some lbl =>
        simp only []
        by_cases h0 : jpeg_size = 0
        · simp [h0]
        · rcases hfail with h1 | h1 | h1 | h1
          · cases h1
          · exact absurd h1 h0
          · cases h1
          · simp [h0, h1]
  exact ⟨hadd, fun method => by rw [hadd]⟩

theorem crop_cache_add_failure_witness :
    (base64_encode false (some [255, 216]) 2 = none) ∧
    (output_crop_cache_add false (crop_cache_run CropCache.init crop_adds_L)
        (some [255, 216]) 2 (some "person".toList) 80 1 2 3 4 =
        (none, crop_cache_run CropCache.init crop_adds_L) ∧
      ∀ method : CStr,
        output_crop_cache_http_callback
          (output_crop_cache_add false (crop_cache_run CropCache.init crop_adds_L)
            (some [255, 216]) 2 (some "person".toList) 80 1 2 3 4).2
          method =
          output_crop_cache_http_callback (crop_cache_run CropCache.init crop_adds_L) method) :=
  ⟨rfl, crop_cache_add_failure false (crop_cache_run CropCache.init crop_adds_L)
    (some [255, 216]) 2 (some "person".toList) 80 1 2 3 4 (Or.inr (Or.inr (Or.inr rfl)))⟩

/-! ## The rate controller, cycle by cycle -/

theorem ImageProcess_rate_min (s : RateState) (t : Nat) :
    (ImageProcess_rate s t).min_capture_rate_ms = s.min_capture_rate_ms ∧
    (ImageProcess_rate s t).adaptive_rate_enabled = s.adaptive_rate_enabled := by
  unfold ImageProcess_rate
  simp only []
  split <;> exact ⟨rfl, rfl⟩

/-- The value of `capture_rate_ms` after one sample, in closed form. -/
theorem ImageProcess_rate_capture (s : RateState) (t : Nat) :
    (ImageProcess_rate s t).capture_rate_ms =
      if 10 ≤ s.inferenceCounter + 1 ∧ s.adaptive_rate_enabled = true ∧
          0 < (s.inferenceAverage + t % 2 ^ 32) % 2 ^ 32 / 10 then
        max ((s.inferenceAverage + t % 2 ^ 32) % 2 ^ 32 / 10 * 4 % 2 ^ 32) s.min_capture_rate_ms
      else s.capture_rate_ms := by
  unfold ImageProcess_rate
  simp only []
  by_cases hc : s.inferenceCounter + 1 ≥ 10
  · by_cases ha : s.adaptive_rate_enabled = true ∧
        (s.inferenceAverage + t % 2 ^ 32) % 2 ^ 32 / 10 > 0
    · have hall : 10 ≤ s.inferenceCounter + 1 ∧ s.adaptive_rate_enabled = true ∧
          0 < (s.inferenceAverage + t % 2 ^ 32) % 2 ^ 32 / 10 := ⟨hc, ha.1, ha.2⟩
      rw [if_pos hc, if_pos hall]
      simp only [if_pos ha]
      rw [max_def]
      split_ifs <;> omega
    · have hall : ¬ (10 ≤ s.inferenceCounter + 1 ∧ s.adaptive_rate_enabled = true ∧
          0 < (s.inferenceAverage + t % 2 ^ 32) % 2 ^ 32 / 10) := fun h => ha ⟨h.2.1, h.2.2⟩
      rw [if_pos hc, if_neg hall]
      simp only [if_neg ha]
  · have hall : ¬ (10 ≤ s.inferenceCounter + 1 ∧ s.adaptive_rate_enabled = true ∧
        0 < (s.inferenceAverage + t % 2 ^ 32) % 2 ^ 32 / 10) := fun h => hc h.1
    rw [if_neg hc, if_neg hall]

theorem ImageProcess_rate_written (s : RateState) (t : Nat)
    (h : (ImageProcess_rate s t).capture_rate_ms ≠ s.capture_rate_ms) :
    10 ≤ s.inferenceCounter + 1 ∧ s.adaptive_rate_enabled = true ∧
    0 < (s.inferenceAverage + t % 2 ^ 32) % 2 ^ 32 / 10 ∧
    s.min_capture_rate_ms ≤ (ImageProcess_rate s t).capture_rate_ms := by
  rw [ImageProcess_rate_capture] at h ⊢
  by_cases hall : 10 ≤ s.inferenceCounter + 1 ∧ s.adaptive_rate_enabled = true ∧
      0 < (s.inferenceAverage + t % 2 ^ 32) % 2 ^ 32 / 10
  · rw [if_pos hall]
    exact ⟨hall.1, hall.2.1, hall.2.2, le_max_right _ _⟩
  · rw [if_neg hall] at h
    exact absurd rfl h

theorem ImageProcess_rate_run_floor (latencies : List Nat) :
    ∀ s : RateState,
      (ImageProcess_rate_run s latencies).min_capture_rate_ms = s.min_capture_rate_ms ∧
      ((ImageProcess_rate_run s latencies).capture_rate_ms = s.capture_rate_ms ∨
        s.min_capture_rate_ms ≤ (ImageProcess_rate_run s latencies).capture_rate_ms) := by
  induction latencies with
  | nil => intro s; exact ⟨rfl, Or.inl rfl⟩
  | cons t rest ih =>
    intro s
    have hstep := ih (ImageProcess_rate s t)
    have hmin := (ImageProcess_rate_min s t).1
    simp only [ImageProcess_rate_run, List.foldl_cons] at hstep ⊢
    refine ⟨hstep.1.trans hmin, ?_⟩
    rcases hstep.2 with h | h
    · by_cases hw : (ImageProcess_rate s t).capture_rate_ms = s.capture_rate_ms
      · exact Or.inl (h.trans hw)
      · right
        rw [h]
        exact (ImageProcess_rate_written s t hw).2.2.2
    · right
      rw [hmin] at h
      exact h

/-- C14: in a state whose sample counter is between 0 and 9, one call of `ImageProcess`
leaves the rate state untouched or accounts one sample; `capture_rate_ms` changes only
when that sample is the tenth, adaptive mode is on and the mean of the window is
positive; on the tenth sample the counter and the accumulator become 0, on the others
the counter grows by one, the sample is added and `capture_rate_ms` is kept. -/
theorem rate_changes_only_on_tenth_sample (s : RateState) (env : ProcessEnv)
    (h0 : 0 ≤ s.inferenceCounter) (h9 : s.inferenceCounter < 10) :
    ((ImageProcess s env).rate = s ∨
      (ImageProcess s env).rate = ImageProcess_rate s env.inferenceTime) ∧
    ((ImageProcess s env).rate.capture_rate_ms ≠ s.capture_rate_ms →
      s.inferenceCounter = 9 ∧ s.adaptive_rate_enabled = true ∧
      0 < (s.inferenceAverage + env.inferenceTime % 2 ^ 32) % 2 ^ 32 / 10) ∧
    (s.inferenceCounter = 9 →
      (ImageProcess_rate s env.inferenceTime).inferenceCounter = 0 ∧
      (ImageProcess_rate s env.inferenceTime).inferenceAverage = 0) ∧
    (s.inferenceCounter < 9 →
      (ImageProcess_rate s env.inferenceTime).inferenceCounter = s.inferenceCounter + 1 ∧
      (ImageProcess_rate s env.inferenceTime).inferenceAverage =
        (s.inferenceAverage + env.inferenceTime % 2 ^ 32) % 2 ^ 32 ∧
      (ImageProcess_rate s env.inferenceTime).capture_rate_ms = s.capture_rate_ms) ∧
    0 ≤ (ImageProcess s env).rate.inferenceCounter ∧
    (ImageProcess s env).rate.inferenceCounter < 10 := by
  have hcases : (ImageProcess s env).rate = s ∨
      (ImageProcess s env).rate = ImageProcess_rate s env.inferenceTime := by
    unfold ImageProcess
    repeat' (first | split | (dsimp only))
    all_goals first
      | exact Or.inl rfl
      | exact Or.inr rfl
  have hnine : s.inferenceCounter = 9 →
      (ImageProcess_rate s env.inferenceTime).inferenceCounter = 0 ∧
      (ImageProcess_rate s env.inferenceTime).inferenceAverage = 0 := by
    intro h
    unfold ImageProcess_rate
    simp [h]
  have hless : s.inferenceCounter < 9 →
      (ImageProcess_rate s env.inferenceTime).inferenceCounter = s.inferenceCounter + 1 ∧
      (ImageProcess_rate s env.inferenceTime).inferenceAverage =
        (s.inferenceAverage + env.inferenceTime % 2 ^ 32) % 2 ^ 32 ∧
      (ImageProcess_rate s env.inferenceTime).capture_rate_ms = s.capture_rate_ms := by
    intro h
    have hc : ¬ (s.inferenceCounter + 1 ≥ 10) := by omega
    unfold ImageProcess_rate
    simp only []
    rw [if_neg hc]
    exact ⟨rfl, rfl, rfl⟩
  have hcount : 0 ≤ (ImageProcess_rate s env.inferenceTime).inferenceCounter ∧
      (ImageProcess_rate s env.inferenceTime).inferenceCounter < 10 := by
    by_cases h : s.inferenceCounter = 9
    · rw [(hnine h).1]; omega
    · have hl : s.inferenceCounter < 9 := by omega
      rw [(hless hl).1]; omega
  refine ⟨hcases, ?_, hnine, hless, ?_, ?_⟩
  · intro hne
    rcases hcases with h | h
    · rw [h] at hne; exact absurd rfl hne
    · rw [h] at hne
      have hw := ImageProcess_rate_written s env.inferenceTime hne
      exact ⟨by omega, hw.2.1, hw.2.2.1⟩
  · rcases hcases with h | h
    · rw [h]; exact h0
    · rw [h]; exact hcount.1
  · rcases hcases with h | h
    · rw [h]; exact h9
    · rw [h]; exact hcount.2

theorem rate_changes_only_on_tenth_sample_witness :
    ((0 : Int) ≤ 9 ∧ (9 : Int) < 10) ∧
    (ImageProcess { RateState.init with inferenceCounter := 9, inferenceAverage := 900 }
        (Scenario.process_env 100)).rate =
      { RateState.init with capture_rate_ms := 400 } ∧
    (((ImageProcess { RateState.init with inferenceCounter := 9, inferenceAverage := 900 }
          (Scenario.process_env 100)).rate =
        { RateState.init with inferenceCounter := 9, inferenceAverage := 900 } ∨
      (ImageProcess { RateState.init with inferenceCounter := 9, inferenceAverage := 900 }
          (Scenario.process_env 100)).rate =
        ImageProcess_rate { RateState.init with inferenceCounter := 9, inferenceAverage := 900 }
          (Scenario.process_env 100).inferenceTime) ∧
    ((ImageProcess { RateState.init with inferenceCounter := 9, inferenceAverage := 900 }
          (Scenario.process_env 100)).rate.capture_rate_ms ≠
        ({ RateState.init with inferenceCounter := 9, inferenceAverage := 900 } :
          RateState).capture_rate_ms →
      ({ RateState.init with inferenceCounter := 9, inferenceAverage := 900 } :
          RateState).inferenceCounter = 9 ∧
      ({ RateState.init with inferenceCounter := 9, inferenceAverage := 900 } :
          RateState).adaptive_rate_enabled = true ∧
      0 < (({ RateState.init with inferenceCounter := 9, inferenceAverage := 900 } :
          RateState).inferenceAverage + (Scenario.process_env 100).inferenceTime % 2 ^ 32) %
            2 ^ 32 / 10)) :=
  ⟨⟨by decide, by decide⟩, by decide,
    (rate_changes_only_on_tenth_sample
      { RateState.init with inferenceCounter := 9, inferenceAverage := 900 }
      (Scenario.process_env 100) (by decide) (by decide)).1,
    (rate_changes_only_on_tenth_sample
      { RateState.init with inferenceCounter := 9, inferenceAverage := 900 }
      (Scenario.process_env 100) (by decide) (by decide)).2.1⟩

/-- C15: whenever a cycle changes `capture_rate_ms`, the new value is at least
`min_capture_rate_ms`; hence after any sequence of latency samples (the accumulator and
the product with 4 wrap modulo `2 ^ 32`) `capture_rate_ms` is its initial value or at
least `min_capture_rate_ms`, which itself never changes. -/
theorem rate_written_at_least_floor :
    (∀ (s : RateState) (t : Nat),
      (ImageProcess_rate s t).capture_rate_ms ≠ s.capture_rate_ms →
        s.min_capture_rate_ms ≤ (ImageProcess_rate s t).capture_rate_ms) ∧
    (∀ (s : RateState) (latencies : List Nat),
      (ImageProcess_rate_run s latencies).min_capture_rate_ms = s.min_capture_rate_ms ∧
      ((ImageProcess_rate_run s latencies).capture_rate_ms = s.capture_rate_ms ∨
        s.min_capture_rate_ms ≤ (ImageProcess_rate_run s latencies).capture_rate_ms)) :=
  ⟨fun s t h => (ImageProcess_rate_written s t h).2.2.2,
    fun s latencies => ImageProcess_rate_run_floor latencies s⟩

theorem rate_written_at_least_floor_witness :
    (ImageProcess_rate_run RateState.init Scenario.latencies).capture_rate_ms = 356 ∧
    ((ImageProcess_rate_run RateState.init Scenario.latencies).min_capture_rate_ms =
        RateState.init.min_capture_rate_ms ∧
      ((ImageProcess_rate_run RateState.init Scenario.latencies).capture_rate_ms =
          RateState.init.capture_rate_ms ∨
        RateState.init.min_capture_rate_ms ≤
          (ImageProcess_rate_run RateState.init Scenario.latencies).capture_rate_ms)) :=
  ⟨by decide, rate_written_at_least_floor.2 RateState.init Scenario.latencies⟩

/-! ## The filter stage as a function of its input -/

theorem ImageProcess_filter_eq (f : FilterConfig) (videoWidth videoHeight : Nat)
    (timestamp : Int) (detections : List RawDetection) :
    ImageProcess_filter f videoWidth videoHeight timestamp detections =
      (detections.filter (fun d =>
        ImageProcess_insert f (ImageProcess_scale videoWidth videoHeight d))).map
        (RawDetection.processed videoWidth videoHeight timestamp) := by
  unfold ImageProcess_filter
  induction detections with
  | nil => rfl
  | cons d rest ih =>
    simp only [List.filterMap_cons, List.filter_cons]
    cases h : ImageProcess_insert f (ImageProcess_scale videoWidth videoHeight d)
    · simp only [Bool.false_eq_true, if_false]
      exact ih
    · simp only [if_true, List.map_cons, ih]
      rfl

/-- C17: the list `ImageProcess` hands to `Output` is the image, detection by
detection and in order, of a sublist of the input (the detections for which `insert`
is set): every accepted detection comes from one input detection, none is taken twice
and the order is that of the input. -/
theorem accepted_is_subsequence :
    (∀ (f : FilterConfig) (videoWidth videoHeight : Nat) (timestamp : Int)
        (detections : List RawDetection),
      ∃ kept : List RawDetection, List.Sublist kept detections ∧
        ImageProcess_filter f videoWidth videoHeight timestamp detections =
          kept.map (RawDetection.processed videoWidth videoHeight timestamp)) ∧
    (∀ (s : RateState) (env : ProcessEnv) (accepted : List Detection),
      (ImageProcess s env).processedDetections = some accepted →
      ∃ (kept : List RawDetection) (videoWidth videoHeight : Nat),
        List.Sublist kept env.detections ∧
        accepted = kept.map (RawDetection.processed videoWidth videoHeight env.timestamp)) := by
  constructor
  · intro f videoWidth videoHeight timestamp detections
    exact ⟨_, List.filter_sublist _, ImageProcess_filter_eq f videoWidth videoHeight timestamp
      detections⟩
  · intro s env accepted h
    unfold ImageProcess at h
    split at h
    · rename_i settings model _ _
      split at h
      · cases h
      · simp only [] at h
        split at h
        · cases h
        · split at h
          · cases h
          · simp only [Option.some.injEq] at h
            subst h
            exact ⟨_, _, _, List.filter_sublist _, ImageProcess_filter_eq _ _ _ _ _⟩
    · cases h

theorem accepted_is_subsequence_witness :
    (ImageProcess RateState.init (Scenario.process_env 100)).processedDetections =
      some [RawDetection.processed 1000 1000 5000 Scenario.raw_accepted] ∧
    ∃ (kept : List RawDetection) (videoWidth videoHeight : Nat),
      List.Sublist kept (Scenario.process_env 100).detections ∧
      [RawDetection.processed 1000 1000 5000 Scenario.raw_accepted] =
        kept.map (RawDetection.processed videoWidth videoHeight
          (Scenario.process_env 100).timestamp) :=
  ⟨by decide,
    accepted_is_subsequence.2 RateState.init (Scenario.process_env 100)
      [RawDetection.processed 1000 1000 5000 Scenario.raw_accepted] (by decide)⟩

theorem ImageProcess_filter_without_timestamp (f : FilterConfig) (videoWidth videoHeight : Nat)
    (t1 t2 : Int) (detections : List RawDetection) :
    (ImageProcess_filter f videoWidth videoHeight t1 detections).map
        Detection.without_timestamp =
      (ImageProcess_filter f videoWidth videoHeight t2 detections).map
        Detection.without_timestamp := by
  rw [ImageProcess_filter_eq, ImageProcess_filter_eq, List.map_map, List.map_map]
  rfl

/-- Two calls of `ImageProcess` with the same settings, model, capture outcome and
detections hand the same detections to `Output`, the attached time stamp apart. -/
theorem ImageProcess_processed_same (s1 s2 : RateState) (env1 env2 : ProcessEnv)
    (hsettings : env1.settings = env2.settings) (hmodel : env1.model = env2.model)
    (hcapture : env1.capture_ok = env2.capture_ok)
    (hdetections : env1.detections = env2.detections) :
    (ImageProcess s1 env1).source = (ImageProcess s2 env2).source ∧
    (ImageProcess s1 env1).processedDetections.map (List.map Detection.without_timestamp) =
      (ImageProcess s2 env2).processedDetections.map (List.map Detection.without_timestamp) ∧
    (env1.timestamp = env2.timestamp →
      (ImageProcess s1 env1).processedDetections =
        (ImageProcess s2 env2).processedDetections) := by
  unfold ImageProcess
  rw [hsettings, hmodel, hcapture, hdetections]
  cases env2.settings with
  | none => exact ⟨rfl, rfl, fun _ => rfl⟩
  | some settings =>
    cases env2.model with
    | none => exact ⟨rfl, rfl, fun _ => rfl⟩
    | some model =>
      simp only []
      cases env2.capture_ok with
      | false => exact ⟨rfl, rfl, fun _ => rfl⟩
      | true =>
        simp only [Bool.not_true, Bool.false_eq_true, if_false]
        cases settings.aoi with
        | none => exact ⟨rfl, rfl, fun _ => rfl⟩
        | some aoi =>
          cases settings.size with
          | none => exact ⟨rfl, rfl, fun _ => rfl⟩
          | some size =>
            refine ⟨rfl, ?_, fun ht => by rw [ht]⟩
            simp only [Option.map_some']
            rw [ImageProcess_filter_without_timestamp _ _ _ env1.timestamp env2.timestamp]

/-! ## The value returned to the timer -/

/-- C16 as stated fails: with settings and model present and a captured frame, but no
`aoi` object in the settings, `ImageProcess` returns `G_SOURCE_REMOVE`; so it does when
the frame capture fails. -/
theorem image_process_removes_without_aoi :
    Scenario.no_aoi_env.settings ≠ none ∧ Scenario.no_aoi_env.model ≠ none ∧
    (ImageProcess RateState.init Scenario.no_aoi_env).source = GSource.G_SOURCE_REMOVE ∧
    (ImageProcess RateState.init Scenario.no_aoi_env).processedDetections = none ∧
    Scenario.no_frame_env.settings ≠ none ∧ Scenario.no_frame_env.model ≠ none ∧
    (ImageProcess RateState.init Scenario.no_frame_env).source = GSource.G_SOURCE_REMOVE := by
  refine ⟨by decide, by decide, by decide, by decide, by decide, by decide, by decide⟩

/-- C16 (amended): `ImageProcess` returns `G_SOURCE_REMOVE` exactly when the settings or
the model is absent, the frame capture fails, or the settings have no `aoi` or no `size`
object, and then `Output` is not called; in every other case it returns
`G_SOURCE_CONTINUE` and hands the filtered detections to `Output`. -/
theorem image_process_return_value (s : RateState) (env : ProcessEnv) :
    ((ImageProcess s env).source = GSource.G_SOURCE_REMOVE ↔
      (env.settings = none ∨ env.model = none ∨ env.capture_ok = false ∨
        (∃ settings, env.settings = some settings ∧
          (settings.aoi = none ∨ settings.size = none)))) ∧
    ((ImageProcess s env).source = GSource.G_SOURCE_REMOVE →
      (ImageProcess s env).processedDetections = none) ∧
    ((ImageProcess s env).source = GSource.G_SOURCE_CONTINUE →
      ∃ accepted, (ImageProcess s env).processedDetections = some accepted) ∧
    ((ImageProcess s env).source = GSource.G_SOURCE_REMOVE ∨
      (ImageProcess s env).source = GSource.G_SOURCE_CONTINUE) := by
  cases hs : env.settings with
  | none => simp [ImageProcess, hs]
  | some settings =>
    cases hm : env.model with
    | none => simp [ImageProcess, hs, hm]
    | some model =>
      cases hc : env.capture_ok with
      | false => simp [ImageProcess, hs, hm, hc]
      | true =>
        cases ha : settings.aoi with
        | none => simp [ImageProcess, hs, hm, hc, ha]
        | some aoi =>
          cases hz : settings.size with
          | none => simp [ImageProcess, hs, hm, hc, ha, hz]
          | some size => simp [ImageProcess, hs, hm, hc, ha, hz]

theorem image_process_return_value_witness :
    (ImageProcess RateState.init (Scenario.process_env 100)).source =
      GSource.G_SOURCE_CONTINUE ∧
    ((ImageProcess RateState.init Scenario.no_aoi_env).source = GSource.G_SOURCE_REMOVE ↔
      (Scenario.no_aoi_env.settings = none ∨ Scenario.no_aoi_env.model = none ∨
        Scenario.no_aoi_env.capture_ok = false ∨
        (∃ settings, Scenario.no_aoi_env.settings = some settings ∧
          (settings.aoi = none ∨ settings.size = none)))) :=
  ⟨by decide, (image_process_return_value RateState.init Scenario.no_aoi_env).1⟩

/-! ## The interval of the producer timer -/

/-- C13: from the start-up state (timer created at 1000 ms), ten cycles with latencies
between 100 and 190 ms change `capture_rate_ms` to 580, but the delay before each of the
following calls of `ImageProcess` is still the 1000 ms the timer was created with. -/
theorem timer_keeps_initial_interval :
    (main_start_timer RateState.init true).interval = 1000 ∧
    (producer_run (Scenario.process_envs.take 10) (main_start_timer RateState.init true)
      RateState.init).2.1.capture_rate_ms = 580 ∧
    (producer_run (Scenario.process_envs.take 10) (main_start_timer RateState.init true)
      RateState.init).1 = { interval := 1000, active := true } ∧
    (producer_run Scenario.process_envs (main_start_timer RateState.init true)
      RateState.init).2.2 = List.replicate 12 1000 := by
  refine ⟨by decide, by decide, by decide, by decide⟩

/-! ## The sinks of one export -/

/-- The sink attempts of one export depend on the three switches and the URL only. -/
theorem Output_sinks_attempts (cfg : CycleConfig) (e : DetEnv) (label : CStr)
    (timestamp : Int) (idx : Nat) (jpeg : List Nat) (payload : CropPayload) :
    sink_attempts (Output_sinks cfg e label timestamp idx jpeg payload) =
      (if cfg.sdcard_enable then
          [Action.save_jpeg (replace_spaces (label.take 63)) timestamp idx jpeg] else []) ++
      (if cfg.mqtt_export then [Action.mqtt_crop payload] else []) ++
      (if cfg.http_export then
          match cfg.http_url with
          | some url => if url ≠ [] then [Action.http_post url payload] else []
          | none => []
        else []) := by
  unfold Output_sinks sink_attempts
  simp only [List.filter_append]
  congr 1
  · congr 1
    · cases cfg.sdcard_enable
      · rfl
      · cases e.save_jpeg_ok <;> cases e.save_label_ok <;> rfl
    · cases cfg.mqtt_export
      · rfl
      · cases e.mqtt_ok <;> rfl
  · cases cfg.http_export
    · rfl
    · cases cfg.http_url with
      | none => rfl
      | some url =>
        by_cases hu : url = []
        · simp [hu, Action.is_attempt]
        · cases e.http_ok <;> simp [hu, Action.is_attempt]

theorem sink_attempts_append (a b : List Action) :
    sink_attempts (a ++ b) = sink_attempts a ++ sink_attempts b := by
  simp [sink_attempts, List.filter_append]

theorem Output_sinks_same (cfg : CycleConfig) (e1 e2 : DetEnv) (label : CStr)
    (timestamp : Int) (idx : Nat) (jpeg : List Nat) (payload : CropPayload) :
    sink_attempts (Output_sinks cfg e1 label timestamp idx jpeg payload) =
      sink_attempts (Output_sinks cfg e2 label timestamp idx jpeg payload) := by
  rw [Output_sinks_attempts, Output_sinks_attempts]

/-- The state after the cropping path and its sink attempts do not depend on the
results of the sink calls. -/
theorem Output_crop_same (cfg : CycleConfig) (now : Int) (st : OutputState) (idx : Nat)
    (d : Detection) (e1 e2 : DetEnv) (h : DetEnv.same_inputs e1 e2) :
    (Output_crop cfg now st idx d e1).1 = (Output_crop cfg now st idx d e2).1 ∧
    sink_attempts (Output_crop cfg now st idx d e1).2 =
      sink_attempts (Output_crop cfg now st idx d e2).2 := by
  obtain ⟨h1, h2, h3, h4, h5, h6⟩ := h
  unfold Output_crop
  rw [h1, h2, h3, h4, h5, h6]
  repeat' (first | split | (dsimp only))
  all_goals first
    | exact ⟨rfl, rfl⟩
    | exact ⟨rfl, Output_sinks_same _ _ _ _ _ _ _ _⟩

theorem Output_detection_same (cfg : CycleConfig) (now : Int) (st : OutputState) (idx : Nat)
    (d : Detection) (e1 e2 : DetEnv) (h : DetEnv.same_inputs e1 e2) :
    (Output_detection cfg now st idx d e1).1 = (Output_detection cfg now st idx d e2).1 ∧
    sink_attempts (Output_detection cfg now st idx d e1).2 =
      sink_attempts (Output_detection cfg now st idx d e2).2 := by
  unfold Output_detection
  simp only []
  split
  · exact ⟨rfl, rfl⟩
  · split
    · have hc := fun st1 => Output_crop_same cfg now st1 idx d e1 e2 h
      exact ⟨(hc _).1, by rw [sink_attempts_append, sink_attempts_append, (hc _).2]⟩
    · exact ⟨rfl, rfl⟩

theorem Output_loop_same (cfg : CycleConfig) (now : Int)
    (dets1 dets2 : List (Detection × DetEnv)) (h : same_batch dets1 dets2) :
    ∀ (st : OutputState) (idx : Nat) (frame_labels : List CStr),
      (Output_loop cfg now dets1 st idx frame_labels).1 =
        (Output_loop cfg now dets2 st idx frame_labels).1 ∧
      sink_attempts (Output_loop cfg now dets1 st idx frame_labels).2.1 =
        sink_attempts (Output_loop cfg now dets2 st idx frame_labels).2.1 ∧
      (Output_loop cfg now dets1 st idx frame_labels).2.2 =
        (Output_loop cfg now dets2 st idx frame_labels).2.2 := by
  induction h with
  | nil => intro st idx fl; exact ⟨rfl, rfl, rfl⟩
  | @cons p q rest1 rest2 hpq _ ih =>
    intro st idx fl
    obtain ⟨d1, e1⟩ := p
    obtain ⟨d2, e2⟩ := q
    obtain ⟨hd, he⟩ := hpq
    simp only at hd he
    subst hd
    simp only [Output_loop]
    have hdet := Output_detection_same cfg now st idx d1 e1 e2 he
    rw [hdet.1]
    have hrest := ih (Output_detection cfg now st idx d1 e2).1 (idx + 1)
      (if fl.length < MAX_LABELS then fl ++ [(d1.label.getD "Undefined".toList).take 63] else fl)
    refine ⟨hrest.1, ?_, hrest.2.2⟩
    rw [sink_attempts_append, sink_attempts_append, hdet.2, hrest.2.1]

theorem same_batch_fst (dets1 dets2 : List (Detection × DetEnv)) (h : same_batch dets1 dets2) :
    dets1.map Prod.fst = dets2.map Prod.fst ∧ dets1.length = dets2.length := by
  induction h with
  | nil => exact ⟨rfl, rfl⟩
  | cons hpq _ ih =>
    simp only [List.map_cons, List.length_cons]
    exact ⟨by rw [hpq.1, ih.1], by rw [ih.2]⟩

/-- The state after `Output` and the sink attempts of the whole call do not depend on
the results of the sink calls. -/
theorem Output_same (st : OutputState) (env : CycleEnv)
    (dets1 dets2 : List (Detection × DetEnv)) (h : same_batch dets1 dets2) :
    (Output st env (some dets1)).1 = (Output st env (some dets2)).1 ∧
    sink_attempts (Output st env (some dets1)).2 =
      sink_attempts (Output st env (some dets2)).2 := by
  have hf := same_batch_fst dets1 dets2 h
  unfold Output
  simp only [hf.1, hf.2]
  split
  · exact ⟨rfl, rfl⟩
  · split
    · exact ⟨rfl, rfl⟩
    · rename_i settings _
      have hl := Output_loop_same (Output_config settings env) env.now dets1 dets2 h
        { st with lastDetectionsWereEmpty := 0 } 0 []
      simp only []
      rw [hl.1, hl.2.2]
      refine ⟨rfl, ?_⟩
      simp only [sink_attempts, List.filter_cons, Action.is_attempt, Bool.false_eq_true,
        if_false]
      exact hl.2.1

/-- The trace of a detection whose crop is cached and passes the throttle: the rising
event, if any, followed by the sink calls of one export. -/
theorem Output_detection_export (cfg : CycleConfig) (now : Int) (st : OutputState)
    (idx : Nat) (d : Detection) (e : DetEnv) (i : Nat) (full_jpeg jpeg : List Nat)
    (x y w h : Int)
    (hactive : cfg.cropping_active = true)
    (hfound : (find_or_create_label_state st.eventsCache
      (d.label.getD "Undefined".toList)).2 = some i)
    (hfull : e.full_jpeg = some full_jpeg) (hfull0 : full_jpeg.length ≠ 0)
    (himgw : e.img_w ≠ 0) (himgh : e.img_h ≠ 0)
    (hx : d.x = some x) (hy : d.y = some y) (hw : d.w = some w) (hh : d.h = some h)
    (hcw : 0 < (Output_crop_rect cfg x y w h e.img_w e.img_h).2.2.1)
    (hch : 0 < (Output_crop_rect cfg x y w h e.img_w e.img_h).2.2.2)
    (hjpeg : e.crop_jpeg = some jpeg) (hsize : jpeg.length % 2 ^ 32 ≠ 0)
    (hmalloc : e.malloc_ok = true)
    (hpass : e.now_ts - st.last_output_time_ms > cfg.throttle) :
    ∃ payload : CropPayload,
      payload.label = d.label.getD "Undefined".toList ∧
      some payload.image = base64_encode true (some jpeg) (jpeg.length % 2 ^ 32) ∧
      sink_attempts (Output_detection cfg now st idx d e).2 =
        sink_attempts (Output_sinks cfg e (d.label.getD "Undefined".toList)
          (d.timestamp.getD now) idx (jpeg.take (jpeg.length % 2 ^ 32)) payload) ∧
      (Output_detection cfg now st idx d e).1.last_output_time_ms = e.now_ts := by
  have hlen : jpeg.length ≠ 0 := by
    intro h0; rw [h0] at hsize; exact hsize rfl
  obtain ⟨b64, hb64⟩ := base64_encode_isSome jpeg (jpeg.length % 2 ^ 32) hsize
  have hdims : ¬ ((Output_crop_rect cfg x y w h e.img_w e.img_h).2.2.1 ≤ 0 ∨
      (Output_crop_rect cfg x y w h e.img_w e.img_h).2.2.2 ≤ 0) := by omega
  have hcrop : ∀ ec : List LabelEventState,
      Output_crop cfg now { st with eventsCache := ec } idx d e =
        ({ st with eventsCache := ec, last_output_time_ms := e.now_ts,
                   crop_cache := (output_crop_cache_add true st.crop_cache
            (some jpeg) (jpeg.length % 2 ^ 32) (some (d.label.getD "Undefined".toList))
            (d.c.getD 0)
            (x - Int.tdiv w 2 - (Output_crop_rect cfg x y w h e.img_w e.img_h).1)
            (y - Int.tdiv h 2 - (Output_crop_rect cfg x y w h e.img_w e.img_h).2.1) w h).2 },
          Output_sinks cfg e (d.label.getD "Undefined".toList) (d.timestamp.getD now) idx
            (jpeg.take (jpeg.length % 2 ^ 32))
            { label := d.label.getD "Undefined".toList, timestamp := d.timestamp.getD now,
              confidence := d.c.getD 0,
              x := x - Int.tdiv w 2 - (Output_crop_rect cfg x y w h e.img_w e.img_h).1,
              y := y - Int.tdiv h 2 - (Output_crop_rect cfg x y w h e.img_w e.img_h).2.1,
              w := w, h := h, image := b64 }) := by
    intro ec
    unfold Output_crop
    simp only [hfull, hfull0, himgw, himgh, or_self, if_false, hx, hy, hw, hh, hdims, hjpeg,
      hlen, hmalloc, hpass, if_true, output_crop_cache_add, hsize, hb64]
  refine ⟨{ label := d.label.getD "Undefined".toList, timestamp := d.timestamp.getD now,
            confidence := d.c.getD 0,
            x := x - Int.tdiv w 2 - (Output_crop_rect cfg x y w h e.img_w e.img_h).1,
            y := y - Int.tdiv h 2 - (Output_crop_rect cfg x y w h e.img_w e.img_h).2.1,
            w := w, h := h, image := b64 }, rfl, hb64.symm, ?_, ?_⟩
  · unfold Output_detection
    simp only [hfound, hactive, if_true]
    rw [hcrop, sink_attempts_append]
    have : sink_attempts (if (Output_event cfg
        ((find_or_create_label_state st.eventsCache (d.label.getD "Undefined".toList)).1.getD i
          (LabelEventState.create (d.label.getD "Undefined".toList))) now).2 = true then
        [Action.fire_state (d.label.getD "Undefined".toList) 1,
          Action.mqtt_event (d.label.getD "Undefined".toList) true] else []) = [] := by
      split <;> rfl
    rw [this, List.nil_append]
  · unfold Output_detection
    simp only [hfound, hactive, if_true]
    rw [hcrop]

/-- C12: for a detection whose crop is cached and passes the throttle, the sink attempts
are, in this order, the JPEG write iff `sdcard` is on and the directory could be
ensured, the crop publish iff `mqtt` is on, and the HTTP POST iff `http` is on and the
URL is present and non-empty, whatever the results of the sink calls; and the state
after `Output` and the sink attempts of a whole batch are the same for any results of
the sink calls. -/
theorem sinks_follow_their_switches :
    (∀ (settings : Settings) (cropping : CroppingSettings) (env : CycleEnv) (now : Int)
        (st : OutputState) (idx : Nat) (d : Detection) (e : DetEnv) (i : Nat)
        (full_jpeg jpeg : List Nat) (x y w h : Int),
      settings.cropping = some cropping → cropping.active = true →
      (find_or_create_label_state st.eventsCache
        (d.label.getD "Undefined".toList)).2 = some i →
      e.full_jpeg = some full_jpeg → full_jpeg.length ≠ 0 → e.img_w ≠ 0 → e.img_h ≠ 0 →
      d.x = some x → d.y = some y → d.w = some w → d.h = some h →
      0 < (Output_crop_rect (Output_config settings env) x y w h e.img_w e.img_h).2.2.1 →
      0 < (Output_crop_rect (Output_config settings env) x y w h e.img_w e.img_h).2.2.2 →
      e.crop_jpeg = some jpeg → jpeg.length % 2 ^ 32 ≠ 0 → e.malloc_ok = true →
      e.now_ts - st.last_output_time_ms > cropping.throttle.getD 500 →
      ∃ payload : CropPayload,
        payload.label = d.label.getD "Undefined".toList ∧
        some payload.image = base64_encode true (some jpeg) (jpeg.length % 2 ^ 32) ∧
        sink_attempts (Output_detection (Output_config settings env) now st idx d e).2 =
          (if cropping.sdcard = true ∧ env.ensure_sd_directory = true then
              [Action.save_jpeg (replace_spaces ((d.label.getD "Undefined".toList).take 63))
                (d.timestamp.getD now) idx (jpeg.take (jpeg.length % 2 ^ 32))]
            else []) ++
          (if cropping.mqtt = true then [Action.mqtt_crop payload] else []) ++
          (if cropping.http = true then
              match cropping.http_url with
              | some url => if url ≠ [] then [Action.http_post url payload] else []
              | none => []
            else [])) ∧
    (∀ (st : OutputState) (env : CycleEnv) (dets1 dets2 : List (Detection × DetEnv)),
      same_batch dets1 dets2 →
      (Output st env (some dets1)).1 = (Output st env (some dets2)).1 ∧
      sink_attempts (Output st env (some dets1)).2 =
        sink_attempts (Output st env (some dets2)).2) := by
  refine ⟨?_, Output_same⟩
  intro settings cropping env now st idx d e i full_jpeg jpeg x y w h hcr hact hfound hfull
    hfull0 himgw himgh hx hy hw hh hcw hch hjpeg hsize hmalloc hpass
  have hcfg_active : (Output_config settings env).cropping_active = true := by
    simp [Output_config, hcr, hact]
  have hcfg_thr : (Output_config settings env).throttle = cropping.throttle.getD 500 := by
    simp [Output_config, hcr]
  have hcfg_sd : (Output_config settings env).sdcard_enable =
      (cropping.sdcard && env.ensure_sd_directory) := by
    simp only [Output_config, hcr, Option.map_some', Option.getD_some]
    cases cropping.sdcard <;> cases env.ensure_sd_directory <;> rfl
  have hcfg_mqtt : (Output_config settings env).mqtt_export = cropping.mqtt := by
    simp [Output_config, hcr]
  have hcfg_http : (Output_config settings env).http_export = cropping.http := by
    simp [Output_config, hcr]
  have hcfg_url : (Output_config settings env).http_url = cropping.http_url := by
    simp [Output_config, hcr]
  obtain ⟨payload, hlabel, himage, hatt, _⟩ :=
    Output_detection_export (Output_config settings env) now st idx d e i full_jpeg jpeg
      x y w h hcfg_active hfound hfull hfull0 himgw himgh hx hy hw hh hcw hch hjpeg hsize
      hmalloc (by rw [hcfg_thr]; exact hpass)
  refine ⟨payload, hlabel, himage, ?_⟩
  rw [hatt, Output_sinks_attempts, hcfg_sd, hcfg_mqtt, hcfg_http, hcfg_url]
  congr 1
  congr 1
  cases cropping.sdcard <;> cases env.ensure_sd_directory <;> simp

theorem sinks_follow_their_switches_witness :
    (sink_attempts (Output_detection (Output_config Scenario.crop_settings
        (Scenario.cycle 1000 none)) 1600 Scenario.exported 0 (Scenario.detection "person").1
        (Scenario.failing_sinks 1600)).2).length = 3 ∧
    (∃ payload : CropPayload,
      payload.label = (Scenario.detection "person").1.label.getD "Undefined".toList ∧
      some payload.image =
        base64_encode true (some [255, 216, 255]) ([255, 216, 255].length % 2 ^ 32) ∧
      sink_attempts (Output_detection (Output_config Scenario.crop_settings
          (Scenario.cycle 1000 none)) 1600 Scenario.exported 0 (Scenario.detection "person").1
          (Scenario.failing_sinks 1600)).2 =
        (if Scenario.crop_cropping.sdcard = true ∧
              (Scenario.cycle 1000 none).ensure_sd_directory = true then
            [Action.save_jpeg (replace_spaces
                (((Scenario.detection "person").1.label.getD "Undefined".toList).take 63))
              ((Scenario.detection "person").1.timestamp.getD 1600) 0
              (([255, 216, 255] : List Nat).take ([255, 216, 255].length % 2 ^ 32))]
          else []) ++
        (if Scenario.crop_cropping.mqtt = true then [Action.mqtt_crop payload] else []) ++
        (if Scenario.crop_cropping.http = true then
            match Scenario.crop_cropping.http_url with
            | some url => if url ≠ [] then [Action.http_post url payload] else []
            | none => []
          else [])) ∧
    ((Output Scenario.exported Scenario.crop_cycle
        (some [((Scenario.detection "person").1, Scenario.failing_sinks 1600)])).1 =
      (Output Scenario.exported Scenario.crop_cycle
        (some [((Scenario.detection "person").1, Scenario.crop_env 1600)])).1 ∧
    sink_attempts (Output Scenario.exported Scenario.crop_cycle
        (some [((Scenario.detection "person").1, Scenario.failing_sinks 1600)])).2 =
      sink_attempts (Output Scenario.exported Scenario.crop_cycle
        (some [((Scenario.detection "person").1, Scenario.crop_env 1600)])).2) :=
  ⟨by decide,
    sinks_follow_their_switches.1 Scenario.crop_settings Scenario.crop_cropping
      (Scenario.cycle 1000 none) 1600 Scenario.exported 0 (Scenario.detection "person").1
      (Scenario.failing_sinks 1600) 0 [255, 216, 255, 224] [255, 216, 255] 500 500 100 100
      rfl rfl (by decide) rfl (by decide) (by decide) (by decide) rfl rfl rfl rfl
      (by decide) (by decide) rfl (by decide) rfl (by decide),
    sinks_follow_their_switches.2 Scenario.exported Scenario.crop_cycle
      [((Scenario.detection "person").1, Scenario.failing_sinks 1600)]
      [((Scenario.detection "person").1, Scenario.crop_env 1600)]
      (List.Forall₂.cons ⟨rfl, rfl, rfl, rfl, rfl, rfl, rfl⟩ List.Forall₂.nil)⟩

/-! ## Reset -/

theorem List.take_succ_set_self {α : Type} (l : List α) (n : Nat) (a : α) (h : n < l.length) :
    (l.set n a).take (n + 1) = l.take n ++ [a] := by
  induction l generalizing n with
  | nil => simp at h
  | cons x xs ih =>
    cases n with
    | zero => simp
    | succ m =>
      simp only [List.length_cons, Nat.add_lt_add_iff_right] at h
      simp [List.set_cons_succ, List.take_succ_cons, ih m h]

/-- The array form of `find_or_create_label_state` acts on the visible entries as the
list form does, whatever the slots at and above `len` hold. -/
theorem LabelTable.find_or_create_live (t : LabelTable) (label : CStr)
    (hslots : t.slots.length = MAX_LABELS) (hlen : t.len ≤ MAX_LABELS) :
    (t.find_or_create label).1.live = (find_or_create_label_state t.live label).1 ∧
    (t.find_or_create label).2 = (find_or_create_label_state t.live label).2 ∧
    (t.find_or_create label).1.slots.length = MAX_LABELS ∧
    (t.find_or_create label).1.len ≤ MAX_LABELS := by
  have hlive : t.live.length = t.len := by
    simp only [LabelTable.live, List.length_take, hslots]
    omega
  unfold LabelTable.find_or_create find_or_create_label_state
  simp only [hlive]
  cases hf : find_label_state label (t.slots.take t.len) with
  | some i =>
    have hf' : find_label_state label t.live = some i := hf
    simp only [hf']
    exact ⟨trivial, trivial, hslots, hlen⟩
  | none =>
    have hf' : find_label_state label t.live = none := hf
    simp only [hf']
    by_cases hl : t.len < MAX_LABELS
    · simp only [hl, if_true]
      refine ⟨?_, trivial, by simp [hslots], hl⟩
      simp only [LabelTable.live]
      exact List.take_succ_set_self _ _ _ (by rw [hslots]; exact hl)
    · simp only [hl, if_false]
      exact ⟨trivial, trivial, hslots, hlen⟩

/-- C19: `Output_reset` leaves, from any state, the initial state: the crop cache has
head 0, count 0 and only cleared slots, so that the dump is empty, the last export
time is 0 and the label table is empty, and `Output` then behaves as from the initial
state; on the array, where the slots keep their old contents after the reset, the next
sighting of any label overwrites slot 0 and the visible table is the one new entry,
which is LOW with `rolling_count` 0, `rolling_head` 0 and a rolling buffer of sixteen
0s. -/
theorem output_reset_restores_initial_state :
    (∀ st : OutputState,
      Output_reset st = OutputState.init ∧
      (Output_reset st).crop_cache.crop_history_head = 0 ∧
      (Output_reset st).crop_cache.crop_history_count = 0 ∧
      (Output_reset st).crop_cache.crop_history.length = CROP_HISTORY_SIZE ∧
      (∀ slot ∈ (Output_reset st).crop_cache.crop_history, slot = CropEntry.cleared) ∧
      output_crop_cache_http_callback (Output_reset st).crop_cache "GET".toList =
        HttpReply.json [] ∧
      (Output_reset st).last_output_time_ms = 0 ∧
      (Output_reset st).eventsCache = []) ∧
    (∀ (st : OutputState) (env : CycleEnv) (detections : Option (List (Detection × DetEnv))),
      Output (Output_reset st) env detections = Output OutputState.init env detections) ∧
    (∀ (st : OutputState) (label : CStr),
      find_or_create_label_state (Output_reset st).eventsCache label =
        ([LabelEventState.create label], some 0)) ∧
    (∀ (t : LabelTable) (label : CStr), t.slots.length = MAX_LABELS →
      (t.reset.find_or_create label).2 = some 0 ∧
      (t.reset.find_or_create label).1.live = [LabelEventState.create label] ∧
      (t.reset.find_or_create label).1.slots[0]? = some (LabelEventState.create label)) ∧
    (∀ label : CStr,
      (LabelEventState.create label).state = 0 ∧
      (LabelEventState.create label).rolling_count = 0 ∧
      (LabelEventState.create label).rolling_head = 0 ∧
      (LabelEventState.create label).rolling = List.replicate 16 0 ∧
      (LabelEventState.create label).name = label.take 63) := by
  refine ⟨?_, fun st env detections => rfl, fun st label => rfl, ?_,
    fun label => ⟨rfl, rfl, rfl, rfl, rfl⟩⟩
  · intro st
    refine ⟨rfl, rfl, rfl, rfl, ?_, rfl, rfl, rfl⟩
    intro slot hslot
    simp only [Output_reset, output_crop_cache_reset] at hslot
    exact List.eq_of_mem_replicate hslot
  · intro t label hslots
    have hpos : 0 < t.slots.length := by rw [hslots]; decide
    have hfc : t.reset.find_or_create label =
        ({ slots := t.slots.set 0 (LabelEventState.create label), len := 1 }, some 0) := by
      simp [LabelTable.find_or_create, LabelTable.reset, find_label_state, MAX_LABELS]
    rw [hfc]
    refine ⟨rfl, ?_, ?_⟩
    · simp only [LabelTable.live]
      exact List.take_succ_set_self t.slots 0 _ hpos
    · simp only []
      rw [List.getElem?_set_self (by simpa using hpos)]

theorem output_reset_restores_initial_state_witness :
    (Output_reset Scenario.table).eventsCache = [] ∧
    ((({ slots := Scenario.table.eventsCache ++
          List.replicate 29 (Scenario.entry "stale" 1 7), len := 3 } :
        LabelTable).reset.find_or_create "person".toList).2 = some 0 ∧
      (({ slots := Scenario.table.eventsCache ++
          List.replicate 29 (Scenario.entry "stale" 1 7), len := 3 } :
        LabelTable).reset.find_or_create "person".toList).1.live =
        [LabelEventState.create "person".toList] ∧
      (({ slots := Scenario.table.eventsCache ++
          List.replicate 29 (Scenario.entry "stale" 1 7), len := 3 } :
        LabelTable).reset.find_or_create "person".toList).1.slots[0]? =
        some (LabelEventState.create "person".toList)) :=
  ⟨rfl, output_reset_restores_initial_state.2.2.2.1
    { slots := Scenario.table.eventsCache ++ List.replicate 29 (Scenario.entry "stale" 1 7),
      len := 3 } "person".toList (by decide)⟩

/-! ## `base64_encode` against RFC 4648 -/

theorem rfc4648_value_char : ∀ v, v < 64 → rfc4648_value (rfc4648_char v) = some v := by
  decide

theorem base64_table_char : ∀ v, v < 64 → base64_table.getD v 'A' = rfc4648_char v := by
  decide

theorem rfc4648_char_ne_pad : ∀ v, v < 64 → rfc4648_char v ≠ '=' := by
  decide

theorem base64_sextet (v k : Nat) : (v >>> k) &&& 0x3F = v / 2 ^ k % 64 := by
  rw [Nat.shiftRight_eq_div_pow]
  exact Nat.and_pow_two_sub_one_eq_mod _ 6

theorem base64_emit_2 (v : Nat) (out : List Char) :
    base64_emit 3 v 2 out = (-4, out ++ [base64_table.getD ((v >>> 2) &&& 0x3F) 'A']) := by
  rfl

theorem base64_emit_4 (v : Nat) (out : List Char) :
    base64_emit 5 v 4 out = (-2, out ++ [base64_table.getD ((v >>> 4) &&& 0x3F) 'A']) := by
  rfl

theorem base64_emit_6 (v : Nat) (out : List Char) :
    base64_emit 7 v 6 out =
      (-6, out ++ [base64_table.getD ((v >>> 6) &&& 0x3F) 'A'] ++
        [base64_table.getD ((v >>> 0) &&& 0x3F) 'A']) := by
  rfl

theorem base64_encode_eq_finish (bytes : List Nat) (len : Nat) (hlen : len ≠ 0) :
    base64_encode true (some bytes) len =
      some (base64_finish (base64_loop (bytes.take len) 0 (-6) []).1
        (base64_loop (bytes.take len) 0 (-6) []).2.1
        (base64_loop (bytes.take len) 0 (-6) []).2.2) := by
  simp [base64_encode, hlen, base64_finish]

theorem base64_pad_0 (l : List Char) (h : l.length % 4 = 0) : base64_pad 4 l = l := by
  simp [base64_pad, h]

theorem base64_pad_3 (l : List Char) (h : l.length % 4 = 3) :
    base64_pad 4 l = l ++ ['='] := by
  have h1 : (l.length + 1) % 4 = 0 := by omega
  simp [base64_pad, h, h1]

theorem base64_pad_2 (l : List Char) (h : l.length % 4 = 2) :
    base64_pad 4 l = l ++ ['=', '='] := by
  have h1 : (l.length + 1) % 4 = 3 := by omega
  have h2 : (l.length + 1 + 1) % 4 = 0 := by omega
  simp [base64_pad, h, h1, h2]

/-- One byte moves the loop from `valb = -6` to `valb = -4` and emits the upper six
bits of the byte. -/
theorem base64_loop_1 (a v : Nat) (rest : List Nat) (out : List Char) (ha : a < 256) :
    base64_loop (a :: rest) v (-6) out =
      base64_loop rest ((v * 256 + a % 256) % 2 ^ 32) (-4) (out ++ [rfc4648_char (a / 4)]) := by
  have hidx : ((v * 256 + a % 256) % 2 ^ 32) / 2 ^ 2 % 64 = a / 4 := by omega
  have hlt : a / 4 < 64 := by omega
  show base64_loop rest _ (base64_emit 3 _ 2 out).1 (base64_emit 3 _ 2 out).2 = _
  rw [base64_emit_2, base64_sextet, hidx, base64_table_char _ hlt]

/-- A second byte moves the loop to `valb = -2`. -/
theorem base64_loop_2 (a b v : Nat) (rest : List Nat) (out : List Char) (hb : b < 256) :
    base64_loop (b :: rest) ((v * 256 + a % 256) % 2 ^ 32) (-4) out =
      base64_loop rest ((((v * 256 + a % 256) % 2 ^ 32) * 256 + b % 256) % 2 ^ 32) (-2)
        (out ++ [rfc4648_char (a % 4 * 16 + b / 16)]) := by
  have hidx : ((((v * 256 + a % 256) % 2 ^ 32) * 256 + b % 256) % 2 ^ 32) / 2 ^ 4 % 64 =
      a % 4 * 16 + b / 16 := by omega
  have hlt : a % 4 * 16 + b / 16 < 64 := by omega
  show base64_loop rest _ (base64_emit 5 _ 4 out).1 (base64_emit 5 _ 4 out).2 = _
  rw [base64_emit_4, base64_sextet, hidx, base64_table_char _ hlt]

/-- A third byte completes the group and brings the loop back to `valb = -6`. -/
theorem base64_loop_3 (b c w : Nat) (rest : List Nat) (out : List Char) (hc : c < 256)
    (hw : w % 16 = b % 16) :
    base64_loop (c :: rest) w (-2) out =
      base64_loop rest ((w * 256 + c % 256) % 2 ^ 32) (-6)
        (out ++ [rfc4648_char (b % 16 * 4 + c / 64)] ++ [rfc4648_char (c % 64)]) := by
  have hidx : ((w * 256 + c % 256) % 2 ^ 32) / 2 ^ 6 % 64 = b % 16 * 4 + c / 64 := by omega
  have hidx0 : ((w * 256 + c % 256) % 2 ^ 32) / 2 ^ 0 % 64 = c % 64 := by omega
  have hlt : b % 16 * 4 + c / 64 < 64 := by omega
  have hlt0 : c % 64 < 64 := by omega
  show base64_loop rest _ (base64_emit 7 _ 6 out).1 (base64_emit 7 _ 6 out).2 = _
  rw [base64_emit_6, base64_sextet, base64_sextet, hidx, hidx0, base64_table_char _ hlt,
    base64_table_char _ hlt0]

/-- The loop and the final step of `base64_encode`, started between two groups, append
the RFC 4648 encoding of the bytes. -/
theorem base64_loop_finish (n : Nat) :
    ∀ (bytes : List Nat) (v : Nat) (out : List Char), bytes.length ≤ n →
      (∀ b ∈ bytes, b < 256) → out.length % 4 = 0 →
      base64_finish (base64_loop bytes v (-6) out).1 (base64_loop bytes v (-6) out).2.1
        (base64_loop bytes v (-6) out).2.2 = out ++ rfc4648_encode bytes := by
  induction n with
  | zero =>
    intro bytes v out hn _ hout
    have : bytes = [] := List.length_eq_zero.mp (Nat.le_zero.mp hn)
    subst this
    simp [base64_loop, base64_finish, rfc4648_encode, base64_pad_0 out hout]
  | succ n ih =>
    intro bytes v out hn hbytes hout
    match bytes, hn, hbytes with
    | [], _, _ =>
      simp [base64_loop, base64_finish, rfc4648_encode, base64_pad_0 out hout]
    | [a], _, hbytes =>
      have ha : a < 256 := hbytes a (by simp)
      rw [base64_loop_1 a v [] out ha]
      simp only [base64_loop, base64_finish, rfc4648_encode]
      have hidx : ((v * 256 + a % 256) % 2 ^ 32 * 256 % 2 ^ 32) / 2 ^ 4 % 64 = a % 4 * 16 := by
        omega
      have hlt : a % 4 * 16 < 64 := by omega
      have hpad : (out ++ [rfc4648_char (a / 4)] ++ [rfc4648_char (a % 4 * 16)]).length % 4 = 2 := by
        simp only [List.length_append, List.length_singleton]; omega
      simp only [show ((-4 : Int) > -6) from by decide, if_true,
        show ((-4 : Int) + 8).toNat = 4 from rfl]
      rw [base64_sextet, hidx, base64_table_char _ hlt, base64_pad_2 _ hpad]
      simp
    | [a, b], _, hbytes =>
      have ha : a < 256 := hbytes a (by simp)
      have hb : b < 256 := hbytes b (by simp)
      rw [base64_loop_1 a v [b] out ha, base64_loop_2 a b v [] _ hb]
      simp only [base64_loop, base64_finish, rfc4648_encode]
      have hidx : (((v * 256 + a % 256) % 2 ^ 32 * 256 + b % 256) % 2 ^ 32 * 256 % 2 ^ 32) /
          2 ^ 6 % 64 = b % 16 * 4 := by
        omega
      have hlt : b % 16 * 4 < 64 := by omega
      have hpad : (out ++ [rfc4648_char (a / 4)] ++ [rfc4648_char (a % 4 * 16 + b / 16)] ++
          [rfc4648_char (b % 16 * 4)]).length % 4 = 3 := by
        simp only [List.length_append, List.length_singleton]; omega
      simp only [show ((-2 : Int) > -6) from by decide, if_true,
        show ((-2 : Int) + 8).toNat = 6 from rfl]
      rw [base64_sextet, hidx, base64_table_char _ hlt, base64_pad_3 _ hpad]
      simp
    | a :: b :: c :: rest, hn, hbytes =>
      have ha : a < 256 := hbytes a (by simp)
      have hb : b < 256 := hbytes b (by simp)
      have hc : c < 256 := hbytes c (by simp)
      have hrest : ∀ x ∈ rest, x < 256 := fun x hx => hbytes x (by simp [hx])
      have hw : (((v * 256 + a % 256) % 2 ^ 32) * 256 + b % 256) % 2 ^ 32 % 16 = b % 16 := by
        omega
      rw [base64_loop_1 a v _ out ha, base64_loop_2 a b v _ _ hb, base64_loop_3 b c _ _ _ hc hw]
      have hlen : rest.length ≤ n := by
        simp only [List.length_cons] at hn; omega
      have hout4 : (out ++ [rfc4648_char (a / 4)] ++ [rfc4648_char (a % 4 * 16 + b / 16)] ++
          [rfc4648_char (b % 16 * 4 + c / 64)] ++ [rfc4648_char (c % 64)]).length % 4 = 0 := by
        simp only [List.length_append, List.length_singleton]; omega
      rw [ih rest _ _ hlen hrest hout4]
      simp [rfc4648_encode]

theorem rfc4648_char_value_isSome : ∀ v, v < 64 → (rfc4648_value (rfc4648_char v)).isSome := by
  intro v hv
  rw [rfc4648_value_char v hv]
  rfl

theorem rfc4648_pad_value : rfc4648_value '=' = none := by decide

/-- Length, alphabet and decoding of the RFC 4648 encoding of a byte sequence. -/
theorem rfc4648_encode_props (n : Nat) :
    ∀ (bytes : List Nat), bytes.length ≤ n → (∀ b ∈ bytes, b < 256) →
      (rfc4648_encode bytes).length = 4 * ((bytes.length + 2) / 3) ∧
      (∀ c ∈ rfc4648_encode bytes, (rfc4648_value c).isSome ∨ c = '=') ∧
      rfc4648_decode (rfc4648_encode bytes) = some bytes := by
  induction n with
  | zero =>
    intro bytes hn _
    have : bytes = [] := List.length_eq_zero.mp (Nat.le_zero.mp hn)
    subst this
    simp [rfc4648_encode, rfc4648_decode]
  | succ n ih =>
    intro bytes hn hbytes
    match bytes, hn, hbytes with
    | [], _, _ => simp [rfc4648_encode, rfc4648_decode]
    | [a], _, hbytes =>
      have ha : a < 256 := hbytes a (by simp)
      have h0 : a / 4 < 64 := by omega
      have h1 : a % 4 * 16 < 64 := by omega
      refine ⟨by simp [rfc4648_encode], ?_, ?_⟩
      · intro c hc
        simp only [rfc4648_encode, List.mem_cons, List.mem_singleton, List.not_mem_nil,
          or_false] at hc
        rcases hc with rfl | rfl | rfl | rfl
        · exact Or.inl (rfc4648_char_value_isSome _ h0)
        · exact Or.inl (rfc4648_char_value_isSome _ h1)
        · exact Or.inr rfl
        · exact Or.inr rfl
      · simp only [rfc4648_encode, rfc4648_decode, rfc4648_value_char _ h0,
          rfc4648_value_char _ h1, and_self, if_true]
        have e1 : a % 4 * 16 % 16 = 0 := by omega
        simp [e1]
        omega
    | [a, b], _, hbytes =>
      have ha : a < 256 := hbytes a (by simp)
      have hb : b < 256 := hbytes b (by simp)
      have h0 : a / 4 < 64 := by omega
      have h1 : a % 4 * 16 + b / 16 < 64 := by omega
      have h2 : b % 16 * 4 < 64 := by omega
      refine ⟨by simp [rfc4648_encode], ?_, ?_⟩
      · intro c hc
        simp only [rfc4648_encode, List.mem_cons, List.mem_singleton, List.not_mem_nil,
          or_false] at hc
        rcases hc with rfl | rfl | rfl | rfl
        · exact Or.inl (rfc4648_char_value_isSome _ h0)
        · exact Or.inl (rfc4648_char_value_isSome _ h1)
        · exact Or.inl (rfc4648_char_value_isSome _ h2)
        · exact Or.inr rfl
      · have hne : rfc4648_char (b % 16 * 4) ≠ '=' := rfc4648_char_ne_pad _ h2
        simp only [rfc4648_encode, rfc4648_decode, rfc4648_value_char _ h0,
          rfc4648_value_char _ h1, rfc4648_value_char _ h2, hne, false_and, if_false,
          and_self, if_true]
        have e1 : b % 16 * 4 % 4 = 0 := by omega
        simp [e1]
        omega
    | a :: b :: c :: rest, hn, hbytes =>
      have ha : a < 256 := hbytes a (by simp)
      have hb : b < 256 := hbytes b (by simp)
      have hc : c < 256 := hbytes c (by simp)
      have hrest : ∀ x ∈ rest, x < 256 := fun x hx => hbytes x (by simp [hx])
      have hlen : rest.length ≤ n := by
        simp only [List.length_cons] at hn; omega
      obtain ⟨ihl, iha, ihd⟩ := ih rest hlen hrest
      have h0 : a / 4 < 64 := by omega
      have h1 : a % 4 * 16 + b / 16 < 64 := by omega
      have h2 : b % 16 * 4 + c / 64 < 64 := by omega
      have h3 : c % 64 < 64 := by omega
      refine ⟨?_, ?_, ?_⟩
      · simp only [rfc4648_encode, List.length_cons, ihl]
        omega
      · intro ch hch
        simp only [rfc4648_encode, List.mem_cons] at hch
        rcases hch with rfl | rfl | rfl | rfl | hch
        · exact Or.inl (rfc4648_char_value_isSome _ h0)
        · exact Or.inl (rfc4648_char_value_isSome _ h1)
        · exact Or.inl (rfc4648_char_value_isSome _ h2)
        · exact Or.inl (rfc4648_char_value_isSome _ h3)
        · exact iha ch hch
      · have hne2 : rfc4648_char (b % 16 * 4 + c / 64) ≠ '=' := rfc4648_char_ne_pad _ h2
        have hne3 : rfc4648_char (c % 64) ≠ '=' := rfc4648_char_ne_pad _ h3
        simp only [rfc4648_encode, rfc4648_decode, rfc4648_value_char _ h0,
          rfc4648_value_char _ h1, rfc4648_value_char _ h2, rfc4648_value_char _ h3, hne2,
          hne3, false_and, if_false, ihd, Option.map_some']
        have e1 : a / 4 * 4 + (a % 4 * 16 + b / 16) / 16 = a := by omega
        have e2 : (a % 4 * 16 + b / 16) % 16 * 16 + (b % 16 * 4 + c / 64) / 4 = b := by omega
        have e3 : (b % 16 * 4 + c / 64) % 4 * 64 + c % 64 = c := by omega
        rw [e1, e2, e3]

/-- C20: for a non-empty sequence of bytes, `base64_encode` (with a successful
`malloc`) returns the RFC 4648 encoding: a string of `4 * ceil(n / 3)` characters, each
in the alphabet `A-Z a-z 0-9 + /` or the pad `=`, which the standard decoder maps back
to the bytes; for a missing input or the length 0 it returns no string. -/
theorem base64_encode_is_rfc4648 :
    (∀ bytes : List Nat, bytes ≠ [] → (∀ b ∈ bytes, b < 256) →
      base64_encode true (some bytes) bytes.length = some (rfc4648_encode bytes) ∧
      (rfc4648_encode bytes).length = 4 * ((bytes.length + 2) / 3) ∧
      (∀ c ∈ rfc4648_encode bytes, (rfc4648_value c).isSome ∨ c = '=') ∧
      rfc4648_decode (rfc4648_encode bytes) = some bytes) ∧
    (∀ (malloc_ok : Bool) (len : Nat), base64_encode malloc_ok none len = none) ∧
    (∀ (malloc_ok : Bool) (bytes : List Nat), base64_encode malloc_ok (some bytes) 0 = none) := by
  refine ⟨?_, fun _ _ => rfl, fun _ _ => rfl⟩
  intro bytes hne hbytes
  have hlen : bytes.length ≠ 0 := fun h => hne (List.length_eq_zero.mp h)
  have hp := rfc4648_encode_props bytes.length bytes (le_refl _) hbytes
  refine ⟨?_, hp.1, hp.2.1, hp.2.2⟩
  rw [base64_encode_eq_finish bytes bytes.length hlen, List.take_length,
    base64_loop_finish bytes.length bytes 0 [] (le_refl _) hbytes rfl]
  rfl

theorem base64_encode_is_rfc4648_witness :
    base64_encode true (some [77, 97, 110, 33]) 4 = some "TWFuIQ==".toList ∧
    (([77, 97, 110, 33] : List Nat) ≠ [] ∧ (∀ b ∈ ([77, 97, 110, 33] : List Nat), b < 256)) ∧
    (base64_encode true (some [77, 97, 110, 33]) ([77, 97, 110, 33] : List Nat).length =
        some (rfc4648_encode [77, 97, 110, 33]) ∧
      (rfc4648_encode [77, 97, 110, 33]).length =
        4 * ((([77, 97, 110, 33] : List Nat).length + 2) / 3) ∧
      (∀ c ∈ rfc4648_encode [77, 97, 110, 33], (rfc4648_value c).isSome ∨ c = '=') ∧
      rfc4648_decode (rfc4648_encode [77, 97, 110, 33]) = some [77, 97, 110, 33]) :=
  ⟨by decide, ⟨by decide, by decide⟩,
    base64_encode_is_rfc4648.1 [77, 97, 110, 33] (by decide) (by decide)⟩

/-! ## The result of `Model_Inference` -/

/-- C21: `Model_Inference` never returns NULL.  When the hub context or the buffer is
missing, when the frame data, the RGB conversion or the JPEG encoding fails, or when the
hub request fails, it returns the empty array, where the header documents NULL; only
with every step successful it returns the normalised detections.  A call before the hub
is initialised returns the empty array. -/
theorem model_inference_never_null :
    (∀ env : InferenceEnv, Model_Inference env ≠ none) ∧
    (∀ env : InferenceEnv, Model_Inference env =
      if env.hub_ready && env.buffer_present && env.nv12_present && env.rgb_ok &&
          env.jpeg_ok && env.hub_reply.isSome
      then some ((env.hub_reply.getD []).filterMap Model_Inference_normalize)
      else some []) ∧
    Scenario.no_hub.hub_ready = false ∧
    Model_Inference Scenario.no_hub = some [] := by
  refine ⟨?_, ?_, rfl, by decide⟩
  · intro env
    unfold Model_Inference
    repeat' split
    all_goals simp
  · intro env
    rcases env with ⟨a, b, c, d, e, r⟩
    cases a <;> cases b <;> cases c <;> cases d <;> cases e <;> cases r <;>
      simp [Model_Inference]

/-! ## Samples per cycle -/

/-- C22: `Output` pushes one sample per detection, and none on an empty batch.  After a
cycle with one "person" detection the entry has head 1 and count 1; a following cycle
with the empty batch leaves the entry as it is (no 0 is pushed, for any state and any
cycle), and a single cycle with two "person" detections pushes two samples (head 2,
count 2). -/
theorem output_pushes_per_detection :
    (Scenario.run none [[Scenario.detection "person"]] 1000
        OutputState.init).1.label_entry "person" =
      some { name := "person".toList, state := 0,
             rolling := [0, 1, 0, 0, 0, 0, 0, 0, 0, 0, 0, 0, 0, 0, 0, 0],
             rolling_head := 1, rolling_count := 1, last_detect_time := 1000 } ∧
    (Scenario.run none [[Scenario.detection "person"], []] 1000
        OutputState.init).1.label_entry "person" =
      some { name := "person".toList, state := 0,
             rolling := [0, 1, 0, 0, 0, 0, 0, 0, 0, 0, 0, 0, 0, 0, 0, 0],
             rolling_head := 1, rolling_count := 1, last_detect_time := 1000 } ∧
    (∀ (st : OutputState) (env : CycleEnv), (Output st env (some [])).1 = st) ∧
    (Scenario.run none [[Scenario.detection "person", Scenario.detection "person"]] 1000
        OutputState.init).1.label_entry "person" =
      some { name := "person".toList, state := 0,
             rolling := [0, 1, 1, 0, 0, 0, 0, 0, 0, 0, 0, 0, 0, 0, 0, 0],
             rolling_head := 2, rolling_count := 2, last_detect_time := 1000 } := by
  refine ⟨by decide, by decide, ?_, by decide⟩
  intro st env
  rfl

/-! ## The window setting -/

/-- C23: the window size of a cycle does not depend on `eventLogic.window`: it is the
value computed from 1000 ms.  With an average inference time of 250 ms and
`eventLogic.window` 2000 the window size is 4, not `ceil(2000 / 250) = 8`.  The
threshold is `eventLogic.frames`, or 3 without it. -/
theorem window_setting_is_ignored :
    (∀ (settings : Settings) (env : CycleEnv),
      (Output_config settings env).window_size =
        Output_window_size env.averageInferenceTime env.inf_to_int) ∧
    (∀ (settings : Settings) (env : CycleEnv),
      (Output_config settings env).min_frames_in_window =
        (settings.eventLogic.bind (fun logic => logic.frames)).getD 3) ∧
    (Scenario.cycle_window (some 2000)).averageInferenceTime = 250 ∧
    (Scenario.cycle_window (some 2000)).settings.bind
      (fun s => s.eventLogic.bind (fun logic => logic.window)) = some 2000 ∧
    (∀ settings ∈ (Scenario.cycle_window (some 2000)).settings,
      (Output_config settings (Scenario.cycle_window (some 2000))).window_size = 4) ∧
    (2000 + 250 - 1) / 250 = 8 := by
  refine ⟨fun _ _ => rfl, fun _ _ => rfl, rfl, rfl, by decide, by decide⟩

/-! ## Warm-up of a new label -/

/-- C24: a new entry is created LOW with count 0 and sixteen zero samples, but with
`min_frames_in_window` 2 and window size 4 a first cycle that carries three "person"
detections makes "person" HIGH and emits the rising event in that one cycle. -/
theorem new_label_high_in_first_cycle :
    (∀ label : CStr, (LabelEventState.create label).state = 0 ∧
      (LabelEventState.create label).rolling_count = 0 ∧
      (LabelEventState.create label).rolling = List.replicate 16 0) ∧
    OutputState.init.label_entry "person" = none ∧
    (Scenario.run (some 2) [List.replicate 3 (Scenario.detection "person")] 1000
        OutputState.init).1.label_state "person" = some 1 ∧
    rising_labels (Scenario.actions (Scenario.run (some 2)
        [List.replicate 3 (Scenario.detection "person")] 1000 OutputState.init) 0) =
      ["person".toList] := by
  refine ⟨fun _ => ⟨rfl, rfl, rfl⟩, by decide, by decide, by decide⟩

/-! ## Labels of 64 bytes and more -/

/-- C25: the stored name is the first 63 bytes of the label, but the lookup compares it
with the whole label.  A label of 64 bytes looked up twice is not found the second
time: a second entry with the same 63-byte name is created and the table has two
entries. -/
theorem long_label_creates_second_entry :
    Scenario.long_label.length = 64 ∧
    (find_or_create_label_state [] Scenario.long_label).2 = some 0 ∧
    find_label_state Scenario.long_label
      (find_or_create_label_state [] Scenario.long_label).1 = none ∧
    (find_or_create_label_state (find_or_create_label_state [] Scenario.long_label).1
      Scenario.long_label).2 = some 1 ∧
    (find_or_create_label_state (find_or_create_label_state [] Scenario.long_label).1
      Scenario.long_label).1.map (fun evt => evt.name) =
      [Scenario.long_label.take 63, Scenario.long_label.take 63] := by
  refine ⟨by decide, by decide, by decide, by decide, by decide⟩

/-! ## A shrinking window -/

/-- C26: `rolling_count` is not reduced when the window shrinks.  After three cycles
with "person" at an average inference time of 250 ms (window size 4) the count is 3; a
fourth cycle at 1000 ms (window size 2), with or without "person", leaves the count at
3, above the window size of that call. -/
theorem count_exceeds_shrunk_window :
    Output_window_size 250 0 = 4 ∧ Output_window_size 1000 0 = 2 ∧
    ∀ label ∈ ["person", "car"],
      ((Output (Scenario.run none (List.replicate 3 [Scenario.detection "person"]) 1000
          OutputState.init).1 (Scenario.cycle_at 4000 1000 none)
          (some [Scenario.detection label])).1.label_entry "person").map
        (fun evt => evt.rolling_count) = some 3 := by
  refine ⟨by decide, by decide, by decide⟩

/-! ## The boundary of the throttle -/

/-- The detection of a cycle whose crop is cached while the throttle gate stays closed:
the cache holds the new crop, the last-export time is unchanged and no sink is called. -/
theorem Output_detection_skip (cfg : CycleConfig) (now : Int) (st : OutputState)
    (idx : Nat) (d : Detection) (e : DetEnv) (i : Nat) (full_jpeg jpeg : List Nat)
    (x y w h : Int)
    (hactive : cfg.cropping_active = true)
    (hfound : (find_or_create_label_state st.eventsCache
      (d.label.getD "Undefined".toList)).2 = some i)
    (hfull : e.full_jpeg = some full_jpeg) (hfull0 : full_jpeg.length ≠ 0)
    (himgw : e.img_w ≠ 0) (himgh : e.img_h ≠ 0)
    (hx : d.x = some x) (hy : d.y = some y) (hw : d.w = some w) (hh : d.h = some h)
    (hcw : 0 < (Output_crop_rect cfg x y w h e.img_w e.img_h).2.2.1)
    (hch : 0 < (Output_crop_rect cfg x y w h e.img_w e.img_h).2.2.2)
    (hjpeg : e.crop_jpeg = some jpeg) (hsize : jpeg.length % 2 ^ 32 ≠ 0)
    (hmalloc : e.malloc_ok = true)
    (hnot : ¬ (e.now_ts - st.last_output_time_ms > cfg.throttle)) :
    (Output_detection cfg now st idx d e).1.crop_cache =
      (output_crop_cache_add true st.crop_cache (some jpeg) (jpeg.length % 2 ^ 32)
        (some (d.label.getD "Undefined".toList)) (d.c.getD 0)
        (x - Int.tdiv w 2 - (Output_crop_rect cfg x y w h e.img_w e.img_h).1)
        (y - Int.tdiv h 2 - (Output_crop_rect cfg x y w h e.img_w e.img_h).2.1) w h).2 ∧
    (Output_detection cfg now st idx d e).1.last_output_time_ms = st.last_output_time_ms ∧
    ∀ a ∈ (Output_detection cfg now st idx d e).2, a.is_sink = false := by
  have hlen : jpeg.length ≠ 0 := by
    intro h0; rw [h0] at hsize; exact hsize rfl
  obtain ⟨b64, hb64⟩ := base64_encode_isSome jpeg (jpeg.length % 2 ^ 32) hsize
  have hdims : ¬ ((Output_crop_rect cfg x y w h e.img_w e.img_h).2.2.1 ≤ 0 ∨
      (Output_crop_rect cfg x y w h e.img_w e.img_h).2.2.2 ≤ 0) := by omega
  have hadd : output_crop_cache_add true st.crop_cache (some jpeg) (jpeg.length % 2 ^ 32)
      (some (d.label.getD "Undefined".toList)) (d.c.getD 0)
      (x - Int.tdiv w 2 - (Output_crop_rect cfg x y w h e.img_w e.img_h).1)
      (y - Int.tdiv h 2 - (Output_crop_rect cfg x y w h e.img_w e.img_h).2.1) w h =
      (some b64,
        { crop_history := st.crop_cache.crop_history.set st.crop_cache.crop_history_head
            { base64_image := some b64, label := (d.label.getD "Undefined".toList).take 63,
              confidence := d.c.getD 0,
              x := x - Int.tdiv w 2 - (Output_crop_rect cfg x y w h e.img_w e.img_h).1,
              y := y - Int.tdiv h 2 - (Output_crop_rect cfg x y w h e.img_w e.img_h).2.1,
              w := w, h := h },
          crop_history_head := (st.crop_cache.crop_history_head + 1) % CROP_HISTORY_SIZE,
          crop_history_count :=
            if st.crop_cache.crop_history_count < CROP_HISTORY_SIZE then
              st.crop_cache.crop_history_count + 1
            else st.crop_cache.crop_history_count }) := by
    simp only [output_crop_cache_add, hsize, if_false, hb64]
  have hcrop : ∀ ec : List LabelEventState,
      Output_crop cfg now { st with eventsCache := ec } idx d e =
        ({ st with eventsCache := ec, crop_cache := (output_crop_cache_add true st.crop_cache
            (some jpeg) (jpeg.length % 2 ^ 32) (some (d.label.getD "Undefined".toList))
            (d.c.getD 0)
            (x - Int.tdiv w 2 - (Output_crop_rect cfg x y w h e.img_w e.img_h).1)
            (y - Int.tdiv h 2 - (Output_crop_rect cfg x y w h e.img_w e.img_h).2.1) w h).2 },
          []) := by
    intro ec
    unfold Output_crop
    simp only [hfull, hfull0, himgw, himgh, or_self, if_false, hx, hy, hw, hh, hdims, hjpeg,
      hlen, hmalloc, hadd, hnot]
  refine ⟨?_, ?_, ?_⟩
  · unfold Output_detection
    simp only [hfound, hactive, if_true]
    rw [hcrop]
  · unfold Output_detection
    simp only [hfound, hactive, if_true]
    rw [hcrop]
  · unfold Output_detection
    simp only [hfound, hactive, if_true]
    rw [hcrop]
    intro a ha
    simp only [List.append_nil] at ha
    split at ha
    · simp at ha
      rcases ha with rfl | rfl <;> rfl
    · simp at ha

/-- C27 as stated fails at the boundary: with a throttle of 500 ms, the last export at
1000 and the clock at 1500 after the cache add, exactly the throttle interval has
elapsed, the crop is cached, but the last-export time stays 1000 and no sink is
called. -/
theorem export_skipped_at_throttle_boundary :
    (Scenario.crop_env 1500).now_ts - Scenario.exported.last_output_time_ms =
      Scenario.crop_config.throttle ∧
    Scenario.exported.crop_cache.crop_history_count = 0 ∧
    (Output_detection Scenario.crop_config 1500 Scenario.exported 0
      (Scenario.detection "person").1 (Scenario.crop_env 1500)).1.crop_cache.crop_history_count
      = 1 ∧
    (Output_detection Scenario.crop_config 1500 Scenario.exported 0
      (Scenario.detection "person").1 (Scenario.crop_env 1500)).1.last_output_time_ms
      = 1000 ∧
    sink_attempts (Output_detection Scenario.crop_config 1500 Scenario.exported 0
      (Scenario.detection "person").1 (Scenario.crop_env 1500)).2 = [] := by
  refine ⟨by decide, by decide, by decide, by decide, by decide⟩

/-- C27 (amended): a detection whose crop was cached is exported, with the last-export
time set to the current time and the sinks of one export attempted, when more than the
throttle interval has elapsed since the last export; when the elapsed time is at most the
throttle interval the last-export time is unchanged and no sink is called. -/
theorem export_iff_throttle_exceeded (cfg : CycleConfig) (now : Int) (st : OutputState)
    (idx : Nat) (d : Detection) (e : DetEnv) (i : Nat) (full_jpeg jpeg : List Nat)
    (x y w h : Int)
    (hactive : cfg.cropping_active = true)
    (hfound : (find_or_create_label_state st.eventsCache
      (d.label.getD "Undefined".toList)).2 = some i)
    (hfull : e.full_jpeg = some full_jpeg) (hfull0 : full_jpeg.length ≠ 0)
    (himgw : e.img_w ≠ 0) (himgh : e.img_h ≠ 0)
    (hx : d.x = some x) (hy : d.y = some y) (hw : d.w = some w) (hh : d.h = some h)
    (hcw : 0 < (Output_crop_rect cfg x y w h e.img_w e.img_h).2.2.1)
    (hch : 0 < (Output_crop_rect cfg x y w h e.img_w e.img_h).2.2.2)
    (hjpeg : e.crop_jpeg = some jpeg) (hsize : jpeg.length % 2 ^ 32 ≠ 0)
    (hmalloc : e.malloc_ok = true) :
    (e.now_ts - st.last_output_time_ms > cfg.throttle →
      (Output_detection cfg now st idx d e).1.last_output_time_ms = e.now_ts ∧
      ∃ payload : CropPayload,
        payload.label = d.label.getD "Undefined".toList ∧
        sink_attempts (Output_detection cfg now st idx d e).2 =
          sink_attempts (Output_sinks cfg e (d.label.getD "Undefined".toList)
            (d.timestamp.getD now) idx (jpeg.take (jpeg.length % 2 ^ 32)) payload)) ∧
    (e.now_ts - st.last_output_time_ms ≤ cfg.throttle →
      (Output_detection cfg now st idx d e).1.crop_cache =
        (output_crop_cache_add true st.crop_cache (some jpeg) (jpeg.length % 2 ^ 32)
          (some (d.label.getD "Undefined".toList)) (d.c.getD 0)
          (x - Int.tdiv w 2 - (Output_crop_rect cfg x y w h e.img_w e.img_h).1)
          (y - Int.tdiv h 2 - (Output_crop_rect cfg x y w h e.img_w e.img_h).2.1) w h).2 ∧
      (Output_detection cfg now st idx d e).1.last_output_time_ms =
        st.last_output_time_ms ∧
      ∀ a ∈ (Output_detection cfg now st idx d e).2, a.is_sink = false) := by
  refine ⟨fun hpass => ?_, fun hle => ?_⟩
  · obtain ⟨payload, hl, _, hs, ht⟩ := Output_detection_export cfg now st idx d e i
      full_jpeg jpeg x y w h hactive hfound hfull hfull0 himgw himgh hx hy hw hh hcw hch
      hjpeg hsize hmalloc hpass
    exact ⟨ht, payload, hl, hs⟩
  · exact Output_detection_skip cfg now st idx d e i full_jpeg jpeg x y w h hactive hfound
      hfull hfull0 himgw himgh hx hy hw hh hcw hch hjpeg hsize hmalloc (by omega)

theorem export_iff_throttle_exceeded_witness :
    ((Scenario.crop_env 1501).now_ts - Scenario.exported.last_output_time_ms >
      Scenario.crop_config.throttle) ∧
    ((Output_detection Scenario.crop_config 1501 Scenario.exported 0
        (Scenario.detection "person").1 (Scenario.crop_env 1501)).1.last_output_time_ms =
      (Scenario.crop_env 1501).now_ts) ∧
    ((Scenario.crop_env 1500).now_ts - Scenario.exported.last_output_time_ms ≤
      Scenario.crop_config.throttle) ∧
    ((Output_detection Scenario.crop_config 1500 Scenario.exported 0
        (Scenario.detection "person").1 (Scenario.crop_env 1500)).1.last_output_time_ms =
      Scenario.exported.last_output_time_ms) :=
  ⟨by decide,
    ((export_iff_throttle_exceeded Scenario.crop_config 1501 Scenario.exported 0
      (Scenario.detection "person").1 (Scenario.crop_env 1501) 0 [255, 216, 255, 224]
      [255, 216, 255] 500 500 100 100 (by decide) (by decide) rfl (by decide) (by decide)
      (by decide) rfl rfl rfl rfl (by decide) (by decide) rfl (by decide) rfl).1
      (by decide)).1,
    by decide,
    ((export_iff_throttle_exceeded Scenario.crop_config 1500 Scenario.exported 0
      (Scenario.detection "person").1 (Scenario.crop_env 1500) 0 [255, 216, 255, 224]
      [255, 216, 255] 500 500 100 100 (by decide) (by decide) rfl (by decide) (by decide)
      (by decide) rfl rfl rfl rfl (by decide) (by decide) rfl (by decide) rfl).2
      (by decide)).2.1⟩

/-! ## The crop rectangle -/

/-- C30: for every box, every border offsets and every image size the clamped crop
rectangle satisfies `0 ≤ crop_x`, `0 ≤ crop_y`, `crop_x + crop_w ≤ img_w` and
`crop_y + crop_h ≤ img_h`; in particular it lies inside the image whenever its width
and height are positive, the case in which `Output` goes on to crop. -/
theorem crop_rect_inside_image (cfg : CycleConfig)
    (pixel_center_x pixel_center_y pixel_w pixel_h img_w img_h : Int) :
    0 ≤ (Output_crop_rect cfg pixel_center_x pixel_center_y pixel_w pixel_h img_w img_h).1 ∧
    0 ≤ (Output_crop_rect cfg pixel_center_x pixel_center_y pixel_w pixel_h img_w img_h).2.1 ∧
    (Output_crop_rect cfg pixel_center_x pixel_center_y pixel_w pixel_h img_w img_h).1 +
      (Output_crop_rect cfg pixel_center_x pixel_center_y pixel_w pixel_h img_w img_h).2.2.1
      ≤ img_w ∧
    (Output_crop_rect cfg pixel_center_x pixel_center_y pixel_w pixel_h img_w img_h).2.1 +
      (Output_crop_rect cfg pixel_center_x pixel_center_y pixel_w pixel_h img_w img_h).2.2.2
      ≤ img_h := by
  unfold Output_crop_rect
  generalize Int.tdiv pixel_w 2 = half_w
  generalize Int.tdiv pixel_h 2 = half_h
  dsimp only
  refine ⟨?_, ?_, ?_, ?_⟩ <;> split_ifs <;> omega

/-! ## Bounds of the label table -/

/-- The window size lies in `[2, 16]` for every average and every conversion result. -/
theorem Output_window_size_bounds (averageInferenceTime : Nat) (inf_to_int : Int) :
    2 ≤ Output_window_size averageInferenceTime inf_to_int ∧
    Output_window_size averageInferenceTime inf_to_int ≤ 16 := by
  unfold Output_window_size MAX_ROLLING
  dsimp only
  generalize (if averageInferenceTime = 0 then inf_to_int
    else ((1000 + averageInferenceTime - 1) / averageInferenceTime : Nat)) = raw
  split_ifs <;> omega

/-- A new entry is within its bounds. -/
theorem LabelEventState.create_wf (label : CStr) : (LabelEventState.create label).wf := by
  refine ⟨Or.inl rfl, by simp [LabelEventState.create], by simp [LabelEventState.create, MAX_ROLLING],
    by simp [LabelEventState.create], ?_⟩
  intro v hv
  exact Or.inl (List.eq_of_mem_replicate hv)

/-- The push of a 1 keeps an entry within its bounds. -/
theorem Output_event_accuracy_wf (evt : LabelEventState) (window_size : Nat)
    (min_frames_in_window now : Int) (h : evt.wf) (h2 : 2 ≤ window_size)
    (h16 : window_size ≤ 16) :
    (Output_event_accuracy evt window_size min_frames_in_window now).1.wf := by
  obtain ⟨hs, hl, hh, hc, hv⟩ := h
  unfold MAX_ROLLING at hl hh hc
  have hhead : (evt.rolling_head + 1) % window_size < 16 :=
    lt_of_lt_of_le (Nat.mod_lt _ (by omega)) h16
  have hcount : (if evt.rolling_count < window_size then evt.rolling_count + 1
      else evt.rolling_count) ≤ 16 := by split_ifs <;> omega
  have hroll : ∀ v ∈ evt.rolling.set ((evt.rolling_head + 1) % window_size) 1,
      v = 0 ∨ v = 1 := by
    intro v hvm
    rcases List.mem_or_eq_of_mem_set hvm with h1 | h1
    · exact hv v h1
    · exact Or.inr h1
  unfold Output_event_accuracy
  dsimp only
  by_cases hcond : evt.state = 0 ∧
      ((evt.rolling.set ((evt.rolling_head + 1) % window_size) 1).take
        (if evt.rolling_count < window_size then evt.rolling_count + 1
          else evt.rolling_count)).sum ≥ min_frames_in_window
  · rw [if_pos hcond]
    exact ⟨Or.inr rfl, by simp [hl, MAX_ROLLING], hhead, hcount, hroll⟩
  · rw [if_neg hcond]
    exact ⟨hs, by simp [hl, MAX_ROLLING], hhead, hcount, hroll⟩

/-- The `speed` branch keeps an entry within its bounds. -/
theorem Output_event_speed_wf (evt : LabelEventState) (now : Int) (h : evt.wf) :
    (Output_event_speed evt now).1.wf := by
  obtain ⟨hs, hl, hh, hc, hv⟩ := h
  unfold Output_event_speed
  split
  · exact ⟨Or.inr rfl, hl, hh, hc, hv⟩
  · exact ⟨hs, hl, hh, hc, hv⟩

/-- The event logic keeps an entry within its bounds. -/
theorem Output_event_wf (cfg : CycleConfig) (evt : LabelEventState) (now : Int) (h : evt.wf)
    (h2 : 2 ≤ cfg.window_size) (h16 : cfg.window_size ≤ 16) :
    (Output_event cfg evt now).1.wf := by
  unfold Output_event
  split
  · exact Output_event_speed_wf evt now h
  · exact Output_event_accuracy_wf evt _ _ now h h2 h16

/-- The push of a 0 keeps an entry within its bounds. -/
theorem Output_push_zero_wf (window_size : Nat) (evt : LabelEventState) (h : evt.wf)
    (h2 : 2 ≤ window_size) (h16 : window_size ≤ 16) :
    (Output_push_zero window_size evt).wf := by
  obtain ⟨hs, hl, hh, hc, hv⟩ := h
  unfold MAX_ROLLING at hl hh hc
  have hhead : (evt.rolling_head + 1) % window_size < 16 :=
    lt_of_lt_of_le (Nat.mod_lt _ (by omega)) h16
  have hcount : (if evt.rolling_count < window_size then evt.rolling_count + 1
      else evt.rolling_count) ≤ 16 := by split_ifs <;> omega
  refine ⟨hs, by simp [Output_push_zero, hl, MAX_ROLLING], hhead, hcount, ?_⟩
  intro v hvm
  rcases List.mem_or_eq_of_mem_set hvm with h1 | h1
  · exact hv v h1
  · exact Or.inl h1

/-- The lookup keeps the table within its bounds. -/
theorem find_or_create_wf (cache : List LabelEventState) (label : CStr) (h : TableWf cache) :
    TableWf (find_or_create_label_state cache label).1 := by
  rcases find_or_create_cases cache label with ⟨_, _, _, heq⟩ | ⟨_, hl, heq⟩ | ⟨_, _, heq⟩
  · rw [heq]; exact h
  · rw [heq]
    refine ⟨by simp; omega, ?_⟩
    intro evt hevt
    rcases List.mem_append.mp hevt with h1 | h1
    · exact h.2 evt h1
    · rw [List.mem_singleton.mp h1]
      exact LabelEventState.create_wf label
  · rw [heq]; exact h

/-- Writing an entry that is within its bounds keeps the table within its bounds. -/
theorem TableWf_set (cache : List LabelEventState) (i : Nat) (evt : LabelEventState)
    (h : TableWf cache) (hevt : evt.wf) : TableWf (cache.set i evt) := by
  refine ⟨by rw [List.length_set]; exact h.1, ?_⟩
  intro x hx
  rcases List.mem_or_eq_of_mem_set hx with h1 | h1
  · exact h.2 x h1
  · rw [h1]; exact hevt

/-- The entry read at an index of a table within its bounds is within its bounds. -/
theorem TableWf_getD (cache : List LabelEventState) (i : Nat) (label : CStr)
    (h : TableWf cache) : (cache.getD i (LabelEventState.create label)).wf := by
  rw [List.getD_eq_getElem?_getD]
  cases hi : cache[i]? with
  | none => exact LabelEventState.create_wf label
  | some evt =>
    obtain ⟨hlt, heq⟩ := List.getElem?_eq_some_iff.mp hi
    exact h.2 evt (heq ▸ List.getElem_mem hlt)

/-- One detection keeps the table within its bounds. -/
theorem Output_detection_wf (cfg : CycleConfig) (now : Int) (st : OutputState) (idx : Nat)
    (d : Detection) (e : DetEnv) (h : TableWf st.eventsCache)
    (h2 : 2 ≤ cfg.window_size) (h16 : cfg.window_size ≤ 16) :
    TableWf (Output_detection cfg now st idx d e).1.eventsCache := by
  have hf := find_or_create_wf st.eventsCache (d.label.getD "Undefined".toList) h
  unfold Output_detection
  dsimp only
  split
  · exact hf
  · split
    · rw [Output_crop_eventsCache]
      exact TableWf_set _ _ _ hf (Output_event_wf cfg _ now (TableWf_getD _ _ _ hf) h2 h16)
    · exact TableWf_set _ _ _ hf (Output_event_wf cfg _ now (TableWf_getD _ _ _ hf) h2 h16)

/-- The detection loop keeps the table within its bounds. -/
theorem Output_loop_wf (cfg : CycleConfig) (now : Int) (dets : List (Detection × DetEnv))
    (h2 : 2 ≤ cfg.window_size) (h16 : cfg.window_size ≤ 16) :
    ∀ (st : OutputState) (idx : Nat) (frame_labels : List CStr), TableWf st.eventsCache →
      TableWf (Output_loop cfg now dets st idx frame_labels).1.eventsCache := by
  induction dets with
  | nil => intro st idx frame_labels h; exact h
  | cons p rest ih =>
    intro st idx frame_labels h
    obtain ⟨d, e⟩ := p
    unfold Output_loop
    exact ih _ _ _ (Output_detection_wf cfg now st idx d e h h2 h16)

/-- The 0 samples of the absent labels keep the table within its bounds. -/
theorem Output_mark_absent_wf (cfg : CycleConfig) (frame_labels : List CStr)
    (cache : List LabelEventState) (h : TableWf cache)
    (h2 : 2 ≤ cfg.window_size) (h16 : cfg.window_size ≤ 16) :
    TableWf (Output_mark_absent cfg frame_labels cache) := by
  unfold Output_mark_absent
  split
  · refine ⟨by rw [List.length_map]; exact h.1, ?_⟩
    intro evt hevt
    obtain ⟨x, hx, rfl⟩ := List.mem_map.mp hevt
    split
    · exact h.2 x hx
    · exact Output_push_zero_wf _ x (h.2 x hx) h2 h16
  · exact h

/-- The function `Output` keeps the table within its bounds. -/
theorem Output_wf (st : OutputState) (env : CycleEnv)
    (detections : Option (List (Detection × DetEnv))) (h : TableWf st.eventsCache) :
    TableWf (Output st env detections).1.eventsCache := by
  unfold Output
  split
  · exact h
  · split
    · exact h
    · split
      · exact h
      · rename_i settings _
        have hb := Output_window_size_bounds env.averageInferenceTime env.inf_to_int
        exact Output_mark_absent_wf _ _ _
          (Output_loop_wf (Output_config settings env) env.now _ hb.1 hb.2 _ _ _ h) hb.1 hb.2

/-- The function `Output_DeactivateExpired` keeps the table within its bounds. -/
theorem Output_DeactivateExpired_wf (st : OutputState) (now : Int)
    (settings : Option Settings) (h : TableWf st.eventsCache) :
    TableWf (Output_DeactivateExpired st now settings).1.eventsCache := by
  unfold Output_DeactivateExpired
  split
  · exact h
  · refine ⟨by simp only [List.length_map]; exact h.1, ?_⟩
    intro evt hevt
    simp only [List.map_map, List.mem_map, Function.comp] at hevt
    obtain ⟨x, hx, rfl⟩ := hevt
    obtain ⟨hs, hl, hh, hc, hv⟩ := h.2 x hx
    unfold Output_deactivate_entry
    split
    · exact ⟨Or.inl rfl, hl, hh, hc, hv⟩
    · exact ⟨hs, hl, hh, hc, hv⟩

/-- Every reachable state has its table within its bounds. -/
theorem Reachable_wf (st : OutputState) (h : Reachable st) : TableWf st.eventsCache := by
  induction h with
  | init => exact ⟨by decide, by intro evt hevt; cases hevt⟩
  | output st env detections _ ih => exact Output_wf st env detections ih
  | deactivate st now settings _ ih => exact Output_DeactivateExpired_wf st now settings ih
  | reset st _ _ => exact ⟨Nat.zero_le _, by intro evt hevt; cases hevt⟩

/-! ## Reachable states -/

/-- C29: in every state reachable from the initial state by `Output`,
`Output_DeactivateExpired` and `Output_reset`, the table has at most 32 entries and
every entry has state 0 or 1, sixteen rolling cells holding 0 or 1, head below 16 and
count at most 16.  For any settings and any average inference time the window size lies
in `[2, 16]`, so the cell written by a push and the cells summed are cells of
`rolling`, and the index returned by the label lookup is an index of the table. -/
theorem reachable_state_in_bounds (st : OutputState) (h : Reachable st) :
    st.eventsCache.length ≤ 32 ∧
    (∀ evt ∈ st.eventsCache,
      (evt.state = 0 ∨ evt.state = 1) ∧ evt.rolling.length = 16 ∧ evt.rolling_head < 16 ∧
      evt.rolling_count ≤ 16 ∧ ∀ v ∈ evt.rolling, v = 0 ∨ v = 1) ∧
    (∀ (settings : Settings) (env : CycleEnv),
      2 ≤ (Output_config settings env).window_size ∧
      (Output_config settings env).window_size ≤ 16 ∧
      ∀ evt ∈ st.eventsCache,
        (evt.rolling_head + 1) % (Output_config settings env).window_size <
          evt.rolling.length ∧
        (if evt.rolling_count < (Output_config settings env).window_size
          then evt.rolling_count + 1 else evt.rolling_count) ≤ evt.rolling.length) ∧
    (∀ (label : CStr) (i : Nat),
      (find_or_create_label_state st.eventsCache label).2 = some i →
        i < (find_or_create_label_state st.eventsCache label).1.length ∧
        (find_or_create_label_state st.eventsCache label).1.length ≤ 32) := by
  have hwf := Reachable_wf st h
  refine ⟨hwf.1, hwf.2, ?_, ?_⟩
  · intro settings env
    have hb := Output_window_size_bounds env.averageInferenceTime env.inf_to_int
    refine ⟨hb.1, hb.2, ?_⟩
    intro evt hevt
    obtain ⟨_, hl, _, hc, _⟩ := hwf.2 evt hevt
    unfold MAX_ROLLING at hl hc
    have hw : (Output_config settings env).window_size =
        Output_window_size env.averageInferenceTime env.inf_to_int := rfl
    rw [hw, hl]
    refine ⟨lt_of_lt_of_le (Nat.mod_lt _ (by omega)) hb.2, ?_⟩
    split_ifs <;> omega
  · intro label i hi
    exact ⟨find_or_create_some_lt st.eventsCache label i hi,
      (find_or_create_wf st.eventsCache label hwf).1⟩

theorem reachable_state_in_bounds_witness :
    (Output OutputState.init (Scenario.cycle 1000 none)
      (some [Scenario.detection "person"])).1.eventsCache.length = 1 ∧
    ∀ evt ∈ (Output OutputState.init (Scenario.cycle 1000 none)
        (some [Scenario.detection "person"])).1.eventsCache,
      (evt.state = 0 ∨ evt.state = 1) ∧ evt.rolling.length = 16 ∧ evt.rolling_head < 16 ∧
      evt.rolling_count ≤ 16 ∧ ∀ v ∈ evt.rolling, v = 0 ∨ v = 1 :=
  ⟨by decide,
    (reachable_state_in_bounds _
      (Reachable.output OutputState.init (Scenario.cycle 1000 none)
        (some [Scenario.detection "person"]) Reachable.init)).2.1⟩

/-! ## The full table -/

/-- C28: a reachable table never holds more than 32 entries.  When the table holds 32
entries and a detection carries a label that the lookup does not find, the detection
leaves the state as it is (no entry created or modified, crop cache untouched) and has
an empty trace (no event, no crop, no sink call), and the loop goes on with the
remaining detections from that same state. -/
theorem full_table_refuses_new_label (cfg : CycleConfig) (now : Int) (st : OutputState)
    (idx : Nat) (d : Detection) (e : DetEnv) (rest : List (Detection × DetEnv))
    (frame_labels : List CStr)
    (hfull : st.eventsCache.length = MAX_LABELS)
    (hnew : find_label_state (d.label.getD "Undefined".toList) st.eventsCache = none) :
    (∀ st1 : OutputState, Reachable st1 → st1.eventsCache.length ≤ MAX_LABELS) ∧
    Output_detection cfg now st idx d e = (st, []) ∧
    Output_loop cfg now ((d, e) :: rest) st idx frame_labels =
      Output_loop cfg now rest st (idx + 1)
        (if frame_labels.length < MAX_LABELS
          then frame_labels ++ [(d.label.getD "Undefined".toList).take 63]
          else frame_labels) := by
  have hdet : Output_detection cfg now st idx d e = (st, []) := by
    have hf : find_or_create_label_state st.eventsCache (d.label.getD "Undefined".toList) =
        (st.eventsCache, none) := by
      unfold find_or_create_label_state
      rw [hnew]
      simp [hfull]
    rw [Output_detection_not_found cfg now st idx d e (by rw [hf]), hf]
  refine ⟨fun st1 h1 => (Reachable_wf st1 h1).1, hdet, ?_⟩
  rw [Output_loop, hdet]
  simp

theorem full_table_refuses_new_label_witness :
    Scenario.full_state.eventsCache.length = MAX_LABELS ∧
    Scenario.crop_config.cropping_active = true ∧
    Output_detection Scenario.crop_config 1600 Scenario.full_state 0
      (Scenario.detection "person").1 (Scenario.crop_env 1600) =
      (Scenario.full_state, []) ∧
    ((Output_loop Scenario.crop_config 1600
      [((Scenario.detection "person").1, Scenario.crop_env 1600), Scenario.detection "a"]
      Scenario.full_state 0 []).1.label_entry "a").map (fun evt => evt.rolling_count)
      = some 1 :=
  ⟨by decide, by decide,
    (full_table_refuses_new_label Scenario.crop_config 1600 Scenario.full_state 0
      (Scenario.detection "person").1 (Scenario.crop_env 1600) [] [] (by decide)
      (by decide)).2.1,
    by decide⟩

/-! ## Two runs of the filter stage -/

/-- The loop rewrites every object of the array, accepted or not. -/
theorem ImageProcess_array_raw (f : FilterConfig) (videoWidth videoHeight : Nat)
    (timestamp : Int) (detections : List RawDetection) :
    (ImageProcess_array f videoWidth videoHeight timestamp detections).map
        (fun a => a.raw) =
      detections.map (ImageProcess_rewrite videoWidth videoHeight) := by
  unfold ImageProcess_array
  rw [List.map_map]
  rfl

/-- A run of `ImageProcess` hands to `Output` what the function `ImageProcess` computes
from the array of its own call of `Model_Inference`, and leaves the globals `settings`
and `model` as they are. -/
theorem ImageProcess_run_processed (ps : ProgramState) (env : RunEnv) :
    (ImageProcess_run ps env).2.processedDetections =
      (ImageProcess ps.rate
        { settings := ps.settings, model := ps.model, capture_ok := env.capture_ok,
          detections := (Model_Inference env.inference).getD [],
          inferenceTime := env.inferenceTime,
          timestamp := env.timestamp }).processedDetections ∧
    (ImageProcess_run ps env).1.settings = ps.settings ∧
    (ImageProcess_run ps env).1.model = ps.model := by
  unfold ImageProcess_run ImageProcess
  cases hs : ps.settings with
  | none => exact ⟨rfl, hs, rfl⟩
  | some settings =>
    cases hm : ps.model with
    | none => exact ⟨rfl, hs, hm⟩
    | some model =>
      simp only []
      cases env.capture_ok with
      | false => exact ⟨rfl, hs, hm⟩
      | true =>
        simp only [Bool.not_true, Bool.false_eq_true, if_false]
        cases settings.aoi with
        | none => exact ⟨rfl, rfl, rfl⟩
        | some aoi =>
          cases settings.size with
          | none => exact ⟨rfl, rfl, rfl⟩
          | some size =>
            exact ⟨rfl, rfl, rfl⟩

/-- The pointer returned by `Model_Inference` is never NULL. -/
theorem Model_Inference_some (env : InferenceEnv) :
    Model_Inference env = some ((Model_Inference env).getD []) := by
  unfold Model_Inference
  repeat' split
  all_goals rfl

/-- What a run that reaches the call of `Output` has read and done: settings and model
with `aoi` and `size` present, a captured frame, the array of its own call of
`Model_Inference`, the accepted detections as a function of these, and the array
rewritten in place. -/
theorem ImageProcess_run_reached (ps : ProgramState) (env : RunEnv)
    (accepted : List Detection)
    (h : (ImageProcess_run ps env).2.processedDetections = some accepted) :
    ∃ (settings : Settings) (model : ModelInfo) (aoi : AoiSettings) (size : SizeSettings)
      (detections : List RawDetection),
      ps.settings = some settings ∧ ps.model = some model ∧ settings.aoi = some aoi ∧
      settings.size = some size ∧ env.capture_ok = true ∧
      Model_Inference env.inference = some detections ∧
      (ImageProcess_run ps env).2.detections = some detections ∧
      accepted = (detections.filter (fun d =>
        ImageProcess_insert (ImageProcess_filter_config settings aoi size)
          (ImageProcess_scale (toU32 (model.videoWidth.getD 1000))
            (toU32 (model.videoHeight.getD 1000)) d))).map
        (RawDetection.processed (toU32 (model.videoWidth.getD 1000))
          (toU32 (model.videoHeight.getD 1000)) env.timestamp) ∧
      ∃ array : List ArrayDetection, (ImageProcess_run ps env).2.deleted = some array ∧
        array.map (fun a => a.raw) = detections.map
          (ImageProcess_rewrite (toU32 (model.videoWidth.getD 1000))
            (toU32 (model.videoHeight.getD 1000))) := by
  unfold ImageProcess_run at h ⊢
  cases hs : ps.settings with
  | none => rw [hs] at h; simp at h
  | some settings =>
    cases hm : ps.model with
    | none => rw [hs, hm] at h; simp at h
    | some model =>
      rw [hs, hm] at h
      simp only [] at h ⊢
      cases hc : env.capture_ok with
      | false => rw [hc] at h; simp at h
      | true =>
        rw [hc] at h
        simp only [Bool.not_true, Bool.false_eq_true, if_false] at h ⊢
        cases ha : settings.aoi with
        | none => rw [ha] at h; simp at h
        | some aoi =>
          cases hz : settings.size with
          | none => rw [ha, hz] at h; simp at h
          | some size =>
            rw [ha, hz] at h
            simp only [Option.some.injEq] at h
            refine ⟨settings, model, aoi, size, (Model_Inference env.inference).getD [],
              rfl, rfl, ha, hz, trivial, Model_Inference_some env.inference, ?_, ?_, ?_⟩
            · simp only [ha, hz]
            · rw [← h]
              simp only [ha, hz, ImageProcess_filter_eq]
            · simp only [ha, hz]
              exact ⟨_, rfl, ImageProcess_array_raw _ _ _ _ _⟩

/-- Two runs from program states with the same globals, with the same capture outcome and
equal arrays from `Model_Inference`, hand the same detections to `Output`. -/
theorem ImageProcess_run_same (ps1 ps2 : ProgramState) (env1 env2 : RunEnv)
    (hsettings : ps1.settings = ps2.settings) (hmodel : ps1.model = ps2.model)
    (hcapture : env1.capture_ok = env2.capture_ok)
    (hdetections : Model_Inference env1.inference = Model_Inference env2.inference) :
    (ImageProcess_run ps2 env2).2.processedDetections.map
        (List.map Detection.without_timestamp) =
      (ImageProcess_run ps1 env1).2.processedDetections.map
        (List.map Detection.without_timestamp) ∧
    (env1.timestamp = env2.timestamp →
      (ImageProcess_run ps2 env2).2.processedDetections =
        (ImageProcess_run ps1 env1).2.processedDetections) := by
  rw [(ImageProcess_run_processed ps1 env1).1, (ImageProcess_run_processed ps2 env2).1]
  have h := ImageProcess_processed_same ps1.rate ps2.rate
    { settings := ps1.settings, model := ps1.model, capture_ok := env1.capture_ok,
      detections := (Model_Inference env1.inference).getD [],
      inferenceTime := env1.inferenceTime, timestamp := env1.timestamp }
    { settings := ps2.settings, model := ps2.model, capture_ok := env2.capture_ok,
      detections := (Model_Inference env2.inference).getD [],
      inferenceTime := env2.inferenceTime, timestamp := env2.timestamp }
    hsettings hmodel hcapture (by rw [hdetections])
  exact ⟨h.2.1.symm, fun ht => (h.2.2 ht).symm⟩

/-- C18: a second run of `ImageProcess`, started in the state the first run left (label
table, crop cache, throttle time stamp, latency accumulator) or in any other state with
the same `settings` and `model`, with the same capture outcome and an equal array from
its own call of `Model_Inference`, hands to `Output` the same accepted detections with
the same pixel coordinates as the first (the attached time stamp apart, which is the
clock of the run; with equal clocks the lists are equal).  The first run leaves the
globals `settings` and `model` as they are; it rewrites in place only the array of its
own call of `Model_Inference`, which it deletes; and its accepted list is the image of
the detections of that array for which `insert` is set, a function of the array, the
settings, the frame dimensions and the clock alone. -/
theorem filter_stage_repeatable (ps1 ps2 : ProgramState) (env1 env2 : RunEnv)
    (hsettings : ps1.settings = ps2.settings) (hmodel : ps1.model = ps2.model)
    (hcapture : env1.capture_ok = env2.capture_ok)
    (hdetections : Model_Inference env1.inference = Model_Inference env2.inference) :
    (ImageProcess_run (ImageProcess_run ps1 env1).1 env2).2.processedDetections.map
        (List.map Detection.without_timestamp) =
      (ImageProcess_run ps1 env1).2.processedDetections.map
        (List.map Detection.without_timestamp) ∧
    (env1.timestamp = env2.timestamp →
      (ImageProcess_run (ImageProcess_run ps1 env1).1 env2).2.processedDetections =
        (ImageProcess_run ps1 env1).2.processedDetections) ∧
    (ImageProcess_run ps2 env2).2.processedDetections.map
        (List.map Detection.without_timestamp) =
      (ImageProcess_run ps1 env1).2.processedDetections.map
        (List.map Detection.without_timestamp) ∧
    (env1.timestamp = env2.timestamp →
      (ImageProcess_run ps2 env2).2.processedDetections =
        (ImageProcess_run ps1 env1).2.processedDetections) ∧
    (ImageProcess_run ps1 env1).1.settings = ps1.settings ∧
    (ImageProcess_run ps1 env1).1.model = ps1.model ∧
    ∀ accepted : List Detection,
      (ImageProcess_run ps1 env1).2.processedDetections = some accepted →
      ∃ (settings : Settings) (model : ModelInfo) (aoi : AoiSettings) (size : SizeSettings)
        (detections : List RawDetection),
        ps1.settings = some settings ∧ ps1.model = some model ∧ settings.aoi = some aoi ∧
        settings.size = some size ∧ env1.capture_ok = true ∧
        Model_Inference env1.inference = some detections ∧
        (ImageProcess_run ps1 env1).2.detections = some detections ∧
        accepted = (detections.filter (fun d =>
          ImageProcess_insert (ImageProcess_filter_config settings aoi size)
            (ImageProcess_scale (toU32 (model.videoWidth.getD 1000))
              (toU32 (model.videoHeight.getD 1000)) d))).map
          (RawDetection.processed (toU32 (model.videoWidth.getD 1000))
            (toU32 (model.videoHeight.getD 1000)) env1.timestamp) ∧
        ∃ array : List ArrayDetection, (ImageProcess_run ps1 env1).2.deleted = some array ∧
          array.map (fun a => a.raw) = detections.map
            (ImageProcess_rewrite (toU32 (model.videoWidth.getD 1000))
              (toU32 (model.videoHeight.getD 1000))) := by
  have hg := ImageProcess_run_processed ps1 env1
  have hseq := ImageProcess_run_same ps1 (ImageProcess_run ps1 env1).1 env1 env2
    hg.2.1.symm hg.2.2.symm hcapture hdetections
  have hany := ImageProcess_run_same ps1 ps2 env1 env2 hsettings hmodel hcapture hdetections
  exact ⟨hseq.1, hseq.2, hany.1, hany.2, hg.2.1, hg.2.2,
    fun accepted h => ImageProcess_run_reached ps1 env1 accepted h⟩

set_option maxRecDepth 20000 in
theorem filter_stage_repeatable_witness :
    (ImageProcess_run Scenario.program_state (Scenario.run_env 100 5000)).1 ≠
      Scenario.program_state ∧
    (ImageProcess_run Scenario.program_state (Scenario.run_env 100 5000)).2.processedDetections
      = some [{ label := some "car".toList, c := some 75, timestamp := some 5000,
                x := some 250, y := some 375, w := some 500, h := some 250 }] ∧
    ((ImageProcess_run Scenario.program_state (Scenario.run_env 100 5000)).2.detections.map
        (List.map (fun d => d.x)) =
      some [{ num := 4503599627370496, den := 18014398509481984 },
            { num := 8556839292003943, den := 9007199254740992 }]) ∧
    ((ImageProcess_run Scenario.program_state (Scenario.run_env 100 5000)).2.deleted.map
        (List.map (fun a => (a.raw.x, a.timestamp))) =
      some [({ num := 250, den := 1 }, some 5000), ({ num := 950, den := 1 }, none)]) ∧
    ((ImageProcess_run (ImageProcess_run Scenario.program_state
        (Scenario.run_env 100 5000)).1 (Scenario.run_env 120 6000)).2.processedDetections.map
        (List.map Detection.without_timestamp) =
      (ImageProcess_run Scenario.program_state
        (Scenario.run_env 100 5000)).2.processedDetections.map
        (List.map Detection.without_timestamp)) :=
  ⟨by decide, by decide, by decide, by decide,
    (filter_stage_repeatable Scenario.program_state Scenario.program_state
      (Scenario.run_env 100 5000) (Scenario.run_env 120 6000) rfl rfl rfl rfl).1⟩

/-! ## Rounding of the scaled numbers -/

/-- The conversion follows the rounding of `double` arithmetic: `(int)(0.29 * 100)` is
28 and `(int)(0.3 * 100)` is 30, while `(int)(0.75 * 1000)` is the exact 750. -/
theorem Fraction.scale_rounds :
    Fraction.scale { num := 29, den := 100 } 100 = 28 ∧
    Fraction.scale { num := 3, den := 10 } 100 = 30 ∧
    Fraction.scale { num := 5404319552844595, den := 18014398509481984 } 100 = 30 ∧
    Fraction.scale { num := 3, den := 4 } 1000 = 750 := by
  refine ⟨by decide, by decide, by decide, by decide⟩

end DetectX
